import Mathlib

/-!
# Verification of the SCST reconciliation engine (truenas_pyscstadmin)

This file is a shallow embedding, in Lean 4, of the parts of the
`scstadmin` Python package that the specification's claims are about:

* the attribute-comparison helper `attrs_config_differs`
  (`scstadmin/writers/utils.py`) and the three-way device decision
  `DeviceWriter.determine_device_action` (`scstadmin/writers/device_writer.py`);
* the sysfs protocol client `SCSTSysfs.write_sysfs` / `_wait_for_completion`
  (`scstadmin/sysfs.py`);
* the state readers (`scstadmin/readers/*.py`);
* the writers (`scstadmin/writers/*.py`) and the orchestrator
  `SCSTAdmin.apply_configuration` / `_remove_conflicting_config`
  (`scstadmin/admin.py`);
* the configuration text scanner (`scstadmin/parser.py`).

The live sysfs control-plane tree is modelled by an explicit state value
(`SysfsState`).  File reads are lookups in that state; every *successful*
mutating control-plane write is recorded in an output list of `W` values
whose paths are built segment-wise exactly as the source builds its
f-string paths.  The kernel's reaction to a management command (adding a
LUN, deleting a device, ...) is modelled by the obvious state update; this
is the external collaborator of spec section 6 ("Control-plane tree"), not
code of the repository.  Writes to paths that do not exist fail in the
source (`write_sysfs` raises) and are therefore not recorded and cause no
state change; all theorems below concern runs in which no *required* write
fails, so the abort-on-required-failure path of the source is never
exercised.  Python dicts are modelled as insertion-ordered association
lists with unique keys; Python sets built by the code are modelled by the
list operations that produce the same membership.
-/

set_option maxRecDepth 4000

/-! ## Association-list maps (Python `dict`) -/

/-- Insertion-ordered association list, the model of a Python `dict`
with string keys and string values. -/
abbrev AttrMap := List (String × String)

/-- `dict.get(k)`: first binding of `k`, if any. -/
def amFind (m : AttrMap) (k : String) : Option String :=
  match m with
  | [] => none
  | (k', v) :: rest => if k' = k then some v else amFind rest k

/-- `k in dict`. -/
def amHas (m : AttrMap) (k : String) : Bool :=
  (amFind m k).isSome

/-- `dict[k] = v` (overwrite keeps the original position, appends otherwise),
matching Python dict assignment. -/
def amSet (m : AttrMap) (k v : String) : AttrMap :=
  match m with
  | [] => [(k, v)]
  | (k', v') :: rest => if k' = k then (k', v) :: rest else (k', v') :: amSet rest k v

/-- `del dict[k]` (removes every binding of `k`). -/
def amDel (m : AttrMap) (k : String) : AttrMap :=
  m.filter (fun kv => kv.1 ≠ k)

/-- Key list of a dict. -/
def amKeys (m : AttrMap) : List String :=
  m.map (·.1)

/-- Python `dict ==`: same keys, same values (association lists with unique
keys are compared as finite maps). -/
def amEq (a b : AttrMap) : Bool :=
  a.all (fun kv => amFind b kv.1 = some kv.2) && b.all (fun kv => amFind a kv.1 = some kv.2)

/-- Python `set ==` on string collections (membership in both directions). -/
def setEq (a b : List String) : Bool :=
  a.all (fun x => b.contains x) && b.all (fun x => a.contains x)

/-! ## Configuration model (`scstadmin/config.py`) -/

/-- `ConfigAction`: decision for an existing entity. -/
inductive ConfigAction where
  | skip
  | update
  | recreate
deriving DecidableEq, Repr

/-- Creation-time parameter set of `VdiskFileioDeviceConfig`
(`_CREATION_PARAMS` in `config.py`). -/
def fileioCreationParams : List String :=
  ["active", "async", "blocksize", "cluster_mode", "dif_filename", "dif_mode",
   "dif_static_app_tag", "dif_type", "filename", "numa_node_id", "nv_cache",
   "o_direct", "read_only", "removable", "rotational", "thin_provisioned",
   "tst", "t10_dev_id", "write_through"]

/-- Creation-time parameter set of `VdiskBlockioDeviceConfig`. -/
def blockioCreationParams : List String :=
  ["active", "bind_alua_state", "blocksize", "cluster_mode", "dif_filename",
   "dif_mode", "dif_static_app_tag", "dif_type", "filename", "numa_node_id",
   "nv_cache", "read_only", "removable", "rotational", "thin_provisioned",
   "tst", "t10_dev_id", "write_through"]

/-- Device configuration: the closed set of handler variants of `config.py`
(`VdiskFileioDeviceConfig`, `VdiskBlockioDeviceConfig`, `DevDiskDeviceConfig`).
Each constructor carries the dataclass fields of its variant: the dedicated
optional fields and the residual `attributes` dict. -/
inductive DeviceConfig where
  | vdiskFileio (filename : String) (blocksize readonly removable rotational thinProvisioned : Option String)
      (attributes : AttrMap)
  | vdiskBlockio (filename : String) (blocksize nvCache oDirect readonly rotational thinProvisioned : Option String)
      (attributes : AttrMap)
  | devDisk (filename : String) (readonly rotational thinProvisioned : Option String)
      (attributes : AttrMap)
deriving DecidableEq, Repr

/-- `DeviceConfig.handler_type`. -/
def DeviceConfig.handlerType : DeviceConfig → String
  | .vdiskFileio .. => "vdisk_fileio"
  | .vdiskBlockio .. => "vdisk_blockio"
  | .devDisk .. => "dev_disk"

/-- `_CREATION_PARAMS` of the variant (`dev_disk` has none). -/
def DeviceConfig.creationParamsSet : DeviceConfig → List String
  | .vdiskFileio .. => fileioCreationParams
  | .vdiskBlockio .. => blockioCreationParams
  | .devDisk .. => []

/-- Helper for the `if self.field: attrs[...] = self.field` pattern of
`creation_attributes`: a Python `Optional[str]` field is truthy when it is
set and non-empty. -/
def optAttr (m : AttrMap) (k : String) : Option String → AttrMap
  | none => m
  | some v => if v = "" then m else m ++ [(k, v)]

/-- `DeviceConfig.creation_attributes`: creation-time attributes, from the
dedicated fields plus any residual attribute named in `_CREATION_PARAMS`
(iterated in `_CREATION_PARAMS` order, as the source iterates the set). -/
def DeviceConfig.creationAttributes : DeviceConfig → AttrMap
  | .vdiskFileio filename blocksize readonly removable rotational thinP attrs =>
      let m := if filename = "" then [] else [("filename", filename)]
      let m := optAttr m "blocksize" blocksize
      let m := optAttr m "read_only" readonly
      let m := optAttr m "removable" removable
      let m := optAttr m "rotational" rotational
      let m := optAttr m "thin_provisioned" thinP
      fileioCreationParams.foldl
        (fun m p => match amFind attrs p with
          | some v => amSet m p v
          | none => m) m
  | .vdiskBlockio filename blocksize nvCache oDirect readonly rotational thinP attrs =>
      let m := if filename = "" then [] else [("filename", filename)]
      let m := optAttr m "blocksize" blocksize
      let m := optAttr m "nv_cache" nvCache
      let m := optAttr m "o_direct" oDirect
      let m := optAttr m "read_only" readonly
      let m := optAttr m "rotational" rotational
      let m := optAttr m "thin_provisioned" thinP
      blockioCreationParams.foldl
        (fun m p => match amFind attrs p with
          | some v => amSet m p v
          | none => m) m
  | .devDisk _ _ _ _ _ => []

/-- `DeviceConfig.post_creation_attributes`. -/
def DeviceConfig.postCreationAttributes : DeviceConfig → AttrMap
  | .vdiskFileio _ _ _ _ _ _ attrs =>
      attrs.filter (fun kv => ¬ fileioCreationParams.contains kv.1)
  | .vdiskBlockio _ _ _ _ _ _ _ attrs =>
      attrs.filter (fun kv => ¬ blockioCreationParams.contains kv.1)
  | .devDisk _ readonly rotational thinP attrs =>
      let m := optAttr [] "read_only" readonly
      let m := optAttr m "rotational" rotational
      let m := optAttr m "thin_provisioned" thinP
      attrs.foldl (fun m kv => amSet m kv.1 kv.2) m

/-- `LunConfig`: a LUN assignment (`device = ""` models the parser's
`device: None` for a `LUN <n>` line with no device). -/
structure LunConfig where
  device : String
  attributes : AttrMap
deriving DecidableEq, Repr

/-- `InitiatorGroupConfig`. -/
structure InitiatorGroupConfig where
  initiators : List String
  luns : List (String × LunConfig)
  attributes : AttrMap
deriving DecidableEq, Repr

/-- `TargetConfig`. -/
structure TargetConfig where
  luns : List (String × LunConfig)
  groups : List (String × InitiatorGroupConfig)
  attributes : AttrMap
deriving DecidableEq, Repr

/-- `DriverConfig`. -/
structure DriverConfig where
  targets : List (String × TargetConfig)
  attributes : AttrMap
deriving DecidableEq, Repr

/-- `TargetGroupConfig` (ALUA path group). -/
structure TargetGroupConfig where
  targets : List String
  targetAttributes : List (String × AttrMap)
  attributes : AttrMap
deriving DecidableEq, Repr

/-- `DeviceGroupConfig`. -/
structure DeviceGroupConfig where
  devices : List String
  targetGroups : List (String × TargetGroupConfig)
  attributes : AttrMap
deriving DecidableEq, Repr

/-- `SCSTConfig`: the full desired-state container. -/
structure SCSTConfig where
  handlers : List String := []
  devices : List (String × DeviceConfig) := []
  drivers : List (String × DriverConfig) := []
  deviceGroups : List (String × DeviceGroupConfig) := []
  scstAttributes : AttrMap := []
deriving DecidableEq, Repr

/-- Generic association lookup for configuration maps. -/
def alFind {α : Type} (m : List (String × α)) (k : String) : Option α :=
  match m with
  | [] => none
  | (k', v) :: rest => if k' = k then some v else alFind rest k

/-! ## The live control-plane tree (`SysfsState`)

Structured model of the sysfs subtree under `/sys/kernel/scst_tgt`.
Attribute files hold their first-line value in an `AttrMap`; the names of
attribute files whose *full* content carries the `[key]` marker are listed
separately (`keyed`), mirroring `read_sysfs_attribute` (first line) versus
`read_sysfs` (full content) in `sysfs.py`. -/

/-- A live SCST device: directory under `handlers/<h>/<name>`. -/
structure LiveDevice where
  name : String
  attrs : AttrMap
  keyed : List String
deriving DecidableEq, Repr

/-- A live handler directory. -/
structure LiveHandler where
  name : String
  devices : List LiveDevice
deriving DecidableEq, Repr

/-- A live LUN directory `luns/<number>` with its `device` symlink
(`device = ""` models a broken/absent symlink, the `""` of
`_get_current_lun_device`) and its attribute files. -/
structure LiveLun where
  number : String
  device : String
  attrs : AttrMap
deriving DecidableEq, Repr

/-- A live initiator group `ini_groups/<name>`: initiator files and LUNs. -/
structure LiveIniGroup where
  name : String
  initiators : List String
  luns : List LiveLun
deriving DecidableEq, Repr

/-- A live session directory with its `force_close` file presence. -/
structure LiveSession where
  name : String
  hasForceClose : Bool
deriving DecidableEq, Repr

/-- A live target directory under `targets/<driver>/<target>`.
`hasLuns`/`hasIniGroups`/`hasSessions` model the presence of the
corresponding sub-directories (used by target classification);
`lunsMgmtParams` models the "parameters available" list of the
`luns/mgmt` help text. -/
structure LiveTarget where
  name : String
  attrs : AttrMap
  hasLuns : Bool
  luns : List LiveLun
  hasIniGroups : Bool
  iniGroups : List LiveIniGroup
  hasSessions : Bool
  sessions : List LiveSession
  lunsMgmtParams : List String
deriving DecidableEq, Repr

/-- The three attribute-name sets parsed from a driver's `mgmt` help text
(`_parse_target_mgmt_interface`); modelled directly as the parsed result,
part of the live driver state. -/
structure MgmtInfo where
  createParams : List String := []
  driverAttributes : List String := []
  targetAttributes : List String := []
deriving DecidableEq, Repr

/-- A live target driver directory. -/
structure LiveDriver where
  name : String
  attrs : AttrMap
  keyed : List String
  targets : List LiveTarget
  mgmtInfo : MgmtInfo
deriving DecidableEq, Repr

/-- An entry of a live ALUA target group: a directory (with per-target
attribute files) or a symlink into `targets/<driver>/<target>`.
`os.path.isdir` follows symlinks, so a symlink entry counts as a directory
exactly when its destination target exists. -/
inductive TGEntryKind where
  | dir (attrs : AttrMap)
  | symlink (driver target : String)
deriving DecidableEq, Repr

/-- A named target-group entry. -/
structure TGEntry where
  name : String
  kind : TGEntryKind
deriving DecidableEq, Repr

/-- A live ALUA target group under `device_groups/<dg>/target_groups/<tg>`. -/
structure LiveTargetGroup where
  name : String
  entries : List TGEntry
  attrs : AttrMap
deriving DecidableEq, Repr

/-- A live device group: `devices/` holds symlinks to devices,
`target_groups/` holds the ALUA groups, `attrs` the group-level attribute
files directly under `device_groups/<dg>/`. -/
structure LiveDeviceGroup where
  name : String
  devices : List String
  targetGroups : List LiveTargetGroup
  attrs : AttrMap := []
deriving DecidableEq, Repr

/-- The modelled live control-plane tree.  `readerDriverAttrs` is the
mutable class attribute `TargetReader.DRIVER_ATTRIBUTES`: `read_drivers`
mutates the per-driver sets in place (`driver_attrs_for_skip.update(...)`
aliases them), so the table is threaded through the state. -/
structure SysfsState where
  handlers : List LiveHandler
  drivers : List LiveDriver
  deviceGroups : List LiveDeviceGroup
  scstAttrs : AttrMap
  readerDriverAttrs : List (String × List String)
deriving DecidableEq, Repr

/-- Initial content of `TargetReader.DRIVER_ATTRIBUTES`. -/
def initialReaderDriverAttrs : List (String × List String) :=
  [("copy_manager", ["copy_manager_tgt", "dif_capabilities", "allow_not_connected_copy"]),
   ("iscsi", ["link_local", "isns_entity_name", "internal_portal", "trace_level",
              "open_state", "version", "iSNSServer", "enabled", "mgmt"])]

/-! ### Path constants (`SCSTSysfs`) and the write log -/

/-- `/sys/kernel/scst_tgt`, as path segments. -/
def SCST_ROOT : List String := ["sys", "kernel", "scst_tgt"]

def SCST_HANDLERS : List String := SCST_ROOT ++ ["handlers"]

def SCST_DEVICES : List String := SCST_ROOT ++ ["devices"]

def SCST_TARGETS : List String := SCST_ROOT ++ ["targets"]

def SCST_DEV_GROUPS : List String := SCST_ROOT ++ ["device_groups"]

/-- A successful mutating control-plane write: target path (as segments)
and the written data string, built at each call site exactly as the Python
source builds the f-string path and data. -/
structure W where
  path : List String
  data : String
deriving DecidableEq, Repr

/-- Result of a state-transforming step: the writes it performed and the
state after it. -/
abbrev Res := List W × SysfsState

/-! ### State lookups and updates -/

def findHandler (s : SysfsState) (h : String) : Option LiveHandler :=
  s.handlers.find? (fun lh => lh.name = h)

def findDevice (s : SysfsState) (h name : String) : Option LiveDevice :=
  match findHandler s h with
  | none => none
  | some lh => lh.devices.find? (fun d => d.name = name)

def findDriver (s : SysfsState) (d : String) : Option LiveDriver :=
  s.drivers.find? (fun ld => ld.name = d)

def findTarget (s : SysfsState) (d t : String) : Option LiveTarget :=
  match findDriver s d with
  | none => none
  | some ld => ld.targets.find? (fun lt => lt.name = t)

def findIniGroup (s : SysfsState) (d t g : String) : Option LiveIniGroup :=
  match findTarget s d t with
  | none => none
  | some lt => lt.iniGroups.find? (fun lg => lg.name = g)

def findDeviceGroup (s : SysfsState) (g : String) : Option LiveDeviceGroup :=
  s.deviceGroups.find? (fun dg => dg.name = g)

def findTargetGroup (s : SysfsState) (dg tg : String) : Option LiveTargetGroup :=
  match findDeviceGroup s dg with
  | none => none
  | some g => g.targetGroups.find? (fun t => t.name = tg)

/-- `entity_exists` on a device path (`DeviceWriter.device_exists`). -/
def deviceExists (s : SysfsState) (h name : String) : Bool :=
  (findDevice s h name).isSome

/-- `TargetWriter._target_exists`. -/
def targetExists (s : SysfsState) (d t : String) : Bool :=
  (findTarget s d t).isSome

/-- `TargetWriter._lun_exists`. -/
def lunExists (s : SysfsState) (d t lun : String) : Bool :=
  match findTarget s d t with
  | none => false
  | some lt => lt.luns.any (fun l => l.number = lun)

/-- `TargetWriter._group_exists`. -/
def groupExists (s : SysfsState) (d t g : String) : Bool :=
  (findIniGroup s d t g).isSome

/-- Whether a device of this name exists under any handler (resolution of
a `device_groups/.../devices/<name>` symlink). -/
def deviceExistsAnywhere (s : SysfsState) (name : String) : Bool :=
  s.handlers.any (fun lh => lh.devices.any (fun d => d.name = name))

/-- Map-update helpers. -/
def updDriver (s : SysfsState) (d : String) (f : LiveDriver → LiveDriver) : SysfsState :=
  { s with drivers := s.drivers.map (fun ld => if ld.name = d then f ld else ld) }

def updTarget (s : SysfsState) (d t : String) (f : LiveTarget → LiveTarget) : SysfsState :=
  updDriver s d (fun ld => { ld with targets := ld.targets.map (fun lt => if lt.name = t then f lt else lt) })

def updIniGroup (s : SysfsState) (d t g : String) (f : LiveIniGroup → LiveIniGroup) : SysfsState :=
  updTarget s d t (fun lt => { lt with iniGroups := lt.iniGroups.map (fun lg => if lg.name = g then f lg else lg) })

def updHandler (s : SysfsState) (h : String) (f : LiveHandler → LiveHandler) : SysfsState :=
  { s with handlers := s.handlers.map (fun lh => if lh.name = h then f lh else lh) }

def updDeviceGroup (s : SysfsState) (g : String) (f : LiveDeviceGroup → LiveDeviceGroup) : SysfsState :=
  { s with deviceGroups := s.deviceGroups.map (fun dg => if dg.name = g then f dg else dg) }

def updTargetGroup (s : SysfsState) (dg tg : String) (f : LiveTargetGroup → LiveTargetGroup) : SysfsState :=
  updDeviceGroup s dg (fun g => { g with targetGroups := g.targetGroups.map (fun t => if t.name = tg then f t else t) })

/-- `os.path.isdir` on a target-group entry: directories are directories;
a symlink counts when its destination target exists (`isdir` follows
symlinks). -/
def tgEntryIsDir (s : SysfsState) (e : TGEntry) : Bool :=
  match e.kind with
  | .dir _ => true
  | .symlink d t => targetExists s d t

/-- Read an attribute file under a target-group entry: for a directory
entry, its own attribute file; for a symlink entry, the resolved target's
attribute file (`os.path.exists` and the read both follow the symlink). -/
def tgEntryAttr (s : SysfsState) (e : TGEntry) (attr : String) : Option String :=
  match e.kind with
  | .dir attrs => amFind attrs attr
  | .symlink d t =>
      match findTarget s d t with
      | some lt => amFind lt.attrs attr
      | none => none

/-- All attribute files visible under a target-group entry (through the
symlink for a resolving symlink entry). -/
def tgEntryAttrsAll (s : SysfsState) (e : TGEntry) : AttrMap :=
  match e.kind with
  | .dir attrs => attrs
  | .symlink d t =>
      match findTarget s d t with
      | some lt => lt.attrs
      | none => []

/-! ## Writer utilities (`scstadmin/writers/utils.py`) -/

/-- `SCSTConstants.SUCCESS_RESULT`. -/
def SUCCESS_RESULT : String := "0"

/-- Model of Python `set` iteration over a list's distinct members
(first occurrences kept). -/
def dedup : List String → List String
  | [] => []
  | x :: xs => x :: (dedup xs).filter (fun y => y ≠ x)

/-- `attrs_config_differs(desired, current, skip_attrs, removable_attrs)`:
any desired attribute (outside `skip_attrs`) whose current value differs
— a current value of `None` matches a desired `"0"` — or any removable
attribute present live but absent from desired. -/
def attrsConfigDiffers (desired current : AttrMap) (skipAttrs : List String)
    (removableAttrs : List String) : Bool :=
  desired.any (fun kv =>
    if skipAttrs.contains kv.1 then false
    else
      match amFind current kv.1 with
      | none => decide (kv.2 ≠ SUCCESS_RESULT)
      | some cur => decide (cur ≠ kv.2))
  || removableAttrs.any (fun a => ¬ amHas desired a && (amFind current a).isSome)

/-- Structural split of a character list at a separator character. -/
def chSplitOn (sep : Char) : List Char → List (List Char)
  | [] => [[]]
  | c :: cs =>
      match chSplitOn sep cs with
      | [] => [[]]
      | g :: gs => if c = sep then [] :: g :: gs else (c :: g) :: gs

/-- Python `str.split(sep)` for a one-character separator (structural, so
concrete instances reduce inside the kernel, unlike `String.splitOn`). -/
def sSplitOnChar (s : String) (sep : Char) : List String :=
  (chSplitOn sep s.data).map String.mk

/-- Structural split of a character list at whitespace runs. -/
def chSplitWs : List Char → List (List Char)
  | [] => [[]]
  | c :: cs =>
      match chSplitWs cs with
      | [] => [[]]
      | g :: gs => if c.isWhitespace then [] :: g :: gs else (c :: g) :: gs

/-- Python `str.strip()` (structural counterpart of `String.trim`). -/
def sTrim (s : String) : String :=
  String.mk (((s.data.dropWhile Char.isWhitespace).reverse.dropWhile Char.isWhitespace).reverse)

/-- Python `str.startswith(pre)`. -/
def sStartsWith (s pre : String) : Bool := pre.data.isPrefixOf s.data

/-- Python `str.endswith(suf)`. -/
def sEndsWith (s suf : String) : Bool := suf.data.isSuffixOf s.data

/-- Python `c in s` for a single character. -/
def sContains (s : String) (c : Char) : Bool := s.data.contains c

/-- Python `s.replace(c, "")` for a single character: drop every
occurrence. -/
def sRemoveChar (s : String) (c : Char) : String :=
  String.mk (s.data.filter (fun x => x ≠ c))

/-- Structural left-to-right replacement of the two-character pattern
`a b` by the single character `r` (Python `s.replace(ab, r)` for the
two-character patterns the source uses). -/
def chReplace2 (a b r : Char) : List Char → List Char
  | [] => []
  | [x] => [x]
  | x :: y :: rest =>
      if x = a ∧ y = b then r :: chReplace2 a b r rest
      else x :: chReplace2 a b r (y :: rest)

/-- String wrapper of `chReplace2`. -/
def sReplace2 (s : String) (a b r : Char) : String :=
  String.mk (chReplace2 a b r s.data)

/-! ## Readers (`scstadmin/readers`) -/

/-- The filtered-read loop shared by `_get_current_device_attrs` and
`_get_current_target_attrs`: try to read each requested attribute and
collect the ones that exist. -/
def collectAttrs (read : String → Option String) (filterAttrs : List String) : AttrMap :=
  filterAttrs.foldl
    (fun m attr =>
      match read attr with
      | some v => amSet m attr v
      | none => m) []

/-- `DeviceReader._get_current_device_attrs` in filtered mode: read each
requested attribute file (skipping the `handler` symlink), keeping the
ones that exist. -/
def deviceAttrRead (dev : LiveDevice) (attr : String) : Option String :=
  if attr = "handler" then none else amFind dev.attrs attr

def getCurrentDeviceAttrs (dev : LiveDevice) (filterAttrs : List String) : AttrMap :=
  collectAttrs (deviceAttrRead dev) filterAttrs

/-- Numbered-variant collector of `_get_current_target_attrs`: read
`attr`, `attr1`, `attr2`, ... until a file is absent, collecting the
non-empty values.  Fuel bounds the scan (there can be no more numbered
files than attribute entries). -/
def collectNumbered (attrs : AttrMap) (base : String) : Nat → Nat → List String
  | 0, _ => []
  | fuel + 1, counter =>
      match amFind attrs (base ++ toString counter) with
      | some v =>
          let rest := collectNumbered attrs base fuel (counter + 1)
          if v = "" then rest else v :: rest
      | none => []

/-- Multi-value read of one target attribute: base file then numbered
variants, joined with `;` (`_get_current_target_attrs`, mgmt-managed
branch).  Returns `none` when nothing was collected. -/
def readTargetAttrJoined (t : LiveTarget) (attr : String) : Option String :=
  let baseVals :=
    match amFind t.attrs attr with
    | some v => if v = "" then [] else [v]
    | none => []
  let vals := baseVals ++ collectNumbered t.attrs attr (t.attrs.length + 1) 1
  if vals.isEmpty then none else some (String.intercalate ";" vals)

/-- Per-attribute read of `_get_current_target_attrs`: creation-time
parameters are skipped, mgmt-managed attributes get the multi-value
joined read, others a plain read. -/
def targetAttrRead (mgmt : MgmtInfo) (t : LiveTarget) (attr : String) : Option String :=
  if mgmt.createParams.contains attr then none
  else if mgmt.targetAttributes.contains attr then readTargetAttrJoined t attr
  else amFind t.attrs attr

/-- `TargetReader._get_current_target_attrs` in filtered mode. -/
def getCurrentTargetAttrs (mgmt : MgmtInfo) (t : LiveTarget) (filterAttrs : List String) : AttrMap :=
  collectAttrs (targetAttrRead mgmt t) filterAttrs

/-- `TargetReader._get_current_lun_device`: follow the `device` symlink of
a direct LUN, `""` when the LUN or symlink is absent. -/
def getCurrentLunDevice (s : SysfsState) (d t lun : String) : String :=
  match findTarget s d t with
  | none => ""
  | some lt =>
      match lt.luns.find? (fun l => l.number = lun) with
      | some l => l.device
      | none => ""

/-- `TargetReader._get_current_group_lun_device`. -/
def getCurrentGroupLunDevice (s : SysfsState) (d t g lun : String) : String :=
  match findIniGroup s d t g with
  | none => ""
  | some lg =>
      match lg.luns.find? (fun l => l.number = lun) with
      | some l => l.device
      | none => ""

/-- `TargetReader._get_target_create_params`: desired target attributes
that the driver's mgmt help lists as creation parameters. -/
def getTargetCreateParams (mgmt : MgmtInfo) (targetAttrs : AttrMap) : AttrMap :=
  targetAttrs.filter (fun kv => mgmt.createParams.contains kv.1)

/-- `TargetReader._get_lun_create_params`: LUN attributes that the
`luns/mgmt` help lists as available parameters. -/
def getLunCreateParams (s : SysfsState) (d t : String) (lunAttrs : AttrMap) : AttrMap :=
  match findTarget s d t with
  | none => []
  | some lt => lunAttrs.filter (fun kv => lt.lunsMgmtParams.contains kv.1)

/-- `DeviceReader.read_devices`: device names with their handler type,
recovered from the handler symlink (in the model, from the owning handler
directory). -/
def readDevices (s : SysfsState) : List (String × String) :=
  s.handlers.foldl (fun acc lh => acc ++ lh.devices.map (fun d => (d.name, lh.name))) []

/-- `_read_attribute_if_non_default`: the clean value when the full file
content carries the `[key]` marker, else `none`. -/
def readAttrIfNonDefault (attrs : AttrMap) (keyed : List String) (attr : String) : Option String :=
  match amFind attrs attr with
  | some v => if keyed.contains attr then some v else none
  | none => none

/-- Attribute names skipped by the `read_drivers` driver-attribute loop. -/
def readDriversSkipSet : List String := ["mgmt", "type", "trace_level", "open_state", "version"]

/-- Driver attributes section of `read_drivers` for one driver: the
`[key]`-marked values of the known driver attributes, then the glob-joined
mgmt driver attributes. -/
def readDriverAttributes (tableEntry : List String) (ld : LiveDriver) : AttrMap :=
  let m := tableEntry.foldl
    (fun m attrName =>
      if readDriversSkipSet.contains attrName then m
      else
        match readAttrIfNonDefault ld.attrs ld.keyed attrName with
        | some v => amSet m attrName v
        | none => m) []
  ld.mgmtInfo.driverAttributes.foldl
    (fun m attrName =>
      let collected := (ld.attrs.filter (fun kv => sStartsWith kv.1 attrName ∧ kv.2 ≠ "")).map (·.2)
      if collected.isEmpty then m else amSet m attrName (String.intercalate ";" collected)) m

/-- Target classification of `read_drivers`: directory entries outside the
known driver attributes (plus `mgmt`/`enabled`) that contain a `luns`,
`ini_groups` or `sessions` sub-directory. -/
def classifiedTargets (skipSet : List String) (ld : LiveDriver) : List LiveTarget :=
  ld.targets.filter (fun lt =>
    ¬ skipSet.contains lt.name ∧ (lt.hasLuns || lt.hasIniGroups || lt.hasSessions))

/-- `TargetReader.read_drivers`.  Returns the discovered driver
configurations (targets carry *empty* LUN/group maps — discovery only)
together with the updated `DRIVER_ATTRIBUTES` table: the source's
`driver_attrs_for_skip.update({mgmt, enabled})` mutates the shared
per-driver set in place when the driver has an entry. -/
def readDrivers (s : SysfsState) : List (String × DriverConfig) × List (String × List String) :=
  s.drivers.foldl
    (fun (acc : List (String × DriverConfig) × List (String × List String)) ld =>
      let (out, table) := acc
      let entry := alFind table ld.name
      let attrs := readDriverAttributes (entry.getD []) ld
      let skipSet := (entry.getD []) ++ ["mgmt", "enabled"]
      let targets := (classifiedTargets skipSet ld).map
        (fun lt => (lt.name, ({ luns := [], groups := [], attributes := [] } : TargetConfig)))
      let table' :=
        match entry with
        | some e =>
            table.map (fun p => if p.1 = ld.name then (p.1, e ++ ["mgmt", "enabled"]) else p)
        | none => table
      (out ++ [(ld.name, { targets := targets, attributes := attrs })], table'))
    ([], s.readerDriverAttrs)

/-- `DeviceGroupReader.read_device_groups`.  Every non-`mgmt` directory
entry of a target group — true target entries and the group's attribute
files alike — is appended to `targets`; per-target attributes are read for
every name passing `os.path.isdir`, which follows symlinks, so a resolving
symlink entry contributes the *resolved* target's attribute files (an
attribute file fails `isdir` and contributes none); they are kept only
when non-empty.  The group-level and target-group-level `attributes`
dicts are never read and stay empty. -/
def readDeviceGroups (s : SysfsState) : List (String × DeviceGroupConfig) :=
  s.deviceGroups.map (fun dg =>
    let tgs := dg.targetGroups.map (fun tg =>
      let targetAttrs := (tg.entries.filter (fun e => e.name ≠ "mgmt")).foldl
        (fun acc e =>
          if tgEntryIsDir s e then
            let attrs := (tgEntryAttrsAll s e).filter (fun kv => kv.1 ≠ "mgmt")
            if attrs.isEmpty then acc else acc ++ [(e.name, attrs)]
          else acc) []
      (tg.name, ({ targets := (tg.entries.map (·.name) ++ tg.attrs.map (·.1)).filter (· ≠ "mgmt"),
                   targetAttributes := targetAttrs,
                   attributes := [] } : TargetGroupConfig)))
    (dg.name, { devices := dg.devices.filter (· ≠ "mgmt"), targetGroups := tgs, attributes := [] }))

/-- `create_device_config`, as used by
`DeviceReader._create_minimal_device_config` (with `filename = ""`):
the factory keyed on the handler type, `none` for unknown handlers. -/
def createMinimalDeviceConfig (handlerType : String) : Option DeviceConfig :=
  if handlerType = "vdisk_fileio" then
    some (DeviceConfig.vdiskFileio "" none none none none none [])
  else if handlerType = "vdisk_blockio" then
    some (DeviceConfig.vdiskBlockio "" none none none none none none [])
  else if handlerType = "dev_disk" then
    some (DeviceConfig.devDisk "" none none none [])
  else
    none

/-- `SCSTConfigurationReader.read_current_config`: lightweight discovery
of live handlers, devices, drivers and device groups (names and shapes,
not detailed attributes), plus the reader-table side effect. -/
def readCurrentConfig (s : SysfsState) : SCSTConfig × SysfsState :=
  let (drivers, table) := readDrivers s
  let cfg : SCSTConfig :=
    { handlers := s.handlers.map (·.name)
      devices := (readDevices s).foldl
        (fun acc p =>
          match createMinimalDeviceConfig p.2 with
          | some dc => acc ++ [(p.1, dc)]
          | none => acc) []
      drivers := drivers
      deviceGroups := readDeviceGroups s
      scstAttributes := [] }
  (cfg, { s with readerDriverAttrs := table })

/-! ## Device writer (`scstadmin/writers/device_writer.py`) -/

/-- `DeviceWriter.set_device_attributes`: one direct sysfs write per
post-creation attribute (failures are logged and skipped; in the model an
attribute write succeeds on an existing device). -/
def setDeviceAttributes (handler deviceName : String) (attrs : AttrMap) (s : SysfsState) : Res :=
  attrs.foldl
    (fun (r : Res) kv =>
      let (ws, s) := r
      if deviceExists s handler deviceName then
        (ws ++ [⟨SCST_HANDLERS ++ [handler, deviceName, kv.1], kv.2⟩],
         updHandler s handler (fun lh =>
           { lh with devices := lh.devices.map (fun d =>
               if d.name = deviceName then { d with attrs := amSet d.attrs kv.1 kv.2 } else d) }))
      else (ws, s))
    ([], s)

/-- `DeviceWriter.remove_device`: `del_device` on the handler's mgmt file. -/
def removeDevice (handler deviceName : String) (s : SysfsState) : Res :=
  match findHandler s handler with
  | none => ([], s)
  | some _ =>
      ([⟨SCST_HANDLERS ++ [handler, "mgmt"], "del_device " ++ deviceName⟩],
       updHandler s handler (fun lh =>
         { lh with devices := lh.devices.filter (fun d => d.name ≠ deviceName) }))

/-- `DeviceWriter.remove_device_by_name`: find the owning handler by
directory listing, then `del_device` there (first handler listing the
device, as the source breaks out of its loop). -/
def removeDeviceByName (deviceName : String) (s : SysfsState) : Res :=
  match s.handlers.find? (fun lh => lh.devices.any (fun d => d.name = deviceName)) with
  | none => ([], s)
  | some lh =>
      ([⟨SCST_HANDLERS ++ [lh.name, "mgmt"], "del_device " ++ deviceName⟩],
       updHandler s lh.name (fun lh =>
         { lh with devices := lh.devices.filter (fun d => d.name ≠ deviceName) }))

/-- Creation-command parameter ordering of `DeviceWriter.create_device`:
`cluster_mode` is deferred to the end. -/
def createDeviceParams (creationParams : AttrMap) : List String :=
  let params := (creationParams.filter (fun kv => kv.1 ≠ "cluster_mode")).map
    (fun kv => kv.1 ++ "=" ++ kv.2)
  match amFind creationParams "cluster_mode" with
  | some v => params ++ ["cluster_mode=" ++ v]
  | none => params

/-- `DeviceWriter.create_device`: `add_device` with the creation
parameters, then the post-creation attribute writes. -/
def createDevice (handler deviceName : String) (creationParams postAttrs : AttrMap)
    (s : SysfsState) : Res :=
  match findHandler s handler with
  | none => ([], s)
  | some _ =>
      let params := createDeviceParams creationParams
      let command :=
        if params.isEmpty then "add_device " ++ deviceName
        else "add_device " ++ deviceName ++ " " ++ String.intercalate ";" params ++ ";"
      let s1 := updHandler s handler (fun lh =>
        { lh with devices := lh.devices ++ [{ name := deviceName, attrs := creationParams, keyed := amKeys creationParams }] })
      let (ws, s2) := setDeviceAttributes handler deviceName postAttrs s1
      (⟨SCST_HANDLERS ++ [handler, "mgmt"], command⟩ :: ws, s2)

/-- `DeviceWriter.determine_device_action`: the three-way decision for an
existing device.  `allCreationParams` is `device_config._CREATION_PARAMS`;
`dev` is the live device being read. -/
def determineDeviceAction (allCreationParams : List String) (creationParams postAttrs : AttrMap)
    (dev : LiveDevice) : ConfigAction :=
  let configAttrsToCheck := allCreationParams ++ amKeys postAttrs
  let existing := getCurrentDeviceAttrs dev configAttrsToCheck
  if allCreationParams.any (fun p => ¬ amHas creationParams p && dev.keyed.contains p) then
    ConfigAction.recreate
  else
    let creationDiffer := attrsConfigDiffers creationParams existing [] []
    let postDiffer := attrsConfigDiffers postAttrs existing [] []
    if ¬ creationDiffer && ¬ postDiffer then ConfigAction.skip
    else if creationDiffer then ConfigAction.recreate
    else ConfigAction.update

/-- `DeviceWriter.apply_config_devices`: create, update in place, recreate
or skip each configured device. -/
def applyConfigDevices (cfg : SCSTConfig) (s : SysfsState) : Res :=
  cfg.devices.foldl
    (fun (r : Res) dcp =>
      let (ws, s) := r
      let (deviceName, dc) := dcp
      let handler := dc.handlerType
      let creationParams := dc.creationAttributes
      let postAttrs := dc.postCreationAttributes
      match findDevice s handler deviceName with
      | some dev =>
          match determineDeviceAction dc.creationParamsSet creationParams postAttrs dev with
          | ConfigAction.skip => (ws, s)
          | ConfigAction.update =>
              let (ws2, s2) := setDeviceAttributes handler deviceName postAttrs s
              (ws ++ ws2, s2)
          | ConfigAction.recreate =>
              let (ws2, s2) := removeDevice handler deviceName s
              let (ws3, s3) := createDevice handler deviceName creationParams postAttrs s2
              (ws ++ ws2 ++ ws3, s3)
      | none =>
          let (ws2, s2) := createDevice handler deviceName creationParams postAttrs s
          (ws ++ ws2, s2))
    ([], s)

/-! ## Target writer (`scstadmin/writers/target_writer.py`) -/

/-- Mgmt info of a live driver (the reader's cached
`_get_target_mgmt_info`; empty sets when the driver or its mgmt file is
unavailable). -/
def getTargetMgmtInfo (s : SysfsState) (d : String) : MgmtInfo :=
  match findDriver s d with
  | some ld => ld.mgmtInfo
  | none => {}

/-- Kernel-model state update for `add_target_attribute`: the value lands
in the base attribute file when that is free, otherwise in the first free
numbered variant (`IncomingUser`, `IncomingUser1`, ...). -/
def appendTargetAttrFile (attrs : AttrMap) (attr v : String) : AttrMap :=
  if ¬ amHas attrs attr then amSet attrs attr v
  else
    let rec go (counter fuel : Nat) : AttrMap :=
      match fuel with
      | 0 => attrs
      | fuel + 1 =>
          let name := attr ++ toString counter
          if ¬ amHas attrs name then amSet attrs name v else go (counter + 1) fuel
    go 1 (attrs.length + 1)

/-- `TargetWriter.set_target_attributes`: mgmt-managed attributes go
through `add_target_attribute` commands (one per `;`-separated value),
other attributes are written directly to the target's attribute file. -/
def setTargetAttributes (d t : String) (attributes : AttrMap) (s : SysfsState) : Res :=
  let mgmt := getTargetMgmtInfo s d
  attributes.foldl
    (fun (r : Res) kv =>
      let (ws, s) := r
      if mgmt.targetAttributes.contains kv.1 then
        let values := ((sSplitOnChar kv.2 (Char.ofNat 59)).map sTrim).filter (· ≠ "")
        values.foldl
          (fun (r : Res) v =>
            let (ws, s) := r
            if targetExists s d t then
              (ws ++ [⟨SCST_TARGETS ++ [d, "mgmt"], "add_target_attribute " ++ t ++ " " ++ kv.1 ++ " " ++ v⟩],
               updTarget s d t (fun lt => { lt with attrs := appendTargetAttrFile lt.attrs kv.1 v }))
            else (ws, s))
          (ws, s)
      else
        if targetExists s d t then
          (ws ++ [⟨SCST_TARGETS ++ [d, t, kv.1], kv.2⟩],
           updTarget s d t (fun lt => { lt with attrs := amSet lt.attrs kv.1 kv.2 }))
        else (ws, s))
    ([], s)

/-- Variant enumeration of `TargetWriter._remove_target_mgmt_attribute`:
the base file and the gap-free run of numbered variants, with their
values. -/
def mgmtAttrVariants (attrs : AttrMap) (attr : String) : List (String × String) :=
  let base :=
    match amFind attrs attr with
    | some v => if v = "" then [] else [(attr, v)]
    | none => []
  let rec go (counter fuel : Nat) : List (String × String) :=
    match fuel with
    | 0 => []
    | fuel + 1 =>
        let name := attr ++ toString counter
        match amFind attrs name with
        | some v => (if v = "" then [] else [(name, v)]) ++ go (counter + 1) fuel
        | none => []
  base ++ go 1 (attrs.length + 1)

/-- `TargetWriter._remove_target_mgmt_attribute`: one
`del_target_attribute` command per discovered variant (the command always
names the base attribute). -/
def removeTargetMgmtAttribute (d t attr : String) (s : SysfsState) : Res :=
  match findTarget s d t with
  | none => ([], s)
  | some lt =>
      let variants := mgmtAttrVariants lt.attrs attr
      let ws := variants.map (fun p =>
        (⟨SCST_TARGETS ++ [d, "mgmt"], "del_target_attribute " ++ t ++ " " ++ attr ++ " " ++ p.2⟩ : W))
      let names := variants.map (·.1)
      (ws, updTarget s d t (fun lt =>
        { lt with attrs := lt.attrs.filter (fun kv => ¬ names.contains kv.1) }))

/-- `TargetWriter.update_target_attributes`. -/
def updateTargetAttributes (d t : String) (desired current : AttrMap) (s : SysfsState) : Res :=
  let mgmt := getTargetMgmtInfo s d
  let attrsToUpdate := desired.filter (fun kv =>
    match amFind current kv.1 with
    | some cur => cur ≠ kv.2
    | none => kv.2 ≠ SUCCESS_RESULT)
  let attrsToRemove := mgmt.targetAttributes.filter (fun a =>
    ¬ amHas desired a && (amFind current a).isSome)
  let (ws1, s1) := attrsToRemove.foldl
    (fun (r : Res) a =>
      let (ws, s) := r
      let (ws2, s2) := removeTargetMgmtAttribute d t a s
      (ws ++ ws2, s2))
    ([], s)
  let (ws2, s2) := attrsToUpdate.foldl
    (fun (r : Res) kv =>
      let (ws, s) := r
      if mgmt.targetAttributes.contains kv.1 then
        let (ws2, s2) := removeTargetMgmtAttribute d t kv.1 s
        (ws ++ ws2, s2)
      else (ws, s))
    ([], s1)
  if attrsToUpdate.isEmpty then (ws1 ++ ws2, s2)
  else
    let (ws3, s3) := setTargetAttributes d t attrsToUpdate s2
    (ws1 ++ ws2 ++ ws3, s3)

/-- `TargetWriter._direct_lun_assignments_differ`. -/
def directLunAssignmentsDiffer (s : SysfsState) (d t : String) (tcfg : TargetConfig) : Bool :=
  let current : AttrMap :=
    match findTarget s d t with
    | none => []
    | some lt =>
        if lt.hasLuns then
          lt.luns.foldl (fun m l => if l.device ≠ "" then amSet m l.number l.device else m) []
        else []
  let desired : AttrMap :=
    tcfg.luns.foldl (fun m p => if p.2.device ≠ "" then amSet m p.1 p.2.device else m) []
  ¬ amEq current desired

/-- Equality of `{group: {lun: device}}` nested dicts. -/
def nestedEq (a b : List (String × AttrMap)) : Bool :=
  a.all (fun kv => match alFind b kv.1 with
    | some m => amEq kv.2 m
    | none => false)
  && b.all (fun kv => match alFind a kv.1 with
    | some m => amEq kv.2 m
    | none => false)

/-- `TargetWriter._group_lun_assignments_differ`. -/
def groupLunAssignmentsDiffer (s : SysfsState) (d t : String) (tcfg : TargetConfig) : Bool :=
  let current : List (String × AttrMap) :=
    match findTarget s d t with
    | none => []
    | some lt =>
        if lt.hasIniGroups then
          lt.iniGroups.foldl
            (fun acc g =>
              let gl := g.luns.foldl (fun m l => if l.device ≠ "" then amSet m l.number l.device else m) []
              if gl.isEmpty then acc else acc ++ [(g.name, gl)]) []
        else []
  let desired : List (String × AttrMap) :=
    tcfg.groups.foldl
      (fun acc p =>
        let gl := p.2.luns.foldl (fun m q => if q.2.device ≠ "" then amSet m q.1 q.2.device else m) []
        if gl.isEmpty then acc else acc ++ [(p.1, gl)]) []
  ¬ nestedEq current desired

/-- `TargetWriter._group_config_matches`: initiator membership (normalized
for backslash escaping) and the LUN-number key set. -/
def groupConfigMatches (s : SysfsState) (d t g : String) (gcfg : InitiatorGroupConfig) : Bool :=
  match findIniGroup s d t g with
  | none => false
  | some lg =>
      let normExisting := lg.initiators.map (fun i => sRemoveChar i (Char.ofNat 92))
      let normDesired := gcfg.initiators.map (fun i => sRemoveChar i (Char.ofNat 92))
      if ¬ setEq normExisting normDesired then false
      else setEq (lg.luns.map (·.number)) (gcfg.luns.map (·.1))

/-- `TargetWriter._group_assignments_differ`. -/
def groupAssignmentsDiffer (s : SysfsState) (d t : String) (tcfg : TargetConfig) : Bool :=
  let currentGroups : List String :=
    match findTarget s d t with
    | none => []
    | some lt => if lt.hasIniGroups then lt.iniGroups.map (·.name) else []
  let desiredGroups := tcfg.groups.map (·.1)
  if ¬ setEq currentGroups desiredGroups then true
  else
    tcfg.groups.any (fun p =>
      groupExists s d t p.1 && ¬ groupConfigMatches s d t p.1 p.2)

/-- `TargetWriter._update_group_lun_assignments`. -/
def updateGroupLunAssignments (d t g : String) (gcfg : InitiatorGroupConfig) (s : SysfsState) : Res :=
  let mgmtPath := SCST_TARGETS ++ [d, t, "ini_groups", g, "luns", "mgmt"]
  let current : AttrMap :=
    match findIniGroup s d t g with
    | none => []
    | some lg => lg.luns.foldl (fun m l => if l.device ≠ "" then amSet m l.number l.device else m) []
  let desired : AttrMap :=
    gcfg.luns.foldl (fun m q => if q.2.device ≠ "" then amSet m q.1 q.2.device else m) []
  let toRemove := (amKeys current).filter (fun n => ¬ (amKeys desired).contains n)
  let (ws1, s1) := toRemove.foldl
    (fun (r : Res) n =>
      let (ws, s) := r
      if (findIniGroup s d t g).isSome then
        (ws ++ [⟨mgmtPath, "del " ++ n⟩],
         updIniGroup s d t g (fun lg => { lg with luns := lg.luns.filter (fun l => l.number ≠ n) }))
      else (ws, s))
    ([], s)
  desired.foldl
    (fun (r : Res) kv =>
      let (ws, s) := r
      if amFind current kv.1 = some kv.2 then (ws, s)
      else if (findIniGroup s d t g).isSome then
        (ws ++ [⟨mgmtPath, "add " ++ kv.2 ++ " " ++ kv.1⟩],
         updIniGroup s d t g (fun lg =>
           { lg with luns := (lg.luns.filter (fun l => l.number ≠ kv.1)) ++ [{ number := kv.1, device := kv.2, attrs := [] }] }))
      else (ws, s))
    (ws1, s1)

/-- `TargetWriter._update_group_config`: incremental initiator membership
sync (set difference on escape-normalized names) followed by the group LUN
sync. -/
def updateGroupConfig (d t g : String) (gcfg : InitiatorGroupConfig) (s : SysfsState) : Res :=
  if groupConfigMatches s d t g gcfg then ([], s)
  else
    let existingInitiators :=
      match findIniGroup s d t g with
      | none => []
      | some lg => lg.initiators
    let normExisting := existingInitiators.map (fun i => sRemoveChar i (Char.ofNat 92))
    let normDesired := dedup (gcfg.initiators.map (fun i => sRemoveChar i (Char.ofNat 92)))
    let mgmtPath := SCST_TARGETS ++ [d, t, "ini_groups", g, "initiators", "mgmt"]
    let missing := normDesired.filter (fun i => ¬ normExisting.contains i)
    let (ws1, s1) := missing.foldl
      (fun (r : Res) i =>
        let (ws, s) := r
        if (findIniGroup s d t g).isSome then
          (ws ++ [⟨mgmtPath, "add " ++ i⟩],
           updIniGroup s d t g (fun lg => { lg with initiators := lg.initiators ++ [i] }))
        else (ws, s))
      ([], s)
    let extra := (dedup normExisting).filter (fun i => ¬ normDesired.contains i)
    let (ws2, s2) := extra.foldl
      (fun (r : Res) i =>
        let (ws, s) := r
        if (findIniGroup s d t g).isSome then
          (ws ++ [⟨mgmtPath, "del " ++ i⟩],
           updIniGroup s d t g (fun lg =>
             { lg with initiators := lg.initiators.filter (fun x => sRemoveChar x (Char.ofNat 92) ≠ i) }))
        else (ws, s))
      ([], s1)
    let (ws3, s3) := updateGroupLunAssignments d t g gcfg s2
    (ws1 ++ ws2 ++ ws3, s3)

/-- `TargetWriter._update_target_groups`: per-group skip / incremental
update / create-and-populate. -/
def updateTargetGroups (d t : String) (tcfg : TargetConfig) (s : SysfsState) : Res :=
  tcfg.groups.foldl
    (fun (r : Res) p =>
      let (ws, s) := r
      let (g, gcfg) := p
      if groupExists s d t g then
        if groupConfigMatches s d t g gcfg then (ws, s)
        else
          let (ws2, s2) := updateGroupConfig d t g gcfg s
          (ws ++ ws2, s2)
      else
        let mgmtPath := SCST_TARGETS ++ [d, t, "ini_groups", "mgmt"]
        let (wsC, sC) :=
          if targetExists s d t then
            ([(⟨mgmtPath, "create " ++ g⟩ : W)],
             updTarget s d t (fun lt =>
               { lt with iniGroups := lt.iniGroups ++ [{ name := g, initiators := [], luns := [] }] }))
          else ([], s)
        let initPath := SCST_TARGETS ++ [d, t, "ini_groups", g, "initiators", "mgmt"]
        let (wsI, sI) := gcfg.initiators.foldl
          (fun (r : Res) i =>
            let (ws, s) := r
            let clean := sReplace2 (sReplace2 i (Char.ofNat 92) (Char.ofNat 35) (Char.ofNat 35)) (Char.ofNat 92) (Char.ofNat 42) (Char.ofNat 42)
            match findIniGroup s d t g with
            | some lg =>
                if lg.initiators.contains clean then (ws, s)
                else
                  (ws ++ [⟨initPath, "add " ++ clean⟩],
                   updIniGroup s d t g (fun lg => { lg with initiators := lg.initiators ++ [clean] }))
            | none => (ws, s))
          (wsC, sC)
        let lunsPath := SCST_TARGETS ++ [d, t, "ini_groups", g, "luns", "mgmt"]
        let (wsL, sL) := gcfg.luns.foldl
          (fun (r : Res) q =>
            let (ws, s) := r
            match findIniGroup s d t g with
            | some lg =>
                if lg.luns.any (fun l => l.number = q.1) then (ws, s)
                else
                  (ws ++ [⟨lunsPath, "add " ++ q.2.device ++ " " ++ q.1⟩],
                   updIniGroup s d t g (fun lg =>
                     { lg with luns := lg.luns ++ [{ number := q.1, device := q.2.device, attrs := [] }] }))
            | none => (ws, s))
          (wsI, sI)
        (ws ++ wsL, sL))
    ([], s)

/-- `TargetWriter._set_lun_attributes`. -/
def setLunAttributes (d t lun : String) (attributes : AttrMap) (s : SysfsState) : Res :=
  attributes.foldl
    (fun (r : Res) kv =>
      let (ws, s) := r
      if lunExists s d t lun then
        (ws ++ [⟨SCST_TARGETS ++ [d, t, "luns", lun, kv.1], kv.2⟩],
         updTarget s d t (fun lt =>
           { lt with luns := lt.luns.map (fun l =>
               if l.number = lun then { l with attrs := amSet l.attrs kv.1 kv.2 } else l) }))
      else (ws, s))
    ([], s)

/-- State update for a successful `add <device> <lun>` on the direct-LUN
mgmt file. -/
def addLiveLun (s : SysfsState) (d t lun device : String) (attrs : AttrMap) : SysfsState :=
  updTarget s d t (fun lt =>
    { lt with luns := (lt.luns.filter (fun l => l.number ≠ lun)) ++ [{ number := lun, device := device, attrs := attrs }] })

/-- State update for a successful `del <lun>`. -/
def delLiveLun (s : SysfsState) (d t lun : String) : SysfsState :=
  updTarget s d t (fun lt => { lt with luns := lt.luns.filter (fun l => l.number ≠ lun) })

/-- Accumulator of the `apply_lun_assignments` loop: writes and state,
the copy-manager `{device: lun}` / `{lun: device}` snapshot maps, and the
one-shot LUN-creation-parameter cache. -/
structure LunLoopAcc where
  ws : List W
  s : SysfsState
  existingLunMap : AttrMap
  currentLunDevices : AttrMap
  cache : Option AttrMap
deriving Repr

/-- `TargetWriter.apply_lun_assignments`: direct LUN-to-device assignment
with the copy-manager duplicate pre-step and the `del`-before-`add`
replacement of wrong or broken assignments. -/
def applyLunAssignments (d t : String) (tcfg : TargetConfig) (s : SysfsState) : Res :=
  let lunsPath := SCST_TARGETS ++ [d, t, "luns", "mgmt"]
  let special := d = "copy_manager" && t = "copy_manager_tgt"
  let (elm, cld) :=
    if special then
      match findTarget s d t with
      | some lt =>
          if lt.hasLuns then
            lt.luns.foldl
              (fun (m : AttrMap × AttrMap) l =>
                if l.device ≠ "" then (amSet m.1 l.device l.number, amSet m.2 l.number l.device)
                else m)
              ([], [])
          else ([], [])
      | none => ([], [])
    else ([], [])
  let final := tcfg.luns.foldl
    (fun (acc : LunLoopAcc) p =>
      let (lunNumber, lc) := p
      let device := lc.device
      if device = "" then acc
      else
        let acc :=
          if special then
            match amFind acc.existingLunMap device with
            | some existingLun =>
                if existingLun ≠ lunNumber ∧ lunExists acc.s d t existingLun then
                  { acc with
                    ws := acc.ws ++ [⟨lunsPath, "del " ++ existingLun⟩]
                    s := delLiveLun acc.s d t existingLun
                    existingLunMap := amDel acc.existingLunMap device
                    currentLunDevices := amDel acc.currentLunDevices existingLun }
                else acc
            | none => acc
          else acc
        let lunIsThere := lunExists acc.s d t lunNumber
        let currentDevice :=
          if special then (amFind acc.currentLunDevices lunNumber).getD ""
          else getCurrentLunDevice acc.s d t lunNumber
        if lunIsThere ∧ currentDevice = device then acc
        else
          let acc :=
            if lunIsThere then
              { acc with
                ws := acc.ws ++ [⟨lunsPath, "del " ++ lunNumber⟩]
                s := delLiveLun acc.s d t lunNumber }
            else acc
          let acc :=
            match acc.cache with
            | some _ => acc
            | none => { acc with cache := some (getLunCreateParams acc.s d t lc.attributes) }
          let cacheParams := acc.cache.getD []
          let lunCreateParams := lc.attributes.filter (fun kv => amHas cacheParams kv.1)
          let lunPostParams := lc.attributes.filter (fun kv => ¬ amHas cacheParams kv.1)
          let command :=
            if lunCreateParams.isEmpty then "add " ++ device ++ " " ++ lunNumber
            else
              "add " ++ device ++ " " ++ lunNumber ++ " " ++
                String.intercalate ";" (lunCreateParams.map (fun kv => kv.1 ++ "=" ++ kv.2)) ++ ";"
          if targetExists acc.s d t then
            let acc :=
              { acc with
                ws := acc.ws ++ [⟨lunsPath, command⟩]
                s := addLiveLun acc.s d t lunNumber device lunCreateParams }
            if lunPostParams.isEmpty then acc
            else
              let (ws2, s2) := setLunAttributes d t lunNumber lunPostParams acc.s
              { acc with ws := acc.ws ++ ws2, s := s2 }
          else acc)
    ({ ws := [], s := s, existingLunMap := elm, currentLunDevices := cld, cache := none } : LunLoopAcc)
  (final.ws, final.s)

/-- `TargetWriter.apply_group_assignments`: create-and-populate initiator
groups, skipping groups whose configuration already matches. -/
def applyGroupAssignments (d t : String) (tcfg : TargetConfig) (s : SysfsState) : Res :=
  tcfg.groups.foldl
    (fun (r : Res) p =>
      let (ws, s) := r
      let (g, gcfg) := p
      if groupExists s d t g ∧ groupConfigMatches s d t g gcfg then (ws, s)
      else
        let mgmtPath := SCST_TARGETS ++ [d, t, "ini_groups", "mgmt"]
        let (wsC, sC) :=
          if targetExists s d t ∧ ¬ groupExists s d t g then
            ([(⟨mgmtPath, "create " ++ g⟩ : W)],
             updTarget s d t (fun lt =>
               { lt with iniGroups := lt.iniGroups ++ [{ name := g, initiators := [], luns := [] }] }))
          else ([], s)
        let initPath := SCST_TARGETS ++ [d, t, "ini_groups", g, "initiators", "mgmt"]
        let (wsI, sI) := gcfg.initiators.foldl
          (fun (r : Res) i =>
            let (ws, s) := r
            let clean := sReplace2 (sReplace2 i (Char.ofNat 92) (Char.ofNat 35) (Char.ofNat 35)) (Char.ofNat 92) (Char.ofNat 42) (Char.ofNat 42)
            match findIniGroup s d t g with
            | some lg =>
                if lg.initiators.contains clean then (ws, s)
                else
                  (ws ++ [⟨initPath, "add " ++ clean⟩],
                   updIniGroup s d t g (fun lg => { lg with initiators := lg.initiators ++ [clean] }))
            | none => (ws, s))
          (wsC, sC)
        let lunsPath := SCST_TARGETS ++ [d, t, "ini_groups", g, "luns", "mgmt"]
        let (wsL, sL) := gcfg.luns.foldl
          (fun (r : Res) q =>
            let (ws, s) := r
            match findIniGroup s d t g with
            | some lg =>
                if lg.luns.any (fun l => l.number = q.1) then (ws, s)
                else
                  (ws ++ [⟨lunsPath, "add " ++ q.2.device ++ " " ++ q.1⟩],
                   updIniGroup s d t g (fun lg =>
                     { lg with luns := lg.luns ++ [{ number := q.1, device := q.2.device, attrs := [] }] }))
            | none => (ws, s))
          (wsI, sI)
        (ws ++ wsL, sL))
    ([], s)

/-- `SCSTConstants.DRIVER_ATTRIBUTES` (`constants.py`). -/
def constantsDriverAttributes : List (String × List String) :=
  [("copy_manager", ["copy_manager_tgt", "dif_capabilities", "allow_not_connected_copy"]),
   ("iscsi", ["link_local", "isns_entity_name", "internal_portal", "trace_level",
              "open_state", "version", "iSNSServer", "enabled", "mgmt"]),
   ("qla2x00t", ["trace_level", "version", "mgmt"])]

/-- `TargetWriter.ensure_hardware_targets_enabled`.  The source reads
`self.DRIVER_ATTRIBUTES`, an attribute `TargetWriter` does not define (a
latent `AttributeError`); the model resolves it to the
`SCSTConstants.DRIVER_ATTRIBUTES` table the code plainly intends.  The
function is reached only when a target with creation parameters has to be
created, which no theorem below exercises. -/
def ensureHardwareTargetsEnabled (d : String) (dcfg : DriverConfig) (s : SysfsState) : Res :=
  match findDriver s d with
  | none => ([], s)
  | some ld =>
      let driverAttrs := (alFind constantsDriverAttributes d).getD []
      ld.targets.foldl
        (fun (r : Res) lt =>
          let (ws, s) := r
          if driverAttrs.contains lt.name ∨ lt.name = "mgmt" then (ws, s)
          else
            match amFind lt.attrs "hw_target" with
            | some hw =>
                if hw ≠ "1" then (ws, s)
                else
                  match amFind lt.attrs "enabled" with
                  | none => (ws, s)
                  | some currentEnabled =>
                      let shouldBeEnabled : Bool :=
                        match alFind dcfg.targets lt.name with
                        | some tc => (amFind tc.attributes "enabled").getD "0" == "1"
                        | none => false
                      if shouldBeEnabled && (currentEnabled != "1") then
                        (ws ++ [⟨SCST_TARGETS ++ [d, lt.name, "enabled"], "1"⟩],
                         updTarget s d lt.name (fun lt => { lt with attrs := amSet lt.attrs "enabled" "1" }))
                      else (ws, s)
            | none => (ws, s))
        ([], s)

/-- `TargetWriter.apply_config_assignments`: incremental update of
existing targets (attributes, direct LUNs, groups) or creation of missing
ones. -/
def applyConfigAssignments (cfg : SCSTConfig) (s : SysfsState) : Res :=
  cfg.drivers.foldl
    (fun (r : Res) dp =>
      let (dn, dcfg) := dp
      dcfg.targets.foldl
        (fun (r : Res) tp =>
          let (ws, s) := r
          let (tn, tcfg) := tp
          match findTarget s dn tn with
          | some lt =>
              let mgmt := getTargetMgmtInfo s dn
              let configAttrsToCheck := amKeys tcfg.attributes ++ mgmt.targetAttributes
              let existing := getCurrentTargetAttrs mgmt lt configAttrsToCheck
              let settable := tcfg.attributes.filter (fun kv => ¬ mgmt.createParams.contains kv.1)
              let attrsDiffer := attrsConfigDiffers settable existing [] mgmt.targetAttributes
              let (ws1, s1) :=
                if attrsDiffer then updateTargetAttributes dn tn settable existing s
                else ([], s)
              let directDiffer := directLunAssignmentsDiffer s1 dn tn tcfg
              let groupLunsDiffer := groupLunAssignmentsDiffer s1 dn tn tcfg
              let groupsDiffer := groupAssignmentsDiffer s1 dn tn tcfg
              let (ws2, s2) :=
                if directDiffer then applyLunAssignments dn tn tcfg s1 else ([], s1)
              let (ws3, s3) :=
                if groupLunsDiffer ∨ groupsDiffer then updateTargetGroups dn tn tcfg s2
                else ([], s2)
              (ws ++ ws1 ++ ws2 ++ ws3, s3)
          | none =>
              let mgmt := getTargetMgmtInfo s dn
              let creationParams := getTargetCreateParams mgmt tcfg.attributes
              let (wsH, sH) :=
                if ¬ creationParams.isEmpty then ensureHardwareTargetsEnabled dn dcfg s
                else ([], s)
              let command :=
                if creationParams.isEmpty then "add_target " ++ tn
                else
                  "add_target " ++ tn ++ " " ++
                    String.intercalate ";" (creationParams.map (fun kv => kv.1 ++ "=" ++ kv.2))
              match findDriver sH dn with
              | none => (ws ++ wsH, sH)
              | some _ =>
                  let sC := updDriver sH dn (fun ld =>
                    { ld with targets := ld.targets ++
                        [{ name := tn, attrs := creationParams, hasLuns := true, luns := [],
                           hasIniGroups := true, iniGroups := [], hasSessions := false,
                           sessions := [], lunsMgmtParams := [] }] })
                  let remaining := tcfg.attributes.filter (fun kv => ¬ amHas creationParams kv.1)
                  let (wsA, sA) :=
                    if remaining.isEmpty then ([], sC)
                    else setTargetAttributes dn tn remaining sC
                  let (wsL, sL) := applyLunAssignments dn tn tcfg sA
                  let (wsG, sG) := applyGroupAssignments dn tn tcfg sL
                  (ws ++ wsH ++ [⟨SCST_TARGETS ++ [dn, "mgmt"], command⟩] ++ wsA ++ wsL ++ wsG, sG))
        r)
    ([], s)

/-- `TargetWriter.cleanup_copy_manager_duplicates`: with explicit
copy-manager LUNs configured, delete every live copy-manager LUN whose
device sits at the wrong number or is absent from the explicit map. -/
def cleanupCopyManagerDuplicates (cfg : SCSTConfig) (s : SysfsState) : Res :=
  match alFind cfg.drivers "copy_manager" with
  | none => ([], s)
  | some copyManagerConfig =>
      let explicitLuns :=
        match alFind copyManagerConfig.targets "copy_manager_tgt" with
        | some tc => tc.luns
        | none => []
      if explicitLuns.isEmpty then ([], s)
      else
        let explicitDevices : AttrMap :=
          explicitLuns.foldl (fun m p => if p.2.device ≠ "" then amSet m p.2.device p.1 else m) []
        if explicitDevices.isEmpty then ([], s)
        else
          match findTarget s "copy_manager" "copy_manager_tgt" with
          | none => ([], s)
          | some lt =>
              if ¬ lt.hasLuns then ([], s)
              else
                let lunsToRemove := lt.luns.foldl
                  (fun acc l =>
                    let device := l.device
                    match amFind explicitDevices device with
                    | some expected => if expected ≠ l.number then acc ++ [l.number] else acc
                    | none => acc ++ [l.number])
                  []
                let mgmtPath := SCST_TARGETS ++ ["copy_manager", "copy_manager_tgt", "luns", "mgmt"]
                lunsToRemove.foldl
                  (fun (r : Res) n =>
                    let (ws, s) := r
                    if lunExists s "copy_manager" "copy_manager_tgt" n then
                      (ws ++ [⟨mgmtPath, "del " ++ n⟩], delLiveLun s "copy_manager" "copy_manager_tgt" n)
                    else (ws, s))
                  ([], s)

/-- Per-target body of `apply_config_enable_targets`: write `1` to the
enabled file of a configured target whose `enabled` attribute is `"1"`
and whose live value is not already `"1"`. -/
def enableTargetStep (dn : String) (r : Res) (tp : String × TargetConfig) : Res :=
  let (ws, s) := r
  let (tn, tcfg) := tp
  let enabled := (amFind tcfg.attributes "enabled").getD "0"
  if enabled = "1" then
    match findTarget s dn tn with
    | some lt =>
        match amFind lt.attrs "enabled" with
        | some current =>
            if current ≠ "1" then
              (ws ++ [⟨SCST_TARGETS ++ [dn, tn, "enabled"], "1"⟩],
               updTarget s dn tn (fun lt => { lt with attrs := amSet lt.attrs "enabled" "1" }))
            else (ws, s)
        | none => (ws, s)
    | none => (ws, s)
  else (ws, s)

/-- `TargetWriter.apply_config_enable_targets`. -/
def applyConfigEnableTargets (cfg : SCSTConfig) (s : SysfsState) : Res :=
  cfg.drivers.foldl
    (fun (r : Res) dp => dp.2.targets.foldl (enableTargetStep dp.1) r)
    ([], s)

/-- `TargetWriter.apply_config_enable_drivers`. -/
def applyConfigEnableDrivers (cfg : SCSTConfig) (s : SysfsState) : Res :=
  cfg.drivers.foldl
    (fun (r : Res) dp =>
      let (ws, s) := r
      let (dn, dcfg) := dp
      let enabled := (amFind dcfg.attributes "enabled").getD "0"
      if enabled = "1" then
        match findDriver s dn with
        | some ld =>
            match amFind ld.attrs "enabled" with
            | some current =>
                if current ≠ "1" then
                  (ws ++ [⟨SCST_TARGETS ++ [dn, "enabled"], "1"⟩],
                   updDriver s dn (fun ld => { ld with attrs := amSet ld.attrs "enabled" "1" }))
                else (ws, s)
            | none => (ws, s)
        | none => (ws, s)
      else (ws, s))
    ([], s)

/-- `TargetWriter.apply_config_driver_attributes`: write each non-`enabled`
driver attribute whose live value differs (missing attribute files make
the direct write fail, which the source logs and skips). -/
def applyConfigDriverAttributes (cfg : SCSTConfig) (s : SysfsState) : Res :=
  cfg.drivers.foldl
    (fun (r : Res) dp =>
      let (ws, s) := r
      let (dn, dcfg) := dp
      match findDriver s dn with
      | none => (ws, s)
      | some _ =>
          dcfg.attributes.foldl
            (fun (r : Res) kv =>
              let (ws, s) := r
              if kv.1 = "enabled" then (ws, s)
              else
                match findDriver s dn with
                | none => (ws, s)
                | some ld =>
                    match amFind ld.attrs kv.1 with
                    | some current =>
                        if current ≠ kv.2 then
                          (ws ++ [⟨SCST_TARGETS ++ [dn, kv.1], kv.2⟩],
                           updDriver s dn (fun ld => { ld with attrs := amSet ld.attrs kv.1 kv.2 }))
                        else (ws, s)
                    | none => (ws, s))
            (ws, s))
    ([], s)

/-- `TargetWriter._disable_target_if_possible`: best-effort `0` to the
target's enabled file when it exists. -/
def disableTargetIfPossible (d t : String) (s : SysfsState) : Res :=
  match findTarget s d t with
  | none => ([], s)
  | some lt =>
      match amFind lt.attrs "enabled" with
      | some _ =>
          ([⟨SCST_TARGETS ++ [d, t, "enabled"], "0"⟩],
           updTarget s d t (fun lt => { lt with attrs := amSet lt.attrs "enabled" "0" }))
      | none => ([], s)

/-- `TargetWriter._force_close_target_sessions`: write `1` to every
session's `force_close` file; the model's control plane closes a
force-closed session immediately, so the 1-second poll loop observes the
sessions gone on its first check. -/
def forceCloseTargetSessions (d t : String) (s : SysfsState) : Res × Bool :=
  match findTarget s d t with
  | none => (([], s), true)
  | some lt =>
      if ¬ lt.hasSessions then (([], s), true)
      else
        let sessions := lt.sessions.filter (fun ses => ses.name ≠ "mgmt")
        if sessions.isEmpty then (([], s), true)
        else
          let closable := sessions.filter (·.hasForceClose)
          let ws := closable.map (fun ses =>
            (⟨SCST_TARGETS ++ [d, t, "sessions", ses.name, "force_close"], "1"⟩ : W))
          let closedNames := closable.map (·.name)
          let s1 := updTarget s d t (fun lt =>
            { lt with sessions := lt.sessions.filter (fun ses => ¬ closedNames.contains ses.name) })
          if closable.isEmpty then (([], s), false)
          else ((ws, s1), true)

/-- LUN-clearing stage of `remove_target`. -/
def removeTargetLunsClear (d t : String) (s : SysfsState) : Res :=
  match findTarget s d t with
  | some lt =>
      if lt.hasLuns then
        ([(⟨SCST_TARGETS ++ [d, t, "luns", "mgmt"], "clear"⟩ : W)],
         updTarget s d t (fun lt => { lt with luns := [] }))
      else ([], s)
  | none => ([], s)

/-- Per-group body of the initiator-group-removal stage of
`remove_target`. -/
def removeTargetIniStep (d t : String) (r : Res) (lg : LiveIniGroup) : Res :=
  let (ws, s) := r
  if lg.name = "mgmt" then (ws, s)
  else
    (ws ++ [(⟨SCST_TARGETS ++ [d, t, "ini_groups", lg.name, "luns", "mgmt"], "clear"⟩ : W),
            (⟨SCST_TARGETS ++ [d, t, "ini_groups", "mgmt"], "del " ++ lg.name⟩ : W)],
     updTarget s d t (fun lt =>
       { lt with iniGroups := lt.iniGroups.filter (fun g => g.name ≠ lg.name) }))

/-- Initiator-group-removal stage of `remove_target`. -/
def removeTargetIniGroups (d t : String) (s : SysfsState) : Res :=
  match findTarget s d t with
  | some lt =>
      if lt.hasIniGroups then lt.iniGroups.foldl (removeTargetIniStep d t) ([], s)
      else ([], s)
  | none => ([], s)

/-- `TargetWriter.remove_target`: disable, force-close sessions, clear
LUNs, clear and delete initiator groups, then `del_target`. -/
def removeTarget (d t : String) (s : SysfsState) : Res :=
  match findTarget s d t with
  | none => ([], s)
  | some _ =>
      let (ws1, s1) := disableTargetIfPossible d t s
      let ((ws2, s2), _) := forceCloseTargetSessions d t s1
      let (ws3, s3) := removeTargetLunsClear d t s2
      let (ws4, s4) := removeTargetIniGroups d t s3
      (ws1 ++ ws2 ++ ws3 ++ ws4 ++ [(⟨SCST_TARGETS ++ [d, "mgmt"], "del_target " ++ t⟩ : W)],
       updDriver s4 d (fun ld => { ld with targets := ld.targets.filter (fun lt => lt.name ≠ t) }))

/-- `TargetWriter._remove_obsolete_luns`: delete each LUN number present
in the current target configuration but absent from the new one. -/
def removeObsoleteLuns (d t : String) (currentTarget newTarget : TargetConfig) (s : SysfsState) : Res :=
  let currentLuns := currentTarget.luns.map (·.1)
  let newLuns := newTarget.luns.map (·.1)
  let toRemove := currentLuns.filter (fun n => ¬ newLuns.contains n)
  toRemove.foldl
    (fun (r : Res) n =>
      let (ws, s) := r
      if lunExists s d t n then
        (ws ++ [⟨SCST_TARGETS ++ [d, t, "luns", "mgmt"], "del " ++ n⟩], delLiveLun s d t n)
      else (ws, s))
    ([], s)

/-- `TargetWriter._remove_obsolete_groups`. -/
def removeObsoleteGroups (d t : String) (currentTarget newTarget : TargetConfig) (s : SysfsState) : Res :=
  let currentGroups := currentTarget.groups.map (·.1)
  let newGroups := newTarget.groups.map (·.1)
  let toRemove := currentGroups.filter (fun g => ¬ newGroups.contains g)
  toRemove.foldl
    (fun (r : Res) g =>
      let (ws, s) := r
      if groupExists s d t g then
        (ws ++ [⟨SCST_TARGETS ++ [d, t, "ini_groups", g, "luns", "mgmt"], "clear"⟩,
                ⟨SCST_TARGETS ++ [d, t, "ini_groups", "mgmt"], "del " ++ g⟩],
         updTarget s d t (fun lt =>
           { lt with iniGroups := lt.iniGroups.filter (fun lg => lg.name ≠ g) }))
      else (ws, s))
    ([], s)

/-- `TargetReader._get_driver_attribute_default`. -/
def getDriverAttributeDefault (d attr : String) : Option String :=
  if d = "iscsi" then
    amFind [("iSNSServer", "\n"), ("internal_portal", "\n"), ("link_local", "1"), ("trace_level", "0")] attr
  else none

/-- `TargetWriter._remove_driver_attribute`: reset a live driver attribute
to its known default, or to the system default by writing a newline.
Either way the value no longer differs from the default, so the `[key]`
marker is cleared. -/
def removeDriverAttribute (d attr : String) (s : SysfsState) : Res :=
  match findDriver s d with
  | none => ([], s)
  | some ld =>
      match amFind ld.attrs attr with
      | none => ([], s)
      | some current =>
          match getDriverAttributeDefault d attr with
          | some dv =>
              if current ≠ dv then
                ([⟨SCST_TARGETS ++ [d, attr], dv⟩],
                 updDriver s d (fun ld =>
                   { ld with attrs := amSet ld.attrs attr dv, keyed := ld.keyed.filter (· ≠ attr) }))
              else ([], s)
          | none =>
              ([⟨SCST_TARGETS ++ [d, attr], "\n"⟩],
               updDriver s d (fun ld =>
                 { ld with attrs := amSet ld.attrs attr "", keyed := ld.keyed.filter (· ≠ attr) }))

/-- `TargetWriter._remove_obsolete_driver_attributes`. -/
def removeObsoleteDriverAttributes (currentCfg newCfg : SCSTConfig) (s : SysfsState) : Res :=
  currentCfg.drivers.foldl
    (fun (r : Res) dp =>
      let (dn, cdc) := dp
      match alFind newCfg.drivers dn with
      | none => r
      | some ndc =>
          cdc.attributes.foldl
            (fun (r : Res) kv =>
              let (ws, s) := r
              if ¬ amHas ndc.attributes kv.1 then
                let (ws2, s2) := removeDriverAttribute dn kv.1 s
                (ws ++ ws2, s2)
              else (ws, s))
            r)
    ([], s)

/-! ## Group writer (`scstadmin/writers/group_writer.py`) -/

/-- `GroupWriter._device_group_exists`. -/
def deviceGroupExists (s : SysfsState) (g : String) : Bool :=
  (findDeviceGroup s g).isSome

/-- `GroupWriter._target_group_config_matches`: target membership, group
attributes, then per-target attributes.  The per-target guard is
`os.path.isdir`, which follows symlinks: a directory entry and a symlink
entry resolving to an existing target are both checked (the attribute
paths resolve through the symlink to the destination target's files), and
a missing attribute file or a differing value returns `false`. -/
def targetGroupConfigMatches (s : SysfsState) (dg tg : String) (tgcfg : TargetGroupConfig) : Bool :=
  let entries :=
    match findTargetGroup s dg tg with
    | some g => g.entries
    | none => []
  let currentTargets := (entries.filter (fun e => e.name ≠ "mgmt" && tgEntryIsDir s e)).map (·.name)
  if ¬ setEq currentTargets tgcfg.targets then false
  else
    let groupAttrs :=
      match findTargetGroup s dg tg with
      | some g => g.attrs
      | none => []
    if ¬ tgcfg.attributes.all (fun kv => amFind groupAttrs kv.1 = some kv.2) then false
    else
      tgcfg.targets.all (fun targetName =>
        match alFind tgcfg.targetAttributes targetName with
        | none => true
        | some targetConfig =>
            match entries.find? (fun e => e.name = targetName) with
            | none => true
            | some e =>
                if tgEntryIsDir s e then
                  targetConfig.all (fun kv => tgEntryAttr s e kv.1 = some kv.2)
                else true)

/-- `GroupWriter._device_group_config_matches`: device membership (via
`isdir`, which follows the device symlinks), target-group membership and
per-target-group configuration. -/
def deviceGroupConfigMatches (s : SysfsState) (g : String) (gcfg : DeviceGroupConfig) : Bool :=
  match findDeviceGroup s g with
  | none => false
  | some dg =>
      let currentDevices := dg.devices.filter (fun d => deviceExistsAnywhere s d)
      if ¬ setEq currentDevices gcfg.devices then false
      else
        let currentTgs := dg.targetGroups.map (·.name)
        if ¬ setEq currentTgs (gcfg.targetGroups.map (·.1)) then false
        else
          gcfg.targetGroups.all (fun p => targetGroupConfigMatches s g p.1 p.2)

/-- `GroupWriter._update_device_group_devices`: set-difference membership
sync of the device symlinks (`del` the extra members, `add` the missing
ones, one management command each). -/
def updateDeviceGroupDevices (g : String) (gcfg : DeviceGroupConfig) (s : SysfsState) : Res :=
  let currentDevices :=
    match findDeviceGroup s g with
    | some dg => dg.devices
    | none => []
  let desiredDevices := gcfg.devices
  let devicesToAdd := (dedup desiredDevices).filter (fun d => ¬ currentDevices.contains d)
  let devicesToRemove := (dedup currentDevices).filter (fun d => ¬ desiredDevices.contains d)
  if devicesToAdd.isEmpty && devicesToRemove.isEmpty then ([], s)
  else
    let mgmtPath := SCST_DEV_GROUPS ++ [g, "devices", "mgmt"]
    let (ws1, s1) := devicesToRemove.foldl
      (fun (r : Res) d =>
        let (ws, s) := r
        if deviceGroupExists s g then
          (ws ++ [⟨mgmtPath, "del " ++ d⟩],
           updDeviceGroup s g (fun dg => { dg with devices := dg.devices.filter (· ≠ d) }))
        else (ws, s))
      ([], s)
    devicesToAdd.foldl
      (fun (r : Res) d =>
        let (ws, s) := r
        if deviceGroupExists s g ∧ deviceExistsAnywhere s d then
          (ws ++ [⟨mgmtPath, "add " ++ d⟩],
           updDeviceGroup s g (fun dg => { dg with devices := dg.devices ++ [d] }))
        else (ws, s))
      (ws1, s1)

/-- `GroupWriter._set_target_group_target_attributes`: write the
per-target attributes of a target-group entry.  The guard is
`os.path.isdir`, which follows symlinks, so only entries that are neither
directories nor resolving symlinks are skipped; a write through a symlink
entry lands in the resolved target's attribute file. -/
def setTargetGroupTargetAttributes (dg tg targetName : String) (targetConfig : AttrMap)
    (s : SysfsState) : Res :=
  let entryAt : SysfsState → Option TGEntry := fun s =>
    match findTargetGroup s dg tg with
    | some g => g.entries.find? (fun e => e.name = targetName)
    | none => none
  match entryAt s with
  | none => ([], s)
  | some e0 =>
      if ¬ tgEntryIsDir s e0 then ([], s)
      else
        targetConfig.foldl
          (fun (r : Res) (kv : String × String) =>
            let (ws, s) := r
            match entryAt s with
            | none => (ws, s)
            | some e =>
                let skip : Bool :=
                  match tgEntryAttr s e kv.1 with
                  | some current => current == kv.2
                  | none => false
                if skip then (ws, s)
                else
                  let path := SCST_DEV_GROUPS ++ [dg, "target_groups", tg, targetName, kv.1]
                  match e.kind with
                  | .dir _ =>
                      (ws ++ [(⟨path, kv.2⟩ : W)],
                       updTargetGroup s dg tg (fun g =>
                         { g with entries := g.entries.map (fun e' =>
                             if e'.name = targetName then
                               match e'.kind with
                               | .dir attrs => { e' with kind := .dir (amSet attrs kv.1 kv.2) }
                               | k => { e' with kind := k }
                             else e') }))
                  | .symlink drv tgt =>
                      if (findTarget s drv tgt).isSome ∧ (amFind ((findTarget s drv tgt).map (·.attrs) |>.getD []) kv.1).isSome then
                        (ws ++ [(⟨path, kv.2⟩ : W)],
                         updTarget s drv tgt (fun lt => { lt with attrs := amSet lt.attrs kv.1 kv.2 }))
                      else (ws, s))
          (([], s) : Res)

/-- `GroupWriter._update_target_group_targets`: set-difference sync of the
target-group membership, then per-target attribute writes for every
configured target that has attributes. -/
def updateTargetGroupTargets (dg tg : String) (tgcfg : TargetGroupConfig) (s : SysfsState) : Res :=
  let currentTargets : List String :=
    match findTargetGroup s dg tg with
    | some g => (g.entries.filter (fun e => e.name ≠ "mgmt" && tgEntryIsDir s e)).map (·.name)
    | none => []
  let desiredTargets := tgcfg.targets
  let mgmtPath := SCST_DEV_GROUPS ++ [dg, "target_groups", tg, "mgmt"]
  let missing := (dedup desiredTargets).filter (fun t => ¬ currentTargets.contains t)
  let (ws1, s1) := missing.foldl
    (fun (r : Res) t =>
      let (ws, s) := r
      if (findTargetGroup s dg tg).isSome then
        (ws ++ [(⟨mgmtPath, "add " ++ t⟩ : W)],
         updTargetGroup s dg tg (fun g =>
           { g with entries := (g.entries.filter (fun e => e.name ≠ t)) ++ [({ name := t, kind := .dir [] } : TGEntry)] }))
      else (ws, s))
    ([], s)
  let extra := (dedup currentTargets).filter (fun t => ¬ desiredTargets.contains t)
  let (ws2, s2) := extra.foldl
    (fun (r : Res) t =>
      let (ws, s) := r
      if (findTargetGroup s dg tg).isSome then
        (ws ++ [(⟨mgmtPath, "del " ++ t⟩ : W)],
         updTargetGroup s dg tg (fun g =>
           { g with entries := g.entries.filter (fun e => e.name ≠ t) }))
      else (ws, s))
    (ws1, s1)
  tgcfg.targets.foldl
    (fun (r : Res) targetName =>
      let (ws, s) := r
      match alFind tgcfg.targetAttributes targetName with
      | some targetConfig =>
          let (ws3, s3) := setTargetGroupTargetAttributes dg tg targetName targetConfig s
          (ws ++ ws3, s3)
      | none => (ws, s))
    (ws2, s2)

/-- `GroupWriter._update_target_group_attributes`: target membership sync
followed by target-group attribute writes. -/
def updateTargetGroupAttributes (dg tg : String) (tgcfg : TargetGroupConfig) (s : SysfsState) : Res :=
  let (ws1, s1) := updateTargetGroupTargets dg tg tgcfg s
  tgcfg.attributes.foldl
    (fun (r : Res) kv =>
      let (ws, s) := r
      match findTargetGroup s dg tg with
      | none => (ws, s)
      | some g =>
          let path := SCST_DEV_GROUPS ++ [dg, "target_groups", tg, kv.1]
          match amFind g.attrs kv.1 with
          | some current =>
              if current ≠ kv.2 then
                (ws ++ [⟨path, kv.2⟩],
                 updTargetGroup s dg tg (fun g => { g with attrs := amSet g.attrs kv.1 kv.2 }))
              else (ws, s)
          | none =>
              (ws ++ [⟨path, kv.2⟩],
               updTargetGroup s dg tg (fun g => { g with attrs := amSet g.attrs kv.1 kv.2 })))
    (ws1, s1)

/-- `GroupWriter._create_target_group`: `add` the group, `add` each
target (with its attribute writes), then the group attributes. -/
def createTargetGroup (dg tg : String) (tgcfg : TargetGroupConfig) (s : SysfsState) : Res :=
  match findDeviceGroup s dg with
  | none => ([], s)
  | some _ =>
      let mgmtPath := SCST_DEV_GROUPS ++ [dg, "target_groups", "mgmt"]
      let s0 := updDeviceGroup s dg (fun g =>
        { g with targetGroups := g.targetGroups ++ [{ name := tg, entries := [], attrs := [] }] })
      let (ws1, s1) := tgcfg.targets.foldl
        (fun (r : Res) targetName =>
          let (ws, s) := r
          let targetMgmt := SCST_DEV_GROUPS ++ [dg, "target_groups", tg, "mgmt"]
          let (wsA, sA) :=
            ([(⟨targetMgmt, "add " ++ targetName⟩ : W)],
             updTargetGroup s dg tg (fun g =>
               { g with entries := (g.entries.filter (fun e => e.name ≠ targetName)) ++ [{ name := targetName, kind := .dir [] }] }))
          match alFind tgcfg.targetAttributes targetName with
          | some targetConfig =>
              if targetConfig.isEmpty then (ws ++ wsA, sA)
              else
                let (wsB, sB) := setTargetGroupTargetAttributes dg tg targetName targetConfig sA
                (ws ++ wsA ++ wsB, sB)
          | none => (ws ++ wsA, sA))
        ([(⟨mgmtPath, "add " ++ tg⟩ : W)], s0)
      let (ws2, s2) := updateTargetGroupAttributes dg tg tgcfg s1
      (ws1 ++ ws2, s2)

/-- `GroupWriter._update_device_group_target_groups`: remove obsolete
target groups, create missing ones, update the intersection. -/
def updateDeviceGroupTargetGroups (g : String) (gcfg : DeviceGroupConfig) (s : SysfsState) : Res :=
  let currentTgs : List String :=
    match findDeviceGroup s g with
    | some dg => dg.targetGroups.map (·.name)
    | none => []
  let desiredTgs := gcfg.targetGroups.map (·.1)
  let toAdd := (dedup desiredTgs).filter (fun t => ¬ currentTgs.contains t)
  let toRemove := (dedup currentTgs).filter (fun t => ¬ desiredTgs.contains t)
  let toUpdate := (dedup desiredTgs).filter (fun t => currentTgs.contains t)
  let mgmtPath := SCST_DEV_GROUPS ++ [g, "target_groups", "mgmt"]
  let (ws1, s1) := toRemove.foldl
    (fun (r : Res) t =>
      let (ws, s) := r
      if deviceGroupExists s g then
        (ws ++ [(⟨mgmtPath, "del " ++ t⟩ : W)],
         updDeviceGroup s g (fun dg =>
           { dg with targetGroups := dg.targetGroups.filter (fun x => x.name ≠ t) }))
      else (ws, s))
    ([], s)
  let (ws2, s2) := toAdd.foldl
    (fun (r : Res) t =>
      let (ws, s) := r
      match alFind gcfg.targetGroups t with
      | some tgcfg =>
          let (wsC, sC) := createTargetGroup g t tgcfg s
          (ws ++ wsC, sC)
      | none => (ws, s))
    (ws1, s1)
  toUpdate.foldl
    (fun (r : Res) t =>
      let (ws, s) := r
      match alFind gcfg.targetGroups t with
      | some tgcfg =>
          let (wsU, sU) := updateTargetGroupAttributes g t tgcfg s
          (ws ++ wsU, sU)
      | none => (ws, s))
    (ws2, s2)

/-- The device-group-level attribute writes shared by
`_update_device_group` (group_writer.py:258-275) and the create branch of
`apply_config_device_groups` (group_writer.py:824-845): one unconditional
`check_result=False` write per configured attribute, with no
current-value comparison (`if group_config.attributes:` only
short-circuits the empty dict). -/
def writeDeviceGroupAttributes (g : String) (gcfg : DeviceGroupConfig) (s : SysfsState) : Res :=
  gcfg.attributes.foldl
    (fun (r : Res) kv =>
      let (ws, s) := r
      if deviceGroupExists s g then
        (ws ++ [⟨SCST_DEV_GROUPS ++ [g, kv.1], kv.2⟩],
         updDeviceGroup s g (fun dg => { dg with attrs := amSet dg.attrs kv.1 kv.2 }))
      else (ws, s))
    ([], s)

/-- `GroupWriter._update_device_group`: devices, target groups, then the
unconditional group-level attribute writes. -/
def updateDeviceGroup (g : String) (gcfg : DeviceGroupConfig) (s : SysfsState) : Res :=
  let (ws1, s1) := updateDeviceGroupDevices g gcfg s
  let (ws2, s2) := updateDeviceGroupTargetGroups g gcfg s1
  let (ws3, s3) := writeDeviceGroupAttributes g gcfg s2
  (ws1 ++ ws2 ++ ws3, s3)

/-- `GroupWriter.apply_config_device_groups`: skip matching groups, update
differing ones incrementally, create missing ones and populate them
(group-level attributes, then devices, then target groups). -/
def applyConfigDeviceGroups (cfg : SCSTConfig) (s : SysfsState) : Res :=
  cfg.deviceGroups.foldl
    (fun (r : Res) gp =>
      let (ws, s) := r
      let (g, gcfg) := gp
      if deviceGroupExists s g then
        if deviceGroupConfigMatches s g gcfg then (ws, s)
        else
          let (ws2, s2) := updateDeviceGroup g gcfg s
          (ws ++ ws2, s2)
      else
        let s0 := { s with deviceGroups := s.deviceGroups ++ [{ name := g, devices := [], targetGroups := [] }] }
        let wsC := [(⟨SCST_DEV_GROUPS ++ ["mgmt"], "create " ++ g⟩ : W)]
        let (wsA, sA) := writeDeviceGroupAttributes g gcfg s0
        let (wsD, sD) := gcfg.devices.foldl
          (fun (r : Res) d =>
            let (ws, s) := r
            if deviceExistsAnywhere s d then
              (ws ++ [⟨SCST_DEV_GROUPS ++ [g, "devices", "mgmt"], "add " ++ d⟩],
               updDeviceGroup s g (fun dg => { dg with devices := dg.devices ++ [d] }))
            else (ws, s))
          ([], sA)
        let (wsT, sT) := gcfg.targetGroups.foldl
          (fun (r : Res) tp =>
            let (ws, s) := r
            if (findTargetGroup s g tp.1).isSome then
              let (ws1, s1) := updateTargetGroupTargets g tp.1 tp.2 s
              let (ws2, s2) := updateTargetGroupAttributes g tp.1 tp.2 s1
              (ws ++ ws1 ++ ws2, s2)
            else
              let (ws1, s1) := createTargetGroup g tp.1 tp.2 s
              (ws ++ ws1, s1))
          (wsD, sD)
        (ws ++ wsC ++ wsA ++ wsT, sT))
    ([], s)

/-- `GroupWriter.remove_device_group`: delete the target groups, the
device members, then the group itself. -/
def removeDeviceGroup (g : String) (s : SysfsState) : Res :=
  match findDeviceGroup s g with
  | none => ([], s)
  | some dg =>
      let ws1 := (dg.targetGroups.filter (fun t => t.name ≠ "mgmt")).map
        (fun t => (⟨SCST_DEV_GROUPS ++ [g, "target_groups", "mgmt"], "del " ++ t.name⟩ : W))
      let ws2 := (dg.devices.filter (· ≠ "mgmt")).map
        (fun d => (⟨SCST_DEV_GROUPS ++ [g, "devices", "mgmt"], "del " ++ d⟩ : W))
      (ws1 ++ ws2 ++ [⟨SCST_DEV_GROUPS ++ ["mgmt"], "del " ++ g⟩],
       { s with deviceGroups := s.deviceGroups.filter (fun x => x.name ≠ g) })

/-! ## Orchestrator (`scstadmin/admin.py`) -/

/-- `SCSTAdmin._apply_scst_attributes`: write each global attribute whose
live value differs (a missing attribute file makes the write fail, which
the source swallows). -/
def applyScstAttributes (cfg : SCSTConfig) (s : SysfsState) : Res :=
  cfg.scstAttributes.foldl
    (fun (r : Res) kv =>
      let (ws, s) := r
      match amFind s.scstAttrs kv.1 with
      | some current =>
          if current ≠ kv.2 then
            (ws ++ [⟨SCST_ROOT ++ [kv.1], kv.2⟩],
             { s with scstAttrs := amSet s.scstAttrs kv.1 kv.2 })
          else (ws, s)
      | none => (ws, s))
    ([], s)

/-- `SCSTAdmin._remove_conflicting_config`: remove device groups, targets
(skipping the auto-managed `copy_manager` driver), obsolete LUNs and
initiator groups, obsolete driver attributes and devices that are live but
absent from the new configuration. -/
def removeConflictingConfig (currentCfg newCfg : SCSTConfig) (s : SysfsState) : Res :=
  let (ws1, s1) := currentCfg.deviceGroups.foldl
    (fun (r : Res) gp =>
      let (ws, s) := r
      if ¬ (newCfg.deviceGroups.map (·.1)).contains gp.1 then
        let (ws2, s2) := removeDeviceGroup gp.1 s
        (ws ++ ws2, s2)
      else (ws, s))
    ([], s)
  let (ws2, s2) := currentCfg.drivers.foldl
    (fun (r : Res) dp =>
      let (dn, dcfg) := dp
      if dn = "copy_manager" then r
      else
        let newDriverConfig := alFind newCfg.drivers dn
        dcfg.targets.foldl
          (fun (r : Res) tp =>
            let (ws, s) := r
            let (tn, tcfg) := tp
            let newTargetConfig :=
              match newDriverConfig with
              | some ndc => alFind ndc.targets tn
              | none => none
            match newTargetConfig with
            | none =>
                let (wsR, sR) := removeTarget dn tn s
                (ws ++ wsR, sR)
            | some ntc =>
                let (wsL, sL) := removeObsoleteLuns dn tn tcfg ntc s
                let (wsG, sG) := removeObsoleteGroups dn tn tcfg ntc sL
                (ws ++ wsL ++ wsG, sG))
          r)
    (ws1, s1)
  let (ws3, s3) := removeObsoleteDriverAttributes currentCfg newCfg s2
  let (ws4, s4) := currentCfg.devices.foldl
    (fun (r : Res) dp =>
      let (ws, s) := r
      if ¬ (newCfg.devices.map (·.1)).contains dp.1 then
        let (ws2, s2) := removeDeviceByName dp.1 s
        (ws ++ ws2, s2)
      else (ws, s))
    ([], s3)
  (ws2 ++ ws3 ++ ws4, s4)

/-- `SCSTAdmin.apply_configuration` (without the optional suspend
bracket): read the live configuration, remove conflicts, then apply
devices, target/LUN assignments, copy-manager deduplication, device
groups, enablement and final attributes in the fixed dependency order. -/
def applyConfiguration (cfg : SCSTConfig) (s : SysfsState) : Res :=
  let (currentCfg, s0) := readCurrentConfig s
  let (ws1, s1) := removeConflictingConfig currentCfg cfg s0
  let (ws2, s2) := applyConfigDevices cfg s1
  let (ws3, s3) := applyConfigAssignments cfg s2
  let (ws4, s4) := cleanupCopyManagerDuplicates cfg s3
  let (ws5, s5) := applyConfigDeviceGroups cfg s4
  let (ws6, s6) := applyConfigEnableTargets cfg s5
  let (ws7, s7) := applyConfigEnableDrivers cfg s6
  let (ws8, s8) := applyConfigDriverAttributes cfg s7
  let (ws9, s9) := applyScstAttributes cfg s8
  (ws1 ++ ws2 ++ ws3 ++ ws4 ++ ws5 ++ ws6 ++ ws7 ++ ws8 ++ ws9, s9)

/-! ## Protocol client (`scstadmin/sysfs.py`) -/

/-- Protocol-client failures (`SCSTError` kinds distinguished by the
raising site in `sysfs.py`). -/
inductive SErr where
  | pathMissing
  | noWritePermission
  | permissionDenied
  | opFailed (result : String)
  | writeError
  | timedOut
deriving DecidableEq, Repr

/-- Outcome of the underlying `open(path, "w").write(data)` call. -/
inductive WriteOutcome where
  | ok
  | permissionError
  | eagain
  | otherOSError
deriving DecidableEq, Repr

/-- `SCSTConstants.OPERATION_POLL_INTERVAL` is 0.1 s; a timeout of `t`
seconds therefore allows `t * 10` polls of the result register (the loop
checks at times `0, 0.1, 0.2, ...` strictly below `t`). -/
def pollBudget (timeoutSec : Nat) : Nat := timeoutSec * 10

/-- `SCSTConstants.DEFAULT_TIMEOUT` (seconds). -/
def DEFAULT_TIMEOUT : Nat := 60

/-- `SCSTSysfs._check_operation_result`: success when the result queue is
unavailable or reads the success value `"0"`; otherwise a failure carrying
the result. -/
def checkOperationResult (regValid : Bool) (v : String) : Except SErr Bool :=
  if ¬ regValid then .ok true
  else if v = SUCCESS_RESULT then .ok true
  else .error (.opFailed v)

/-- `SCSTSysfs._wait_for_completion`: re-check the result register, at the
fixed poll interval, until it reports success or the poll budget derived
from the timeout is exhausted, then fail with a timeout.  `reg i` is the
register value seen by the `i`-th poll. -/
def waitForCompletion (regValid : Bool) (reg : Nat → String) : Nat → Nat → Except SErr Bool
  | 0, _ => .error .timedOut
  | fuel + 1, i =>
      match checkOperationResult regValid (reg i) with
      | .ok b => .ok b
      | .error _ => waitForCompletion regValid reg fuel (i + 1)

/-- `SCSTSysfs.write_sysfs`: path validation, the write itself, then
result verification — with the EAGAIN branch polling for completion only
when `checkResult` is set. -/
def writeSysfs (pathExists writable : Bool) (outcome : WriteOutcome) (checkResult : Bool)
    (regValid : Bool) (reg : Nat → String) (timeoutSec : Nat) : Except SErr Bool :=
  if ¬ pathExists then .error .pathMissing
  else if ¬ writable then .error .noWritePermission
  else
    match outcome with
    | .ok =>
        if checkResult then checkOperationResult regValid (reg 0) else .ok true
    | .permissionError => .error .permissionDenied
    | .eagain =>
        if checkResult then waitForCompletion regValid reg (pollBudget timeoutSec) 0
        else .ok true
    | .otherOSError => .error .writeError

/-! ## Configuration text scanner (`scstadmin/parser.py`)

`Except String` models `SCSTError` with its message; the model's messages
match the source's f-strings except that the Python `'...'` quoting of
interpolated fragments is omitted. -/

/-- The single-quote character (written by code point to keep the source
free of stray quote characters). -/
def squote : String := String.singleton (Char.ofNat 39)

/-- Comment/blank filtering of `parse_config_text`: strip every line, drop
empty and `#`-prefixed ones.  Parsing then works on this filtered
sequence, so all reported line numbers are positions in it. -/
def filterLines (content : String) : List String :=
  ((sSplitOnChar content (Char.ofNat 10)).map sTrim).filter (fun l => l ≠ "" && ¬ sStartsWith l "#")

/-- A filtered line that the top-level dispatch of `_parse_blocks` steps
over without opening a block: it starts none of the three block keywords
and is its own strip (every filtered line is, having been stripped by the
filter).  Such a line is consumed as a global attribute or ignored. -/
def plainTopLevelLine (l : String) : Bool :=
  ¬ sStartsWith l "HANDLER " && ¬ sStartsWith l "TARGET_DRIVER " &&
  ¬ sStartsWith l "DEVICE_GROUP " && sTrim l == l

/-- Python `str.split()` (whitespace runs, empty tokens dropped). -/
def pySplit (s : String) : List String :=
  ((chSplitWs s.data).map String.mk).filter (· ≠ "")

/-- Python `str.split(None, 1)`: first whitespace-delimited token and the
remainder. -/
def pySplitOnce (s : String) : List String :=
  let chars := s.toList.dropWhile Char.isWhitespace
  let first := chars.takeWhile (fun c => ¬ c.isWhitespace)
  let rest := (chars.dropWhile (fun c => ¬ c.isWhitespace)).dropWhile Char.isWhitespace
  if first.isEmpty then []
  else if rest.isEmpty then [String.mk first]
  else [String.mk first, String.mk rest]

/-- Python `str.split(sep, 1)`. -/
def pySplitOnceOn (s : String) (sep : Char) : List String :=
  match sSplitOnChar s sep with
  | [] => [s]
  | [x] => [x]
  | x :: rest => [x, String.intercalate (String.singleton sep) rest]

/-- `SCSTConfigParser._strip_quotes`. -/
def stripQuotes (v : String) : String :=
  let v := sTrim v
  if v.length ≥ 2 && sStartsWith v "\"" && sEndsWith v "\"" then
    (v.drop 1).dropRight 1
  else if v.length ≥ 2 && sStartsWith v squote && sEndsWith v squote then
    (v.drop 1).dropRight 1
  else v

/-- `SCSTConfigParser._add_target_attribute` (`combine = true`) or plain
dict assignment (`combine = false`). -/
def addAttr (combine : Bool) (attrs : AttrMap) (k v : String) : AttrMap :=
  if combine then
    match amFind attrs k with
    | some old => amSet attrs k (old ++ ";" ++ v)
    | none => amSet attrs k v
  else amSet attrs k v

/-- `SCSTConfigParser._parse_single_attribute_line`. -/
def parseSingleAttributeLine (line : String) (attrs : AttrMap) (combine : Bool) : AttrMap :=
  let line := sTrim line
  if line = "" then attrs
  else if sContains line (Char.ofNat 61) then
    match pySplitOnceOn line (Char.ofNat 61) with
    | [k, v] => addAttr combine attrs (sTrim k) (stripQuotes v)
    | _ => attrs
  else if sContains line (Char.ofNat 32) then
    match pySplitOnce line with
    | [k, v] => addAttr combine attrs (sTrim k) (stripQuotes v)
    | _ => attrs
  else attrs

/-- `SCSTConfigParser._parse_attributes_in_block` over `[start, stop)`. -/
def parseAttributesInBlock (lines : List String) (start stop : Nat) (attrs : AttrMap)
    (combine : Bool) : AttrMap :=
  (List.range' start (stop - start)).foldl
    (fun attrs i => parseSingleAttributeLine (lines.getD i "") attrs combine) attrs

/-- Brace scan of `_parse_block_generic`: count a line ending in `{` up
and a line ending in `}` down, from index `i` with current depth `count`,
until balance or end of input; returns the final index and depth. -/
def scanBracesF (lines : List String) : Nat → Nat → Nat → Nat × Nat
  | i, count, 0 => (i, count)
  | i, count, fuel + 1 =>
      if i < lines.length ∧ 0 < count then
        let lc := sTrim (lines.getD i "")
        let count2 := if sEndsWith lc "\x7b" then count + 1 else if sEndsWith lc "\x7d" then count - 1 else count
        scanBracesF lines (i + 1) count2 fuel
      else (i, count)

def scanBraces (lines : List String) (i count : Nat) : Nat × Nat :=
  scanBracesF lines i count (lines.length - i)

/-- `SCSTConfigParser._find_closing_brace`: like the generic scan but
counting only lines that are exactly `{` or `}`; `none` when balance never
returns. -/
def findClosingBraceF (lines : List String) : Nat → Nat → Nat → Option Nat
  | i, count, 0 => if count = 0 then some (i - 1) else none
  | i, count, fuel + 1 =>
      if i < lines.length ∧ 0 < count then
        let lc := sTrim (lines.getD i "")
        let count2 := if lc = "\x7b" then count + 1 else if lc = "\x7d" then count - 1 else count
        findClosingBraceF lines (i + 1) count2 fuel
      else if count = 0 then some (i - 1) else none

def findClosingBrace (lines : List String) (i count : Nat) : Option Nat :=
  findClosingBraceF lines i count (lines.length - i)

/-- `SCSTConfigParser._parse_block_generic`: block name, content start
and closing-brace index, or a parse failure (malformed header, unmatched
braces).  A missing opening brace yields the empty-block triple. -/
def parseBlockGeneric (lines : List String) (start : Nat) (blockType expectedFormat : String) :
    Except String (String × Nat × Nat) :=
  let line := lines.getD start ""
  let parts := pySplit line
  if parts.length < 2 then
    .error s!"Malformed {blockType} line at {start + 1}: {line} - {expectedFormat}"
  else
    let blockName := parts.getD 1 ""
    let contentStart :=
      if sEndsWith line "\x7b" then some (start + 1)
      else if start + 1 < lines.length ∧ sTrim (lines.getD (start + 1) "") = "\x7b" then
        some (start + 2)
      else none
    match contentStart with
    | none => .ok (blockName, start + 1, start + 1)
    | some cs =>
        let (i, count) := scanBraces lines cs 1
        if count ≠ 0 then
          .error s!"Unmatched braces in {blockType} {blockName} starting at line {start + 1}"
        else .ok (blockName, cs, i - 1)

/-- `create_device_config` / `from_attributes` (`config.py`): build the
handler-specific device configuration from the flat attribute dict. -/
def createDeviceConfigFromAttrs (handlerType : String) (attrs : AttrMap) : Option DeviceConfig :=
  if handlerType = "vdisk_fileio" then
    some (DeviceConfig.vdiskFileio ((amFind attrs "filename").getD "")
      (amFind attrs "blocksize") (amFind attrs "readonly") (amFind attrs "removable")
      (amFind attrs "rotational") (amFind attrs "thin_provisioned")
      (attrs.filter (fun kv => ¬ (["filename", "blocksize", "readonly", "removable",
        "rotational", "thin_provisioned"].contains kv.1))))
  else if handlerType = "vdisk_blockio" then
    some (DeviceConfig.vdiskBlockio ((amFind attrs "filename").getD "")
      (amFind attrs "blocksize") (amFind attrs "nv_cache") (amFind attrs "o_direct")
      (amFind attrs "readonly") (amFind attrs "rotational") (amFind attrs "thin_provisioned")
      (attrs.filter (fun kv => ¬ (["filename", "blocksize", "nv_cache", "o_direct",
        "readonly", "rotational", "thin_provisioned"].contains kv.1))))
  else if handlerType = "dev_disk" then
    some (DeviceConfig.devDisk ((amFind attrs "filename").getD "")
      (amFind attrs "readonly") (amFind attrs "rotational") (amFind attrs "thin_provisioned")
      (attrs.filter (fun kv => ¬ (["filename", "readonly", "rotational",
        "thin_provisioned"].contains kv.1))))
  else none

/-- `SCSTConfigParser._parse_lun_block`. -/
def parseLunBlock (lines : List String) (start : Nat) (luns : List (String × LunConfig)) :
    Except String (List (String × LunConfig) × Nat) :=
  let line := lines.getD start ""
  let parts := pySplit line
  if parts.length < 2 then
    .error s!"Malformed LUN line at {start + 1}: {line} - expected LUN <number> [device]"
  else
    let lunNumber := parts.getD 1 ""
    let device := parts.getD 2 ""
    if sEndsWith line "\x7b" then
      match findClosingBrace lines (start + 1) 1 with
      | none => .error s!"Unmatched braces in LUN {lunNumber} starting at line {start + 1}"
      | some contentEnd =>
          let attrs := parseAttributesInBlock lines (start + 1) contentEnd [] false
          .ok ((luns.filter (fun p => p.1 ≠ lunNumber)) ++ [(lunNumber, ⟨device, attrs⟩)], contentEnd + 1)
    else if start + 1 < lines.length ∧ sTrim (lines.getD (start + 1) "") = "\x7b" then
      match findClosingBrace lines (start + 1) 1 with
      | none => .error s!"Unmatched braces in LUN {lunNumber} starting at line {start + 2}"
      | some contentEnd =>
          let attrs := parseAttributesInBlock lines (start + 2) contentEnd [] false
          .ok ((luns.filter (fun p => p.1 ≠ lunNumber)) ++ [(lunNumber, ⟨device, attrs⟩)], contentEnd + 1)
    else
      .ok ((luns.filter (fun p => p.1 ≠ lunNumber)) ++ [(lunNumber, ⟨device, []⟩)], start + 1)

/-- `SCSTConfigParser._parse_group_block` content loop. -/
def parseGroupLoop (lines : List String) (stop : Nat) (luns : List (String × LunConfig))
    (initiators : List String) (attrs : AttrMap) :
    Nat → Nat → Except String (List (String × LunConfig) × List String × AttrMap)
  | _, 0 => .error "parser ran out of fuel"
  | i, fuel + 1 =>
      if i ≥ stop then .ok (luns, initiators, attrs)
      else
        let line := sTrim (lines.getD i "")
        if line = "" then parseGroupLoop lines stop luns initiators attrs (i + 1) fuel
        else if sStartsWith line "LUN " then
          match parseLunBlock lines i luns with
          | .error e => .error e
          | .ok (luns', i') => parseGroupLoop lines stop luns' initiators attrs i' fuel
        else if sStartsWith line "INITIATOR " then
          let initiator := (pySplit line).getD 1 ""
          parseGroupLoop lines stop luns (initiators ++ [initiator]) attrs (i + 1) fuel
        else
          let attrs' :=
            if sContains line (Char.ofNat 61) ∨ sContains line (Char.ofNat 32) then
              parseSingleAttributeLine line attrs false
            else attrs
          parseGroupLoop lines stop luns initiators attrs' (i + 1) fuel

/-- `SCSTConfigParser._parse_group_block`. -/
def parseGroupBlock (lines : List String) (start : Nat)
    (groups : List (String × InitiatorGroupConfig)) :
    Except String (List (String × InitiatorGroupConfig) × Nat) :=
  match parseBlockGeneric lines start "GROUP" "expected GROUP <name>" with
  | .error e => .error e
  | .ok (groupName, contentStart, contentEnd) =>
      if contentStart = contentEnd then
        .ok ((groups.filter (fun p => p.1 ≠ groupName)) ++
          [(groupName, { initiators := [], luns := [], attributes := [] })], contentEnd + 1)
      else
        match parseGroupLoop lines contentEnd [] [] [] contentStart (lines.length + 1) with
        | .error e => .error e
        | .ok (luns, initiators, attrs) =>
            .ok ((groups.filter (fun p => p.1 ≠ groupName)) ++
              [(groupName, { initiators := initiators, luns := luns, attributes := attrs })],
              contentEnd + 1)

/-- `SCSTConfigParser._parse_target_block` content loop. -/
def parseTargetLoop (lines : List String) (stop : Nat) (luns : List (String × LunConfig))
    (groups : List (String × InitiatorGroupConfig)) (attrs : AttrMap) :
    Nat → Nat →
    Except String (List (String × LunConfig) × List (String × InitiatorGroupConfig) × AttrMap)
  | _, 0 => .error "parser ran out of fuel"
  | i, fuel + 1 =>
      if i ≥ stop then .ok (luns, groups, attrs)
      else
        let line := sTrim (lines.getD i "")
        if line = "" then parseTargetLoop lines stop luns groups attrs (i + 1) fuel
        else if sStartsWith line "LUN " then
          match parseLunBlock lines i luns with
          | .error e => .error e
          | .ok (luns', i') => parseTargetLoop lines stop luns' groups attrs i' fuel
        else if sStartsWith line "GROUP " then
          match parseGroupBlock lines i groups with
          | .error e => .error e
          | .ok (groups', i') => parseTargetLoop lines stop luns groups' attrs i' fuel
        else
          let attrs' :=
            if sContains line (Char.ofNat 61) ∨ sContains line (Char.ofNat 32) then
              parseSingleAttributeLine line attrs true
            else attrs
          parseTargetLoop lines stop luns groups attrs' (i + 1) fuel

/-- `SCSTConfigParser._parse_target_block`. -/
def parseTargetBlock (lines : List String) (start : Nat)
    (targets : List (String × TargetConfig)) :
    Except String (List (String × TargetConfig) × Nat) :=
  match parseBlockGeneric lines start "TARGET" "expected TARGET <name>" with
  | .error e => .error e
  | .ok (targetName, contentStart, contentEnd) =>
      if contentStart = contentEnd then
        .ok ((targets.filter (fun p => p.1 ≠ targetName)) ++
          [(targetName, { luns := [], groups := [], attributes := [] })], contentEnd + 1)
      else
        match parseTargetLoop lines contentEnd [] [] [] contentStart (lines.length + 1) with
        | .error e => .error e
        | .ok (luns, groups, attrs) =>
            .ok ((targets.filter (fun p => p.1 ≠ targetName)) ++
              [(targetName, { luns := luns, groups := groups, attributes := attrs })],
              contentEnd + 1)

/-- `SCSTConfigParser._parse_target_driver_block` content loop. -/
def parseDriverLoop (lines : List String) (stop : Nat) (targets : List (String × TargetConfig))
    (attrs : AttrMap) :
    Nat → Nat → Except String (List (String × TargetConfig) × AttrMap)
  | _, 0 => .error "parser ran out of fuel"
  | i, fuel + 1 =>
      if i ≥ stop then .ok (targets, attrs)
      else
        let line := sTrim (lines.getD i "")
        if line = "" then parseDriverLoop lines stop targets attrs (i + 1) fuel
        else if sStartsWith line "TARGET " then
          match parseTargetBlock lines i targets with
          | .error e => .error e
          | .ok (targets', i') => parseDriverLoop lines stop targets' attrs i' fuel
        else
          let attrs' :=
            if sContains line (Char.ofNat 61) ∨ sContains line (Char.ofNat 32) then
              parseSingleAttributeLine line attrs true
            else attrs
          parseDriverLoop lines stop targets attrs' (i + 1) fuel

/-- `SCSTConfigParser._parse_target_driver_block`. -/
def parseTargetDriverBlock (lines : List String) (start : Nat) (cfg : SCSTConfig) :
    Except String (SCSTConfig × Nat) :=
  match parseBlockGeneric lines start "TARGET_DRIVER" "expected TARGET_DRIVER <name>" with
  | .error e => .error e
  | .ok (driverName, contentStart, contentEnd) =>
      if contentStart = contentEnd then
        .ok ({ cfg with drivers := (cfg.drivers.filter (fun p => p.1 ≠ driverName)) ++
          [(driverName, { targets := [], attributes := [] })] }, contentEnd + 1)
      else
        match parseDriverLoop lines contentEnd [] [] contentStart (lines.length + 1) with
        | .error e => .error e
        | .ok (targets, attrs) =>
            .ok ({ cfg with drivers := (cfg.drivers.filter (fun p => p.1 ≠ driverName)) ++
              [(driverName, { targets := targets, attributes := attrs })] }, contentEnd + 1)

/-- `SCSTConfigParser._parse_device_within_handler`: a `DEVICE` block
inside a `HANDLER`, built through the handler-keyed factory (unknown
handler types are a parse failure). -/
def parseDeviceWithinHandler (lines : List String) (start : Nat) (cfg : SCSTConfig)
    (handlerName : String) : Except String (SCSTConfig × Nat) :=
  match parseBlockGeneric lines start "DEVICE" "expected DEVICE <name>" with
  | .error e => .error e
  | .ok (deviceName, contentStart, contentEnd) =>
      let attrs :=
        if contentStart ≠ contentEnd then
          parseAttributesInBlock lines contentStart contentEnd [] false
        else []
      match createDeviceConfigFromAttrs handlerName attrs with
      | some dc =>
          .ok ({ cfg with devices := (cfg.devices.filter (fun p => p.1 ≠ deviceName)) ++
            [(deviceName, dc)] }, contentEnd + 1)
      | none =>
          .error s!"Unsupported handler type {handlerName} for device {deviceName}"

/-- `SCSTConfigParser._parse_handler_block` content loop. -/
def parseHandlerLoop (lines : List String) (stop : Nat) (cfg : SCSTConfig)
    (handlerName : String) (handlerAttrs : AttrMap) :
    Nat → Nat → Except String (SCSTConfig × AttrMap)
  | _, 0 => .error "parser ran out of fuel"
  | i, fuel + 1 =>
      if i ≥ stop then .ok (cfg, handlerAttrs)
      else
        let line := sTrim (lines.getD i "")
        if line = "" then parseHandlerLoop lines stop cfg handlerName handlerAttrs (i + 1) fuel
        else if sStartsWith line "DEVICE " then
          match parseDeviceWithinHandler lines i cfg handlerName with
          | .error e => .error e
          | .ok (cfg', i') => parseHandlerLoop lines stop cfg' handlerName handlerAttrs i' fuel
        else
          parseHandlerLoop lines stop cfg handlerName
            (parseSingleAttributeLine line handlerAttrs false) (i + 1) fuel

/-- `SCSTConfigParser._parse_handler_block` (handler-level attributes are
parsed but the model keeps only the handler's name, as nothing downstream
reads them). -/
def parseHandlerBlock (lines : List String) (start : Nat) (cfg : SCSTConfig) :
    Except String (SCSTConfig × Nat) :=
  match parseBlockGeneric lines start "HANDLER" "expected HANDLER <name>" with
  | .error e => .error e
  | .ok (handlerName, contentStart, contentEnd) =>
      if contentStart = contentEnd then
        .ok ({ cfg with handlers := cfg.handlers ++ [handlerName] }, contentEnd + 1)
      else
        match parseHandlerLoop lines contentEnd cfg handlerName [] contentStart (lines.length + 1) with
        | .error e => .error e
        | .ok (cfg', _) =>
            .ok ({ cfg' with handlers := cfg'.handlers ++ [handlerName] }, contentEnd + 1)

/-- `SCSTConfigParser._parse_target_group_target_block`. -/
def parseTargetGroupTargetBlock (lines : List String) (start : Nat) (targets : List String)
    (targetAttributes : List (String × AttrMap)) :
    Except String (List String × List (String × AttrMap) × Nat) :=
  let line := lines.getD start ""
  let parts := pySplit line
  if parts.length < 2 then
    .error s!"Malformed TARGET line at {start + 1}: {line} - expected TARGET <name>"
  else
    let targetName := parts.getD 1 ""
    let targets' := targets ++ [targetName]
    if sEndsWith line "\x7b" then
      match findClosingBrace lines (start + 1) 1 with
      | none => .error s!"Unmatched braces in target {targetName} starting at line {start + 1}"
      | some contentEnd =>
          let attrs := parseAttributesInBlock lines (start + 1) contentEnd [] false
          .ok (targets', (targetAttributes.filter (fun p => p.1 ≠ targetName)) ++
            [(targetName, attrs)], contentEnd + 1)
    else .ok (targets', targetAttributes, start + 1)

/-- `SCSTConfigParser._parse_target_group_block` content loop. -/
def parseTargetGroupLoop (lines : List String) (stop : Nat) (targets : List String)
    (targetAttributes : List (String × AttrMap)) (attrs : AttrMap) :
    Nat → Nat → Except String (List String × List (String × AttrMap) × AttrMap)
  | _, 0 => .error "parser ran out of fuel"
  | i, fuel + 1 =>
      if i ≥ stop then .ok (targets, targetAttributes, attrs)
      else
        let line := sTrim (lines.getD i "")
        if line = "" then parseTargetGroupLoop lines stop targets targetAttributes attrs (i + 1) fuel
        else if sStartsWith line "TARGET " then
          match parseTargetGroupTargetBlock lines i targets targetAttributes with
          | .error e => .error e
          | .ok (targets', targetAttributes', i') =>
              parseTargetGroupLoop lines stop targets' targetAttributes' attrs i' fuel
        else
          let attrs' :=
            if sContains line (Char.ofNat 61) ∨
                (sContains line (Char.ofNat 32) ∧ (pySplit line).length = 2) then
              parseSingleAttributeLine line attrs false
            else attrs
          parseTargetGroupLoop lines stop targets targetAttributes attrs' (i + 1) fuel

/-- `SCSTConfigParser._parse_target_group_block`. -/
def parseTargetGroupBlock (lines : List String) (start : Nat)
    (targetGroups : List (String × TargetGroupConfig)) :
    Except String (List (String × TargetGroupConfig) × Nat) :=
  match parseBlockGeneric lines start "TARGET_GROUP" "expected TARGET_GROUP <name>" with
  | .error e => .error e
  | .ok (groupName, contentStart, contentEnd) =>
      if contentStart = contentEnd then
        .ok ((targetGroups.filter (fun p => p.1 ≠ groupName)) ++
          [(groupName, { targets := [], targetAttributes := [], attributes := [] })], contentEnd + 1)
      else
        match parseTargetGroupLoop lines contentEnd [] [] [] contentStart (lines.length + 1) with
        | .error e => .error e
        | .ok (targets, targetAttributes, attrs) =>
            let tgc : TargetGroupConfig :=
              { targets := targets, targetAttributes := targetAttributes, attributes := attrs }
            .ok ((targetGroups.filter (fun p => p.1 ≠ groupName)) ++ [(groupName, tgc)], contentEnd + 1)

/-- `SCSTConfigParser._parse_device_group_block` content loop. -/
def parseDeviceGroupLoop (lines : List String) (stop : Nat) (devices : List String)
    (targetGroups : List (String × TargetGroupConfig)) (attrs : AttrMap) :
    Nat → Nat →
    Except String (List String × List (String × TargetGroupConfig) × AttrMap)
  | _, 0 => .error "parser ran out of fuel"
  | i, fuel + 1 =>
      if i ≥ stop then .ok (devices, targetGroups, attrs)
      else
        let line := sTrim (lines.getD i "")
        if line = "" then parseDeviceGroupLoop lines stop devices targetGroups attrs (i + 1) fuel
        else if sStartsWith line "DEVICE " then
          let device := (pySplit line).getD 1 ""
          parseDeviceGroupLoop lines stop (devices ++ [device]) targetGroups attrs (i + 1) fuel
        else if sStartsWith line "TARGET_GROUP " then
          match parseTargetGroupBlock lines i targetGroups with
          | .error e => .error e
          | .ok (targetGroups', i') =>
              parseDeviceGroupLoop lines stop devices targetGroups' attrs i' fuel
        else
          let attrs' :=
            if sContains line (Char.ofNat 61) ∨
                (sContains line (Char.ofNat 32) ∧ (pySplit line).length = 2) then
              parseSingleAttributeLine line attrs false
            else attrs
          parseDeviceGroupLoop lines stop devices targetGroups attrs' (i + 1) fuel

/-- `SCSTConfigParser._parse_device_group_block`. -/
def parseDeviceGroupBlock (lines : List String) (start : Nat) (cfg : SCSTConfig) :
    Except String (SCSTConfig × Nat) :=
  match parseBlockGeneric lines start "DEVICE_GROUP" "expected DEVICE_GROUP <name>" with
  | .error e => .error e
  | .ok (groupName, contentStart, contentEnd) =>
      if contentStart = contentEnd then
        .ok ({ cfg with deviceGroups := (cfg.deviceGroups.filter (fun p => p.1 ≠ groupName)) ++
          [(groupName, { devices := [], targetGroups := [], attributes := [] })] }, contentEnd + 1)
      else
        match parseDeviceGroupLoop lines contentEnd [] [] [] contentStart (lines.length + 1) with
        | .error e => .error e
        | .ok (devices, targetGroups, attrs) =>
            let dgc : DeviceGroupConfig :=
              { devices := devices, targetGroups := targetGroups, attributes := attrs }
            .ok ({ cfg with deviceGroups := (cfg.deviceGroups.filter (fun p => p.1 ≠ groupName)) ++
              [(groupName, dgc)] }, contentEnd + 1)

/-- `SCSTConfigParser._parse_blocks`: the top-level dispatch loop. -/
def parseBlocksLoop (lines : List String) (cfg : SCSTConfig) :
    Nat → Nat → Except String SCSTConfig
  | _, 0 => .error "parser ran out of fuel"
  | i, fuel + 1 =>
      if i ≥ lines.length then .ok cfg
      else
        let line := sTrim (lines.getD i "")
        if sStartsWith line "HANDLER " then
          match parseHandlerBlock lines i cfg with
          | .error e => .error e
          | .ok (cfg', i') => parseBlocksLoop lines cfg' i' fuel
        else if sStartsWith line "TARGET_DRIVER " then
          match parseTargetDriverBlock lines i cfg with
          | .error e => .error e
          | .ok (cfg', i') => parseBlocksLoop lines cfg' i' fuel
        else if sStartsWith line "DEVICE_GROUP " then
          match parseDeviceGroupBlock lines i cfg with
          | .error e => .error e
          | .ok (cfg', i') => parseBlocksLoop lines cfg' i' fuel
        else if sContains line (Char.ofNat 61) then
          match pySplitOnceOn line (Char.ofNat 61) with
          | [k, v] =>
              parseBlocksLoop lines
                { cfg with scstAttributes := amSet cfg.scstAttributes (sTrim k) (stripQuotes v) }
                (i + 1) fuel
          | _ => .error s!"Malformed global attribute at line {i + 1}: {line}"
        else if sContains line (Char.ofNat 32) ∧ ¬ sStartsWith line "#" then
          match pySplitOnce line with
          | [k, v] =>
              parseBlocksLoop lines
                { cfg with scstAttributes := amSet cfg.scstAttributes (sTrim k) (stripQuotes v) }
                (i + 1) fuel
          | _ => parseBlocksLoop lines cfg (i + 1) fuel
        else parseBlocksLoop lines cfg (i + 1) fuel

/-- `SCSTConfigParser.parse_config_text`: filter comments and blanks,
parse the blocks, and wrap any parse failure in the
`Configuration parsing error:` envelope; a failure aborts parsing
entirely and returns no configuration. -/
def parseConfigText (content : String) : Except String SCSTConfig :=
  let lines := filterLines content
  match parseBlocksLoop lines {} 0 (lines.length + 1) with
  | .ok cfg => .ok cfg
  | .error e => .error ("Configuration parsing error: " ++ e)

/-! ## Concrete fixtures for the claim theorems -/

/-- A `vdisk_fileio` device configuration with a backing file. -/
def exDeviceCfg : DeviceConfig := .vdiskFileio "/x" none none none none none []

/-- The matching live device (its `filename` carries the `[key]` marker,
as a non-default creation attribute does). -/
def exLiveDevice : LiveDevice := { name := "d1", attrs := [("filename", "/x")], keyed := ["filename"] }

/-- Handler directory holding `d1`. -/
def exHandler : LiveHandler := { name := "vdisk_fileio", devices := [exLiveDevice] }

/-- Live iSCSI target `iqn.t` with LUN 0 mapped to `d1`. -/
def exTargetLun0 : LiveTarget :=
  { name := "iqn.t", attrs := [], hasLuns := true, luns := [{ number := "0", device := "d1", attrs := [] }],
    hasIniGroups := false, iniGroups := [], hasSessions := false, sessions := [], lunsMgmtParams := [] }

/-- Live iSCSI driver holding `iqn.t`. -/
def exIscsiDriver : LiveDriver :=
  { name := "iscsi", attrs := [], keyed := [], targets := [exTargetLun0], mgmtInfo := {} }

/-- Live tree for the LUN-renumber scenario: device `d1` and target
`iqn.t` with LUN 0 → `d1`. -/
def lunRenumberState : SysfsState :=
  { handlers := [exHandler], drivers := [exIscsiDriver], deviceGroups := [],
    scstAttrs := [], readerDriverAttrs := initialReaderDriverAttrs }

/-- Desired configuration for the LUN-renumber scenario: same target, but
only LUN 1 → `d1`. -/
def lunRenumberCfg : SCSTConfig :=
  { devices := [("d1", exDeviceCfg)],
    drivers := [("iscsi",
      { targets := [("iqn.t", { luns := [("1", { device := "d1", attributes := [] })],
                                groups := [], attributes := [] })],
        attributes := [] })] }

/-- Live built-in copy-manager target with no LUNs. -/
def exCopyManagerTgt : LiveTarget :=
  { name := "copy_manager_tgt", attrs := [], hasLuns := true, luns := [],
    hasIniGroups := false, iniGroups := [], hasSessions := false, sessions := [], lunsMgmtParams := [] }

/-- Live copy-manager driver. -/
def exCopyManagerDriver : LiveDriver :=
  { name := "copy_manager", attrs := [], keyed := [], targets := [exCopyManagerTgt], mgmtInfo := {} }

/-- Live tree for the idempotence counterexample: device `d1` and the
built-in copy-manager target with no LUNs yet. -/
def dupLunState : SysfsState :=
  { handlers := [exHandler], drivers := [exCopyManagerDriver], deviceGroups := [],
    scstAttrs := [], readerDriverAttrs := initialReaderDriverAttrs }

/-- Desired configuration mapping the same device `d1` to two explicit
copy-manager LUN numbers (0 and 1). -/
def dupLunCfg : SCSTConfig :=
  { devices := [("d1", exDeviceCfg)],
    drivers := [("copy_manager",
      { targets := [("copy_manager_tgt",
          { luns := [("0", { device := "d1", attributes := [] }),
                     ("1", { device := "d1", attributes := [] })],
            groups := [], attributes := [] })],
        attributes := [] })] }

/-! ## Basic lemmas about the dict model -/

theorem amFind_amSet_self (m : AttrMap) (k v : String) : amFind (amSet m k v) k = some v := by
  induction m with
  | nil => simp [amSet, amFind]
  | cons kv rest ih =>
      by_cases h : kv.1 = k
      · simp [amSet, amFind, h]
      · simp [amSet, amFind, h, ih]

theorem string_beq_eq_decide (a b : String) : (a == b) = decide (a = b) := rfl

theorem amFind_amSet_ne (m : AttrMap) (k k' v : String) (h : k' ≠ k) :
    amFind (amSet m k' v) k = amFind m k := by
  induction m with
  | nil => simp [amSet, amFind, h]
  | cons kv rest ih =>
      by_cases h2 : kv.1 = k'
      · have hk : kv.1 ≠ k := h2 ▸ h
        simp [amSet, amFind, h2, hk, h]
      · by_cases h3 : kv.1 = k
        · simp [amSet, amFind, h2, h3, Ne.symm h]
        · simp [amSet, amFind, h2, h3, ih]

theorem amFind_eq_none_iff (m : AttrMap) (k : String) :
    amFind m k = none ↔ ∀ kv ∈ m, kv.1 ≠ k := by
  induction m with
  | nil => simp [amFind]
  | cons kv rest ih =>
      by_cases h : kv.1 = k
      · simp [amFind, h]
      · simp [amFind, h, ih]

theorem mem_amKeys_of_mem {m : AttrMap} {kv : String × String} (h : kv ∈ m) :
    kv.1 ∈ amKeys m := by
  simp only [amKeys, List.mem_map]
  exact ⟨kv, h, rfl⟩

theorem anyCongr {α : Type} (l : List α) (p q : α → Bool) (h : ∀ a ∈ l, p a = q a) :
    l.any p = l.any q := by
  induction l with
  | nil => rfl
  | cons x xs ih =>
      simp only [List.any_cons]
      rw [h x (by simp), ih (fun a ha => h a (by simp [ha]))]

theorem collectAttrs_find_aux (read : String → Option String) (fa : List String)
    (m : AttrMap) (k : String) :
    amFind (fa.foldl (fun m attr => match read attr with
      | some v => amSet m attr v
      | none => m) m) k =
    if fa.contains k ∧ (read k).isSome then read k else amFind m k := by
  induction fa generalizing m with
  | nil => simp
  | cons a rest ih =>
      by_cases ha : a = k
      · subst ha
        cases hr : read a with
        | none =>
            simp only [List.foldl_cons, hr]
            rw [ih]
            simp [hr]
        | some v =>
            simp only [List.foldl_cons, hr]
            rw [ih]
            by_cases hm : a ∈ rest
            · simp [hm, hr]
            · simp [hm, hr, amFind_amSet_self]
      · have hka : ¬ k = a := fun hk => ha hk.symm
        cases hr : read a with
        | none =>
            simp only [List.foldl_cons, hr]
            rw [ih]
            simp [hka]
        | some v =>
            simp only [List.foldl_cons, hr]
            rw [ih]
            rw [amFind_amSet_ne _ _ _ _ ha]
            simp [hka]

theorem collectAttrs_find (read : String → Option String) (fa : List String) (k : String) :
    amFind (collectAttrs read fa) k = if fa.contains k then read k else none := by
  unfold collectAttrs
  rw [collectAttrs_find_aux]
  by_cases hc : k ∈ fa
  · cases hr : read k with
    | none => simp [hc, hr, amFind]
    | some v => simp [hc, hr]
  · simp [hc, amFind]

/-! ## Claim 1: the three-way device decision -/

/-- Spec-side matching: an observed value equal to the desired one, or an
absent observed attribute whose desired value is the default sentinel. -/
def specMatchesAttr (observed : AttrMap) (k v : String) : Bool :=
  match amFind observed k with
  | some c => c == v
  | none => v == SUCCESS_RESULT

/-- Spec-side "some attribute differs between desired and observed". -/
def specAttrsDiffer (desired observed : AttrMap) : Bool :=
  desired.any (fun kv => ¬ specMatchesAttr observed kv.1 kv.2)

/-- Spec-side "some creation-key attribute is `[key]`-marked on the
observed device but absent from the desired creation attributes". -/
def specKeyedExtra (allCP : List String) (creationParams : AttrMap) (dev : LiveDevice) : Bool :=
  allCP.any (fun p => ¬ amHas creationParams p && dev.keyed.contains p)

theorem attrsConfigDiffers_eq_spec (desired : AttrMap) (dev : LiveDevice)
    (checkset : List String)
    (hsub : ∀ kv ∈ desired, checkset.contains kv.1 = true)
    (hh : ∀ kv ∈ desired, kv.1 ≠ "handler") :
    attrsConfigDiffers desired (getCurrentDeviceAttrs dev checkset) [] [] =
      specAttrsDiffer desired dev.attrs := by
  unfold attrsConfigDiffers specAttrsDiffer
  simp only [List.any_nil, Bool.or_false]
  apply anyCongr
  intro kv hkv
  have hfind : amFind (getCurrentDeviceAttrs dev checkset) kv.1 = amFind dev.attrs kv.1 := by
    unfold getCurrentDeviceAttrs
    rw [collectAttrs_find, if_pos (hsub kv hkv)]
    simp [deviceAttrRead, hh kv hkv]
  rw [hfind]
  unfold specMatchesAttr
  cases amFind dev.attrs kv.1 with
  | none =>
      simp [SUCCESS_RESULT, string_beq_eq_decide]
  | some c =>
      simp [string_beq_eq_decide, eq_comm]

theorem contains_of_mem (l : List String) (x : String) (h : x ∈ l) : l.contains x = true := by
  simpa using h

/-- C1: for a configured device that already exists live (with fixed
creation-key set `allCP` covering the desired creation attributes, and no
attribute named "handler" — the reader never reports one), the three-way
decision of `determine_device_action` is: RECREATE whenever a creation-key
attribute is `[key]`-marked live but absent from the desired creation
attributes, or some desired creation attribute differs from the observed
value (an absent observation matching only the default sentinel "0");
otherwise UPDATE exactly when some post-creation attribute differs in the
same sense; otherwise SKIP. -/
theorem C1_determine_device_action (allCP : List String) (cp pa : AttrMap) (dev : LiveDevice)
    (hsub : ∀ kv ∈ cp, kv.1 ∈ allCP)
    (hhc : ∀ kv ∈ cp, kv.1 ≠ "handler")
    (hhp : ∀ kv ∈ pa, kv.1 ≠ "handler") :
    determineDeviceAction allCP cp pa dev =
      (if specKeyedExtra allCP cp dev || specAttrsDiffer cp dev.attrs then ConfigAction.recreate
       else if specAttrsDiffer pa dev.attrs then ConfigAction.update
       else ConfigAction.skip) := by
  have hC := attrsConfigDiffers_eq_spec cp dev (allCP ++ amKeys pa)
    (fun kv hkv => contains_of_mem _ _ (List.mem_append_left _ (hsub kv hkv)))
    hhc
  have hP := attrsConfigDiffers_eq_spec pa dev (allCP ++ amKeys pa)
    (fun kv hkv => contains_of_mem _ _ (List.mem_append_right _ (mem_amKeys_of_mem hkv)))
    hhp
  simp only [determineDeviceAction, specKeyedExtra]
  rw [hC, hP]
  by_cases hk : ∃ x ∈ allCP, amHas cp x = false ∧ x ∈ dev.keyed
  · simp [hk]
  · by_cases hcd : specAttrsDiffer cp dev.attrs = true
    · simp [hk, hcd]
    · rw [Bool.not_eq_true] at hcd
      by_cases hpd : specAttrsDiffer pa dev.attrs = true
      · simp [hk, hcd, hpd]
      · rw [Bool.not_eq_true] at hpd
        simp [hk, hcd, hpd]

theorem C1_determine_device_action_witness :
    determineDeviceAction ["filename"]
      [("filename", "/x")] [("read_only", "1")] exLiveDevice = ConfigAction.update := by
  have h := C1_determine_device_action ["filename"]
    [("filename", "/x")] [("read_only", "1")] exLiveDevice
    (by decide) (by decide) (by decide)
  rw [h]
  decide

/-- C3: counterexample to "live-but-undesired LUN assignments are removed
before the new configuration is applied".  Live state has LUN 0 → `d1` on
target `iqn.t`; the desired configuration maps only LUN 1 → `d1` on the
same target.  The apply issues a single write — `add d1 1` — and never a
`del 0`: the stale LUN 0 survives, so the final live target carries both
LUN 0 and LUN 1 mapped to `d1`.  Root cause: `read_drivers` returns every
target with an empty `luns` map, so `_remove_obsolete_luns` sees nothing
live to compare against. -/
theorem C3_stale_lun_not_removed :
    (applyConfiguration lunRenumberCfg lunRenumberState).1 =
      [({ path := SCST_TARGETS ++ ["iscsi", "iqn.t", "luns", "mgmt"], data := "add d1 1" } : W)] ∧
    ((findTarget (applyConfiguration lunRenumberCfg lunRenumberState).2 "iscsi" "iqn.t").map
        (fun t => t.luns.map (fun l => (l.number, l.device)))) =
      some [("0", "d1"), ("1", "d1")] ∧
    ((readDrivers lunRenumberState).1.map
        (fun p => (p.1, p.2.targets.map (fun tp => (tp.1, tp.2.luns))))) =
      [("iscsi", [("iqn.t", ([] : List (String × LunConfig)))])] :=
  ⟨rfl, rfl, rfl⟩

/-- Input whose unbalanced HANDLER block opens on line 2 of the original
text (line 1 is a comment). -/
def cex8 : String := "# note\nHANDLER vdisk_fileio \x7b\nDEVICE d1 \x7b\nfilename /x"

/-- C8 counterexample: parsing aborts with a parse error, but the reported
line number is the opening line's position in the comment-stripped filtered
sequence (line 1), not in the original input, where the block opens on
line 2 (line 1 of the original text is the comment `# note`). -/
theorem C8_line_number_counted_after_filtering :
    parseConfigText cex8 =
      .error "Configuration parsing error: Unmatched braces in HANDLER vdisk_fileio starting at line 1" ∧
    (sSplitOnChar cex8 (Char.ofNat 10)).getD 0 "" = "# note" ∧
    (sSplitOnChar cex8 (Char.ofNat 10)).getD 1 "" = "HANDLER vdisk_fileio \x7b" :=
  ⟨rfl, rfl, rfl⟩

theorem string_data_append (a b : String) : (a ++ b).data = a.data ++ b.data := rfl

theorem isPrefixOf_append_self (l1 l2 : List Char) : l1.isPrefixOf (l1 ++ l2) = true := by
  induction l1 with
  | nil => cases l2 <;> rfl
  | cons a as ih =>
      show List.isPrefixOf (a :: as) (a :: (as ++ l2)) = true
      simp [List.isPrefixOf, ih]

/-- A string extended to the right keeps its prefix. -/
theorem sStartsWith_append (p s : String) : sStartsWith (p ++ s) p = true := by
  unfold sStartsWith
  rw [string_data_append]
  exact isPrefixOf_append_self p.data s.data

/-- Strings with distinct head characters are never prefix-related. -/
theorem sStartsWith_ne_head (s pre : String) (c d : Char) (cs ds : List Char)
    (hs : s.data = c :: cs) (hp : pre.data = d :: ds) (hne : d ≠ c) :
    sStartsWith s pre = false := by
  unfold sStartsWith
  rw [hs, hp]
  simp [List.isPrefixOf, hne]

theorem chSplitOn_ne_nil (sep : Char) (l : List Char) : chSplitOn sep l ≠ [] := by
  cases l with
  | nil => simp [chSplitOn]
  | cons c cs =>
      simp only [chSplitOn]
      cases h : chSplitOn sep cs with
      | nil => simp
      | cons g gs => by_cases hc : c = sep <;> simp [hc]

theorem chSplitOn_two_of_mem (sep : Char) (l : List Char) (h : sep ∈ l) :
    ∃ x y ys, chSplitOn sep l = x :: y :: ys := by
  induction l with
  | nil => cases h
  | cons c cs ih =>
      simp only [chSplitOn]
      cases hs : chSplitOn sep cs with
      | nil => exact absurd hs (chSplitOn_ne_nil sep cs)
      | cons g gs =>
          by_cases hc : c = sep
          · exact ⟨[], g, gs, by simp [hc]⟩
          · have hmem : sep ∈ cs := by
              rcases List.mem_cons.mp h with h1 | h1
              · exact absurd h1.symm hc
              · exact h1
            obtain ⟨x, y, ys, hxy⟩ := ih hmem
            rw [hs] at hxy
            injection hxy with h1 h2
            subst h1
            subst h2
            exact ⟨c :: g, y, ys, by simp [hc]⟩

/-- When the separator occurs, Python `s.split(sep, 1)` yields exactly two
pieces (so the global-attribute branch of `_parse_blocks` never fails). -/
theorem pySplitOnceOn_pair (s : String) (c : Char) (h : sContains s c = true) :
    ∃ k v, pySplitOnceOn s c = [k, v] := by
  have hmem : c ∈ s.data := by
    have h2 : s.data.contains c = true := h
    simpa using h2
  obtain ⟨x, y, ys, hxy⟩ := chSplitOn_two_of_mem c s.data hmem
  refine ⟨String.mk x,
    String.intercalate (String.singleton c) (String.mk y :: ys.map String.mk), ?_⟩
  unfold pySplitOnceOn sSplitOnChar
  rw [hxy]
  rfl

theorem getD_append_left {α : Type} (l1 l2 : List α) (j : Nat) (d : α) (h : j < l1.length) :
    (l1 ++ l2).getD j d = l1.getD j d := by
  induction l1 generalizing j with
  | nil => simp at h
  | cons a as ih =>
      cases j with
      | zero => rfl
      | succ k =>
          simp only [List.cons_append, List.getD_cons_succ]
          exact ih k (by simpa using h)

theorem getD_append_len {α : Type} (l1 : List α) (x : α) (l2 : List α) (d : α) :
    (l1 ++ x :: l2).getD l1.length d = x := by
  induction l1 with
  | nil => rfl
  | cons a as ih =>
      simp only [List.cons_append, List.length_cons, List.getD_cons_succ]
      exact ih

theorem getD_mem_of_lt {α : Type} (l : List α) (j : Nat) (d : α) (h : j < l.length) :
    l.getD j d ∈ l := by
  induction l generalizing j with
  | nil => simp at h
  | cons a as ih =>
      cases j with
      | zero => simp [List.getD_cons_zero]
      | succ k =>
          simp only [List.getD_cons_succ]
          exact List.mem_cons_of_mem a (ih k (by simpa using h))

/-- The top-level dispatch steps over a plain top-level line, moving to
the next index with some (possibly updated) configuration and never
failing. -/
theorem parseBlocksLoop_step (lines : List String) (cfg : SCSTConfig) (i fuel : Nat)
    (hi : i < lines.length) (hb : plainTopLevelLine (lines.getD i "") = true) :
    ∃ cfg2, parseBlocksLoop lines cfg i (fuel + 1) = parseBlocksLoop lines cfg2 (i + 1) fuel := by
  simp only [plainTopLevelLine, Bool.and_eq_true, decide_eq_true_eq, Bool.not_eq_true,
    beq_iff_eq] at hb
  obtain ⟨⟨⟨hH, hT⟩, hD⟩, htr⟩ := hb
  simp only [parseBlocksLoop]
  rw [if_neg (by omega)]
  rw [htr, hH, hT, hD]
  simp only [Bool.false_eq_true, if_false]
  by_cases hc : sContains (lines.getD i "") (Char.ofNat 61) = true
  · rw [if_pos hc]
    obtain ⟨k, v, hkv⟩ := pySplitOnceOn_pair _ _ hc
    rw [hkv]
    exact ⟨_, rfl⟩
  · rw [if_neg hc]
    by_cases hsp : sContains (lines.getD i "") (Char.ofNat 32) = true ∧
        ¬ sStartsWith (lines.getD i "") "#" = true
    · rw [if_pos hsp]
      rcases hps : pySplitOnce (lines.getD i "") with _ | ⟨a, _ | ⟨b, rest⟩⟩
      · exact ⟨cfg, rfl⟩
      · exact ⟨cfg, rfl⟩
      · cases rest with
        | nil => exact ⟨_, rfl⟩
        | cons c2 rest2 => exact ⟨cfg, rfl⟩
    · rw [if_neg hsp]
      exact ⟨cfg, rfl⟩

/-- Iterated form of `parseBlocksLoop_step`: the dispatch runs over `n`
plain top-level lines, consuming one unit of fuel each. -/
theorem parseBlocksLoop_over_prefix (lines : List String) :
    ∀ (n : Nat) (cfg : SCSTConfig) (i m : Nat),
      (∀ j, j < n → i + j < lines.length ∧ plainTopLevelLine (lines.getD (i + j) "") = true) →
      ∃ cfg2, parseBlocksLoop lines cfg i (n + m) = parseBlocksLoop lines cfg2 (i + n) m := by
  intro n
  induction n with
  | zero => intro cfg i m _; exact ⟨cfg, by rw [Nat.zero_add, Nat.add_zero]⟩
  | succ k ih =>
      intro cfg i m h
      have h0 := h 0 (by omega)
      rw [Nat.add_zero] at h0
      obtain ⟨cfg2, hc2⟩ := parseBlocksLoop_step lines cfg i (k + m) h0.1 h0.2
      obtain ⟨cfg3, hc3⟩ := ih cfg2 (i + 1) m (fun j hj => by
        have hjj := h (j + 1) (by omega)
        refine ⟨by omega, ?_⟩
        have hidx : i + (j + 1) = i + 1 + j := by omega
        have h2 := hjj.2
        rwa [hidx] at h2)
      refine ⟨cfg3, ?_⟩
      have hfuel : k + 1 + m = (k + m) + 1 := by omega
      rw [hfuel, hc2, hc3]
      have hidx2 : i + 1 + k = i + (k + 1) := by omega
      rw [hidx2]

/-- `_parse_block_generic` on a same-line-brace header whose block braces
never return to balance: the unmatched-braces error, with the header's
position in the line list. -/
theorem parseBlockGeneric_unmatched (btype efmt bt nm : String) (pre body : List String)
    (hsplit : pySplit (bt ++ " " ++ nm ++ " \x7b") = [bt, nm, "\x7b"])
    (hend : sEndsWith (bt ++ " " ++ nm ++ " \x7b") "\x7b" = true)
    (hscan : (scanBraces (pre ++ (bt ++ " " ++ nm ++ " \x7b") :: body) (pre.length + 1) 1).2 ≠ 0) :
    parseBlockGeneric (pre ++ (bt ++ " " ++ nm ++ " \x7b") :: body) pre.length btype efmt =
      .error ("Unmatched braces in " ++ btype ++ " " ++ nm ++ " starting at line " ++
        toString (pre.length + 1)) := by
  unfold parseBlockGeneric
  rw [getD_append_len pre (bt ++ " " ++ nm ++ " \x7b") body ""]
  dsimp only
  rw [hsplit]
  rw [if_neg (by simp)]
  rw [if_pos hend]
  dsimp only
  rw [if_pos hscan]
  rw [show (toString "" : String) = "" from rfl]
  simp only [List.getD_cons_succ, List.getD_cons_zero, String.append_assoc,
    String.append_empty]
  rfl

/-- C8 (amended): parse failures report positions counted in the filtered
line sequence (the input's lines stripped of whitespace with blank and
comment lines removed), not in the original input, and abort parsing
entirely.  For every configuration text whose filtered lines are any
number of plain top-level lines followed by a `TYPE name \x7b` header —
`TYPE` any of `HANDLER`, `TARGET_DRIVER`, `DEVICE_GROUP` — of a block
whose braces never return to balance, parsing returns the
unmatched-braces error naming the block and the header's 1-based position
in the filtered sequence, and no partial configuration. -/
theorem C8_unbalanced_block_aborts (content bt nm : String) (pre body : List String)
    (hbt : bt = "HANDLER" ∨ bt = "TARGET_DRIVER" ∨ bt = "DEVICE_GROUP")
    (hlines : filterLines content = pre ++ (bt ++ " " ++ nm ++ " \x7b") :: body)
    (hpre : ∀ l ∈ pre, plainTopLevelLine l = true)
    (hsplit : pySplit (bt ++ " " ++ nm ++ " \x7b") = [bt, nm, "\x7b"])
    (htrim : sTrim (bt ++ " " ++ nm ++ " \x7b") = bt ++ " " ++ nm ++ " \x7b")
    (hend : sEndsWith (bt ++ " " ++ nm ++ " \x7b") "\x7b" = true)
    (hscan : (scanBraces (pre ++ (bt ++ " " ++ nm ++ " \x7b") :: body) (pre.length + 1) 1).2 ≠ 0) :
    parseConfigText content =
      .error ("Configuration parsing error: Unmatched braces in " ++ bt ++ " " ++ nm ++
        " starting at line " ++ toString (pre.length + 1)) := by
  unfold parseConfigText
  simp only [hlines]
  have hfuel : (pre ++ (bt ++ " " ++ nm ++ " \x7b") :: body).length + 1
      = pre.length + (body.length + 1 + 1) := by
    simp only [List.length_append, List.length_cons]
    omega
  rw [hfuel]
  obtain ⟨cfg2, hloop⟩ := parseBlocksLoop_over_prefix
    (pre ++ (bt ++ " " ++ nm ++ " \x7b") :: body) pre.length {} 0 (body.length + 1 + 1)
    (fun j hj => ⟨by simp only [List.length_append, List.length_cons]; omega,
      by rw [Nat.zero_add, getD_append_left pre _ j "" hj]
         exact hpre _ (getD_mem_of_lt pre j "" hj)⟩)
  rw [Nat.zero_add] at hloop
  rw [hloop]
  simp only [parseBlocksLoop]
  rw [if_neg (by simp only [List.length_append, List.length_cons]; omega)]
  rw [getD_append_len pre (bt ++ " " ++ nm ++ " \x7b") body "", htrim]
  rcases hbt with hbt | hbt | hbt
  · subst hbt
    have hre : ("HANDLER" ++ " " ++ nm ++ " \x7b" : String) = "HANDLER " ++ (nm ++ " \x7b") := by
      rw [String.append_assoc ("HANDLER" ++ " ") nm " \x7b"]
      rfl
    rw [if_pos (show sStartsWith ("HANDLER" ++ " " ++ nm ++ " \x7b") "HANDLER " = true from by
      rw [hre]; exact sStartsWith_append "HANDLER " (nm ++ " \x7b"))]
    unfold parseHandlerBlock
    rw [parseBlockGeneric_unmatched "HANDLER" "expected HANDLER <name>" "HANDLER" nm pre body
      hsplit hend hscan]
    dsimp only
    simp only [String.append_assoc]
    rfl
  · subst hbt
    have hdataT : ("TARGET_DRIVER" ++ " " ++ nm ++ " \x7b" : String).data
        = 'T' :: (("ARGET_DRIVER " : String).data ++ nm.data ++ (" \x7b" : String).data) := rfl
    have hnegH := sStartsWith_ne_head ("TARGET_DRIVER" ++ " " ++ nm ++ " \x7b") "HANDLER "
      'T' 'H' _ _ hdataT rfl (by decide)
    rw [if_neg (fun hcontra => Bool.false_ne_true (hnegH ▸ hcontra))]
    have hre : ("TARGET_DRIVER" ++ " " ++ nm ++ " \x7b" : String)
        = "TARGET_DRIVER " ++ (nm ++ " \x7b") := by
      rw [String.append_assoc ("TARGET_DRIVER" ++ " ") nm " \x7b"]
      rfl
    rw [if_pos (show sStartsWith ("TARGET_DRIVER" ++ " " ++ nm ++ " \x7b")
        "TARGET_DRIVER " = true from by
      rw [hre]; exact sStartsWith_append "TARGET_DRIVER " (nm ++ " \x7b"))]
    unfold parseTargetDriverBlock
    rw [parseBlockGeneric_unmatched "TARGET_DRIVER" "expected TARGET_DRIVER <name>"
      "TARGET_DRIVER" nm pre body hsplit hend hscan]
    dsimp only
    simp only [String.append_assoc]
    rfl
  · subst hbt
    have hdataD : ("DEVICE_GROUP" ++ " " ++ nm ++ " \x7b" : String).data
        = 'D' :: (("EVICE_GROUP " : String).data ++ nm.data ++ (" \x7b" : String).data) := rfl
    have hnegH := sStartsWith_ne_head ("DEVICE_GROUP" ++ " " ++ nm ++ " \x7b") "HANDLER "
      'D' 'H' _ _ hdataD rfl (by decide)
    rw [if_neg (fun hcontra => Bool.false_ne_true (hnegH ▸ hcontra))]
    have hnegT := sStartsWith_ne_head ("DEVICE_GROUP" ++ " " ++ nm ++ " \x7b") "TARGET_DRIVER "
      'D' 'T' _ _ hdataD rfl (by decide)
    rw [if_neg (fun hcontra => Bool.false_ne_true (hnegT ▸ hcontra))]
    have hre : ("DEVICE_GROUP" ++ " " ++ nm ++ " \x7b" : String)
        = "DEVICE_GROUP " ++ (nm ++ " \x7b") := by
      rw [String.append_assoc ("DEVICE_GROUP" ++ " ") nm " \x7b"]
      rfl
    rw [if_pos (show sStartsWith ("DEVICE_GROUP" ++ " " ++ nm ++ " \x7b")
        "DEVICE_GROUP " = true from by
      rw [hre]; exact sStartsWith_append "DEVICE_GROUP " (nm ++ " \x7b"))]
    unfold parseDeviceGroupBlock
    rw [parseBlockGeneric_unmatched "DEVICE_GROUP" "expected DEVICE_GROUP <name>"
      "DEVICE_GROUP" nm pre body hsplit hend hscan]
    dsimp only
    simp only [String.append_assoc]
    rfl

/-- Input for the amended-C8 witness: a global attribute line, then a
DEVICE_GROUP block (opening on line 4 of the original text — lines 2 and
3 are a blank line and a comment) whose braces never return to balance. -/
def cex8b : String :=
  "setup_id 0x123\n\n# comment\nDEVICE_GROUP dg \x7b\nGROUP g1 \x7b\nTARGET iqn.x"

theorem C8_unbalanced_block_aborts_witness :
    parseConfigText cex8b =
      .error ("Configuration parsing error: Unmatched braces in " ++ "DEVICE_GROUP" ++
        " " ++ "dg" ++ " starting at line " ++
        toString ((["setup_id 0x123"] : List String).length + 1)) :=
  C8_unbalanced_block_aborts cex8b "DEVICE_GROUP" "dg" ["setup_id 0x123"]
    ["GROUP g1 \x7b", "TARGET iqn.x"]
    (Or.inr (Or.inr rfl)) (by decide) (by decide) (by decide) (by decide) (by decide) (by decide)

/-- Live target `iqn.t7` of the iSCSI driver, carrying `rel_tgt_id = 7`. -/
def c7Target : LiveTarget :=
  { name := "iqn.t7", attrs := [("rel_tgt_id", "7")], hasLuns := false, luns := [],
    hasIniGroups := false, iniGroups := [], hasSessions := false, sessions := [],
    lunsMgmtParams := [] }

/-- Driver directory holding `iqn.t7`. -/
def c7Driver : LiveDriver :=
  { name := "iscsi", attrs := [], keyed := [], targets := [c7Target], mgmtInfo := {} }

/-- The target-group entry for `iqn.t7`: a symlink to the driver's target
directory (as SCST creates when a target is added to an ALUA group). -/
def c7Entry : TGEntry := { name := "iqn.t7", kind := .symlink "iscsi" "iqn.t7" }

/-- ALUA target group `tga` whose only member entry is the symlink. -/
def c7TargetGroup : LiveTargetGroup := { name := "tga", entries := [c7Entry], attrs := [] }

/-- Device group `dg` holding `tga`. -/
def c7DeviceGroup : LiveDeviceGroup :=
  { name := "dg", devices := [], targetGroups := [c7TargetGroup] }

/-- Live tree for the symlink-guard scenario. -/
def c7State : SysfsState :=
  { handlers := [], drivers := [c7Driver], deviceGroups := [c7DeviceGroup],
    scstAttrs := [], readerDriverAttrs := initialReaderDriverAttrs }

/-- C7: counterexample to "the writer never writes an attribute on a
symlink-represented target".  The entry for `iqn.t7` in target group
`dg/tga` is a symlink, yet setting `rel_tgt_id = 1` issues a write to the
entry's attribute path: the guard is `os.path.isdir`, which follows
symlinks, so a symlink resolving to an existing target directory passes
it (the code's own debug message - "Target is symlink, cannot set
attributes" - documents the opposite intent).  The write lands in the
resolved target's attribute file. -/
theorem C7_symlink_target_attribute_written :
    c7Entry.kind = TGEntryKind.symlink "iscsi" "iqn.t7" ∧
    (setTargetGroupTargetAttributes "dg" "tga" "iqn.t7" [("rel_tgt_id", "1")] c7State).1 =
      [({ path := SCST_DEV_GROUPS ++ ["dg", "target_groups", "tga", "iqn.t7", "rel_tgt_id"],
          data := "1" } : W)] ∧
    ((findTarget (setTargetGroupTargetAttributes "dg" "tga" "iqn.t7"
        [("rel_tgt_id", "1")] c7State).2 "iscsi" "iqn.t7").map (fun lt => lt.attrs)) =
      some [("rel_tgt_id", "1")] :=
  ⟨rfl, rfl, rfl⟩

/-- Live tree for the device-group membership scenario: group `dg` holds
devices `a` and `b`; devices `a`, `b`, `c` all exist under a handler. -/
def c4Dev (n : String) : LiveDevice := { name := n, attrs := [], keyed := [] }

def c4Handler (a b c : String) : LiveHandler :=
  { name := "vdisk_fileio", devices := [c4Dev a, c4Dev b, c4Dev c] }

def c4DeviceGroup (a b : String) : LiveDeviceGroup :=
  { name := "dg", devices := [a, b], targetGroups := [] }

def c4DgState (a b c : String) : SysfsState :=
  { handlers := [c4Handler a b c], drivers := [],
    deviceGroups := [c4DeviceGroup a b],
    scstAttrs := [], readerDriverAttrs := initialReaderDriverAttrs }

/-- Desired device-group membership `{b, c}` (no target groups, no
attributes). -/
def c4DgCfg (b c : String) : DeviceGroupConfig :=
  { devices := [b, c], targetGroups := [], attributes := [] }

/-- Initiator group `grp` with current members `a` and `b`. -/
def c4IniGroup (a b : String) : LiveIniGroup := { name := "grp", initiators := [a, b], luns := [] }

def c4IniTarget (a b : String) : LiveTarget :=
  { name := "iqn.x", attrs := [], hasLuns := false, luns := [], hasIniGroups := true,
    iniGroups := [c4IniGroup a b], hasSessions := false, sessions := [], lunsMgmtParams := [] }

def c4IniDriver (a b : String) : LiveDriver :=
  { name := "iscsi", attrs := [], keyed := [], targets := [c4IniTarget a b], mgmtInfo := {} }

def c4IniState (a b : String) : SysfsState :=
  { handlers := [], drivers := [c4IniDriver a b], deviceGroups := [],
    scstAttrs := [], readerDriverAttrs := initialReaderDriverAttrs }

/-- Desired initiator membership `{b, c}` with no group LUNs. -/
def c4IniCfg (b c : String) : InitiatorGroupConfig :=
  { initiators := [b, c], luns := [], attributes := [] }

/-- C4: membership synchronization is set-difference reconciliation, for
device-group devices and for initiator-group initiators alike.  With
current members `{a, b}` and desired members `{b, c}` (pairwise distinct,
escape-free names), each sync issues exactly one `del a` and one `add c`
management command on the group's mgmt file — so no command touches `b` —
the parent group is never deleted or recreated, and the final membership
is `[b, c]` in both cases (the device-group pass deletes before adding;
the initiator pass adds before deleting). -/
theorem C4_membership_set_difference_sync (a b c : String)
    (hab : a ≠ b) (hac : a ≠ c) (hbc : b ≠ c)
    (hna : sRemoveChar a (Char.ofNat 92) = a)
    (hnb : sRemoveChar b (Char.ofNat 92) = b)
    (hnc : sRemoveChar c (Char.ofNat 92) = c) :
    ((updateDeviceGroupDevices "dg" (c4DgCfg b c) (c4DgState a b c)).1 =
      [({ path := SCST_DEV_GROUPS ++ ["dg", "devices", "mgmt"], data := "del " ++ a } : W),
       ({ path := SCST_DEV_GROUPS ++ ["dg", "devices", "mgmt"], data := "add " ++ c } : W)] ∧
     (findDeviceGroup (updateDeviceGroupDevices "dg" (c4DgCfg b c) (c4DgState a b c)).2 "dg").map
        (fun dg => dg.devices) = some [b, c]) ∧
    ((updateGroupConfig "iscsi" "iqn.x" "grp" (c4IniCfg b c) (c4IniState a b)).1 =
      [({ path := SCST_TARGETS ++ ["iscsi", "iqn.x", "ini_groups", "grp", "initiators", "mgmt"],
          data := "add " ++ c } : W),
       ({ path := SCST_TARGETS ++ ["iscsi", "iqn.x", "ini_groups", "grp", "initiators", "mgmt"],
          data := "del " ++ a } : W)] ∧
     (findIniGroup (updateGroupConfig "iscsi" "iqn.x" "grp" (c4IniCfg b c)
        (c4IniState a b)).2 "iscsi" "iqn.x" "grp").map (fun lg => lg.initiators) =
      some [b, c]) := by
  refine ⟨⟨?_, ?_⟩, ?_, ?_⟩
  · simp [updateDeviceGroupDevices, c4DgCfg, c4DgState, dedup, findDeviceGroup,
      c4Handler, c4DeviceGroup, c4Dev,
      deviceGroupExists, deviceExistsAnywhere, updDeviceGroup, hab, hac, hbc,
      Ne.symm hab, Ne.symm hac, Ne.symm hbc]
  · simp [updateDeviceGroupDevices, c4DgCfg, c4DgState, dedup, findDeviceGroup,
      c4Handler, c4DeviceGroup, c4Dev,
      deviceGroupExists, deviceExistsAnywhere, updDeviceGroup, hab, hac, hbc,
      Ne.symm hab, Ne.symm hac, Ne.symm hbc]
  · simp [updateGroupConfig, groupConfigMatches, updateGroupLunAssignments, c4IniCfg,
      c4IniState, c4IniDriver, c4IniTarget, c4IniGroup, findIniGroup, findTarget, findDriver,
      updIniGroup, updTarget, updDriver, dedup, setEq, amKeys, hna, hnb, hnc,
      hab, hac, hbc, Ne.symm hab, Ne.symm hac, Ne.symm hbc]
  · simp [updateGroupConfig, groupConfigMatches, updateGroupLunAssignments, c4IniCfg,
      c4IniState, c4IniDriver, c4IniTarget, c4IniGroup, findIniGroup, findTarget, findDriver,
      updIniGroup, updTarget, updDriver, dedup, setEq, amKeys, hna, hnb, hnc,
      hab, hac, hbc, Ne.symm hab, Ne.symm hac, Ne.symm hbc]

theorem C4_membership_set_difference_sync_witness :
    ((updateDeviceGroupDevices "dg" (c4DgCfg "b" "c") (c4DgState "a" "b" "c")).1 =
      [({ path := SCST_DEV_GROUPS ++ ["dg", "devices", "mgmt"], data := "del " ++ "a" } : W),
       ({ path := SCST_DEV_GROUPS ++ ["dg", "devices", "mgmt"], data := "add " ++ "c" } : W)] ∧
     (findDeviceGroup (updateDeviceGroupDevices "dg" (c4DgCfg "b" "c")
        (c4DgState "a" "b" "c")).2 "dg").map (fun dg => dg.devices) = some ["b", "c"]) ∧
    ((updateGroupConfig "iscsi" "iqn.x" "grp" (c4IniCfg "b" "c") (c4IniState "a" "b")).1 =
      [({ path := SCST_TARGETS ++ ["iscsi", "iqn.x", "ini_groups", "grp", "initiators", "mgmt"],
          data := "add " ++ "c" } : W),
       ({ path := SCST_TARGETS ++ ["iscsi", "iqn.x", "ini_groups", "grp", "initiators", "mgmt"],
          data := "del " ++ "a" } : W)] ∧
     (findIniGroup (updateGroupConfig "iscsi" "iqn.x" "grp" (c4IniCfg "b" "c")
        (c4IniState "a" "b")).2 "iscsi" "iqn.x" "grp").map (fun lg => lg.initiators) =
      some ["b", "c"]) :=
  C4_membership_set_difference_sync "a" "b" "c" (by decide) (by decide) (by decide)
    (by decide) (by decide) (by decide)

theorem wait_times_out (reg : Nat → String) :
    ∀ fuel i, (∀ j, j < fuel → reg (i + j) ≠ SUCCESS_RESULT) →
      waitForCompletion true reg fuel i = .error .timedOut := by
  intro fuel
  induction fuel with
  | zero => intro i _; rfl
  | succ n ih =>
      intro i h
      have h0 : reg i ≠ SUCCESS_RESULT := by
        have := h 0 (by omega)
        simpa using this
      simp only [waitForCompletion, checkOperationResult]
      rw [if_neg (by simp), if_neg h0]
      exact ih (i + 1) (fun j hj => by
        have hv := h (j + 1) (by omega)
        have e : i + 1 + j = i + (j + 1) := by omega
        rw [e]
        exact hv)

theorem wait_succeeds (reg : Nat → String) :
    ∀ fuel i, (∃ j, j < fuel ∧ reg (i + j) = SUCCESS_RESULT) →
      waitForCompletion true reg fuel i = .ok true := by
  intro fuel
  induction fuel with
  | zero => intro i h; omega
  | succ n ih =>
      intro i h
      by_cases h0 : reg i = SUCCESS_RESULT
      · simp only [waitForCompletion, checkOperationResult]
        rw [if_neg (by simp), if_pos h0]
      · simp only [waitForCompletion, checkOperationResult]
        rw [if_neg (by simp), if_neg h0]
        obtain ⟨j, hj, hs⟩ := h
        match j, hj, hs with
        | 0, _, hs => exact absurd (by simpa using hs) h0
        | j + 1, hj, hs =>
            exact ih (i + 1) ⟨j, by omega, by
              have e : i + 1 + j = i + (j + 1) := by omega
              rw [e]
              exact hs⟩

/-- C6 counterexample: an EAGAIN write issued with `check_result=False`
returns success immediately, with no poll of the result register at all —
here the register is valid and permanently reports failure, yet the call
reports success.  The claimed poll-until-success-or-timeout behaviour
holds only for `check_result=True` writes. -/
theorem C6_eagain_unchecked_returns_immediately :
    writeSysfs true true WriteOutcome.eagain false true (fun _ => "1") 60 = .ok true :=
  rfl

/-- C6 (amended): for a result-checked write (`check_result=True`) to an
existing writable path whose underlying write fails with EAGAIN, the
client polls the result register at the fixed 0.1 s interval: if some poll
within the timeout's poll budget reads the success value the call returns
success, and if every poll within the budget fails the call raises the
timeout failure (default timeout 60 s, i.e. 600 polls). -/
theorem C6_eagain_checked_polls_until_success_or_timeout (reg : Nat → String) (t : Nat) :
    ((∃ j, j < pollBudget t ∧ reg j = SUCCESS_RESULT) →
       writeSysfs true true WriteOutcome.eagain true true reg t = .ok true) ∧
    ((∀ j, j < pollBudget t → reg j ≠ SUCCESS_RESULT) →
       writeSysfs true true WriteOutcome.eagain true true reg t = .error SErr.timedOut) := by
  constructor
  · intro h
    simp only [writeSysfs]
    rw [if_neg (by simp), if_neg (by simp), if_pos trivial]
    exact wait_succeeds reg (pollBudget t) 0 (by simpa using h)
  · intro h
    simp only [writeSysfs]
    rw [if_neg (by simp), if_neg (by simp), if_pos trivial]
    exact wait_times_out reg (pollBudget t) 0 (by simpa using h)

theorem C6_eagain_checked_polls_witness :
    writeSysfs true true WriteOutcome.eagain true true
      (fun j => if j = 5 then "0" else "1") 60 = .ok true ∧
    writeSysfs true true WriteOutcome.eagain true true (fun _ => "1") 60 =
      .error SErr.timedOut :=
  ⟨(C6_eagain_checked_polls_until_success_or_timeout (fun j => if j = 5 then "0" else "1") 60).1
      ⟨5, by decide, by decide⟩,
   (C6_eagain_checked_polls_until_success_or_timeout (fun _ => "1") 60).2
      (fun j hj => by decide)⟩

theorem find?_name_map_drivers (dn d : String) (g : LiveDriver → LiveDriver)
    (hg : ∀ ld, (g ld).name = ld.name) (l : List LiveDriver) :
    (l.map (fun ld => if ld.name = dn then g ld else ld)).find? (fun ld => ld.name = d) =
      (l.find? (fun ld => ld.name = d)).map (fun ld => if ld.name = dn then g ld else ld) := by
  induction l with
  | nil => rfl
  | cons x xs ih =>
      have hnm : (if x.name = dn then g x else x).name = x.name := by
        split
        · exact hg x
        · rfl
      rw [List.map_cons, List.find?_cons, List.find?_cons, hnm]
      cases hx : decide (x.name = d)
      · exact ih
      · rfl

theorem find?_name_map_targets (tn t : String) (f : LiveTarget → LiveTarget)
    (hf : ∀ lt, (f lt).name = lt.name) (l : List LiveTarget) :
    (l.map (fun lt => if lt.name = tn then f lt else lt)).find? (fun lt => lt.name = t) =
      (l.find? (fun lt => lt.name = t)).map (fun lt => if lt.name = tn then f lt else lt) := by
  induction l with
  | nil => rfl
  | cons x xs ih =>
      have hnm : (if x.name = tn then f x else x).name = x.name := by
        split
        · exact hf x
        · rfl
      rw [List.map_cons, List.find?_cons, List.find?_cons, hnm]
      cases hx : decide (x.name = t)
      · exact ih
      · rfl

theorem findTarget_updTarget_ne (s : SysfsState) (dn tn d t : String)
    (f : LiveTarget → LiveTarget) (hf : ∀ lt, (f lt).name = lt.name)
    (h : ¬ (dn = d ∧ tn = t)) :
    findTarget (updTarget s dn tn f) d t = findTarget s d t := by
  unfold findTarget updTarget findDriver updDriver
  rw [find?_name_map_drivers dn d
    (fun ld => { ld with targets := ld.targets.map (fun lt => if lt.name = tn then f lt else lt) })
    (fun ld => rfl)]
  cases hld : s.drivers.find? (fun ld => ld.name = d) with
  | none => rfl
  | some ld =>
      have hname : ld.name = d := by
        have := List.find?_some hld
        simpa using this
      simp only [Option.map]
      by_cases hdd : ld.name = dn
      · have hdn : dn = d := by rw [← hdd, hname]
        have htn : ¬ tn = t := fun htt => h ⟨hdn, htt⟩
        simp only [if_pos hdd]
        rw [find?_name_map_targets tn t f hf]
        cases hlt : ld.targets.find? (fun lt => lt.name = t) with
        | none => rfl
        | some lt =>
            have htname : lt.name = t := by
              have := List.find?_some hlt
              simpa using this
            simp only [Option.map]
            rw [htname, if_neg (fun he => htn he.symm)]
      · simp [hdd]

theorem enableTargetStep_writes (dn : String) (r : Res) (tp : String × TargetConfig) :
    ∀ w ∈ (enableTargetStep dn r tp).1, w ∈ r.1 ∨
      (w.data = "1" ∧ (amFind tp.2.attributes "enabled").getD "0" = "1" ∧
       w.path = SCST_TARGETS ++ [dn, tp.1, "enabled"]) := by
  intro w hw
  rcases r with ⟨ws, s⟩
  rcases tp with ⟨tn, tcfg⟩
  unfold enableTargetStep at hw
  simp only at hw
  split at hw
  next henb =>
    split at hw
    next lt hlt =>
      split at hw
      next cur hcur =>
        split at hw
        next hne =>
          simp only [List.mem_append, List.mem_singleton] at hw
          rcases hw with hw | hw
          · exact Or.inl hw
          · subst hw
            exact Or.inr ⟨rfl, henb, rfl⟩
        next => exact Or.inl hw
      next => exact Or.inl hw
    next => exact Or.inl hw
  next => exact Or.inl hw

theorem enableTargetStep_frame (dn d t : String) (r : Res) (tp : String × TargetConfig)
    (h : dn = d → tp.1 = t → (amFind tp.2.attributes "enabled").getD "0" ≠ "1") :
    findTarget (enableTargetStep dn r tp).2 d t = findTarget r.2 d t := by
  rcases r with ⟨ws, s⟩
  rcases tp with ⟨tn, tcfg⟩
  unfold enableTargetStep
  simp only
  split
  next henb =>
    split
    next lt hlt =>
      split
      next cur hcur =>
        split
        next hne =>
          exact findTarget_updTarget_ne s dn tn d t _ (fun lt => rfl)
            (fun hc => h hc.1 hc.2 henb)
        next => rfl
      next => rfl
    next => rfl
  next => rfl

theorem fold_enableTargets_writes (dn : String) (tps : List (String × TargetConfig)) :
    ∀ r : Res, ∀ w ∈ (tps.foldl (enableTargetStep dn) r).1,
      w ∈ r.1 ∨ (w.data = "1" ∧ ∃ tp ∈ tps,
        (amFind tp.2.attributes "enabled").getD "0" = "1" ∧
        w.path = SCST_TARGETS ++ [dn, tp.1, "enabled"]) := by
  induction tps with
  | nil => intro r w hw; exact Or.inl hw
  | cons tp rest ih =>
      intro r w hw
      simp only [List.foldl_cons] at hw
      rcases ih (enableTargetStep dn r tp) w hw with hmem | ⟨hd, tp2, htp2, he, hp⟩
      · rcases enableTargetStep_writes dn r tp w hmem with hmem2 | ⟨hd, he, hp⟩
        · exact Or.inl hmem2
        · exact Or.inr ⟨hd, tp, by simp, he, hp⟩
      · exact Or.inr ⟨hd, tp2, by simp [htp2], he, hp⟩

theorem fold_enableTargets_frame (dn d t : String) (tps : List (String × TargetConfig))
    (h : ∀ tp ∈ tps, dn = d → tp.1 = t → (amFind tp.2.attributes "enabled").getD "0" ≠ "1") :
    ∀ r : Res, findTarget (tps.foldl (enableTargetStep dn) r).2 d t = findTarget r.2 d t := by
  induction tps with
  | nil => intro r; rfl
  | cons tp rest ih =>
      intro r
      simp only [List.foldl_cons]
      rw [ih (fun tp2 htp2 => h tp2 (by simp [htp2])) (enableTargetStep dn r tp)]
      exact enableTargetStep_frame dn d t r tp (h tp (by simp))

theorem fold_enableDrivers_writes (dps : List (String × DriverConfig)) :
    ∀ r : Res, ∀ w ∈ (dps.foldl
        (fun (r : Res) dp => dp.2.targets.foldl (enableTargetStep dp.1) r) r).1,
      w ∈ r.1 ∨ (w.data = "1" ∧ ∃ dp ∈ dps, ∃ tp ∈ dp.2.targets,
        (amFind tp.2.attributes "enabled").getD "0" = "1" ∧
        w.path = SCST_TARGETS ++ [dp.1, tp.1, "enabled"]) := by
  induction dps with
  | nil => intro r w hw; exact Or.inl hw
  | cons dp rest ih =>
      intro r w hw
      simp only [List.foldl_cons] at hw
      rcases ih _ w hw with hmem | ⟨hd, dp2, hdp2, tp2, htp2, he, hp⟩
      · rcases fold_enableTargets_writes dp.1 dp.2.targets r w hmem with hmem2 | ⟨hd, tp, htp, he, hp⟩
        · exact Or.inl hmem2
        · exact Or.inr ⟨hd, dp, by simp, tp, htp, he, hp⟩
      · exact Or.inr ⟨hd, dp2, by simp [hdp2], tp2, htp2, he, hp⟩

theorem fold_enableDrivers_frame (d t : String) (dps : List (String × DriverConfig))
    (h : ∀ dp ∈ dps, ∀ tp ∈ dp.2.targets, dp.1 = d → tp.1 = t →
      (amFind tp.2.attributes "enabled").getD "0" ≠ "1") :
    ∀ r : Res, findTarget (dps.foldl
        (fun (r : Res) dp => dp.2.targets.foldl (enableTargetStep dp.1) r) r).2 d t =
      findTarget r.2 d t := by
  induction dps with
  | nil => intro r; rfl
  | cons dp rest ih =>
      intro r
      simp only [List.foldl_cons]
      rw [ih (fun dp2 hdp2 => h dp2 (by simp [hdp2]))]
      exact fold_enableTargets_frame dp.1 d t dp.2.targets
        (fun tp htp => h dp (by simp) tp htp) r

/-- C9: the target-enabling pass only ever enables.  Every write it issues
carries the data `"1"` and goes to the enabled file of a target configured
with `enabled = "1"`; and for any driver/target pair with no such
configuration entry, the live target — in particular one that is enabled
live but configured with `enabled` 0 or absent — is left untouched. -/
theorem C9_enable_targets_only_enables (cfg : SCSTConfig) (s : SysfsState) (d t : String)
    (h : ∀ dp ∈ cfg.drivers, ∀ tp ∈ dp.2.targets, dp.1 = d → tp.1 = t →
      (amFind tp.2.attributes "enabled").getD "0" ≠ "1") :
    (∀ w ∈ (applyConfigEnableTargets cfg s).1,
      w.data = "1" ∧ ∃ dp ∈ cfg.drivers, ∃ tp ∈ dp.2.targets,
        (amFind tp.2.attributes "enabled").getD "0" = "1" ∧
        w.path = SCST_TARGETS ++ [dp.1, tp.1, "enabled"]) ∧
    findTarget (applyConfigEnableTargets cfg s).2 d t = findTarget s d t := by
  constructor
  · intro w hw
    rcases fold_enableDrivers_writes cfg.drivers ([], s) w hw with hmem | hgood
    · exact absurd hmem (List.not_mem_nil w)
    · exact hgood
  · exact fold_enableDrivers_frame d t cfg.drivers h ([], s)

theorem C9_enable_targets_only_enables_witness :
    (∀ w ∈ (applyConfigEnableTargets lunRenumberCfg lunRenumberState).1,
      w.data = "1" ∧ ∃ dp ∈ lunRenumberCfg.drivers, ∃ tp ∈ dp.2.targets,
        (amFind tp.2.attributes "enabled").getD "0" = "1" ∧
        w.path = SCST_TARGETS ++ [dp.1, tp.1, "enabled"]) ∧
    findTarget (applyConfigEnableTargets lunRenumberCfg lunRenumberState).2 "iscsi" "iqn.t" =
      findTarget lunRenumberState "iscsi" "iqn.t" :=
  C9_enable_targets_only_enables lunRenumberCfg lunRenumberState "iscsi" "iqn.t"
    (by decide)

theorem foldl_res_writes {α : Type} (f : Res → α → Res) (P : W → Prop)
    (hf : ∀ r x, ∀ w ∈ (f r x).1, w ∈ r.1 ∨ P w) (l : List α) :
    ∀ r, ∀ w ∈ (l.foldl f r).1, w ∈ r.1 ∨ P w := by
  induction l with
  | nil => intro r w hw; exact Or.inl hw
  | cons x xs ih =>
      intro r w hw
      simp only [List.foldl_cons] at hw
      rcases ih (f r x) w hw with h | h
      · exact hf r x w h
      · exact Or.inr h

theorem foldl_res_findTarget {α : Type} (f : Res → α → Res) (d t : String)
    (hf : ∀ r x, findTarget (f r x).2 d t = findTarget r.2 d t) (l : List α) :
    ∀ r, findTarget (l.foldl f r).2 d t = findTarget r.2 d t := by
  induction l with
  | nil => intro r; rfl
  | cons x xs ih =>
      intro r
      simp only [List.foldl_cons]
      rw [ih (f r x), hf r x]

theorem cm_prefix_not_dev_groups (l : List String) :
    (SCST_TARGETS ++ ["copy_manager"]).isPrefixOf (SCST_DEV_GROUPS ++ l) = false :=
  rfl

theorem cm_prefix_not_handlers (l : List String) :
    (SCST_TARGETS ++ ["copy_manager"]).isPrefixOf (SCST_HANDLERS ++ l) = false :=
  rfl

theorem cm_prefix_under_targets (a : String) (l : List String) :
    (SCST_TARGETS ++ ["copy_manager"]).isPrefixOf (SCST_TARGETS ++ a :: l) = true ↔
      a = "copy_manager" := by
  show (("copy_manager" == a) && List.isPrefixOf [] l) = true ↔ a = "copy_manager"
  rw [show (List.isPrefixOf ([] : List String) l) = true from by cases l <;> rfl]
  rw [Bool.and_true]
  simp only [beq_iff_eq]
  exact eq_comm

/-- A write path lying under a given driver's `targets/<driver>/`
subtree. -/
def pathUnderDriver (dn : String) (w : W) : Prop :=
  ∃ rest, w.path = SCST_TARGETS ++ dn :: rest

theorem findTarget_updDriver_pres (s : SysfsState) (dn d t : String)
    (g : LiveDriver → LiveDriver) (hg1 : ∀ ld, (g ld).name = ld.name)
    (hg2 : ∀ ld, (g ld).targets = ld.targets) :
    findTarget (updDriver s dn g) d t = findTarget s d t := by
  unfold findTarget findDriver updDriver
  rw [find?_name_map_drivers dn d g hg1]
  cases h : s.drivers.find? (fun ld => ld.name = d) with
  | none => rfl
  | some ld =>
      simp only [Option.map]
      split
      · rw [hg2]
      · rfl

theorem findTarget_updDriver_ne (s : SysfsState) (dn d t : String)
    (g : LiveDriver → LiveDriver) (hg1 : ∀ ld, (g ld).name = ld.name)
    (hne : ¬ d = dn) :
    findTarget (updDriver s dn g) d t = findTarget s d t := by
  unfold findTarget findDriver updDriver
  rw [find?_name_map_drivers dn d g hg1]
  cases h : s.drivers.find? (fun ld => ld.name = d) with
  | none => rfl
  | some ld =>
      have hname : ld.name = d := by
        have := List.find?_some h
        simpa using this
      simp only [Option.map]
      rw [hname, if_neg hne]

theorem disableTarget_writes (d t : String) (s : SysfsState) :
    ∀ w ∈ (disableTargetIfPossible d t s).1, pathUnderDriver d w := by
  intro w hw
  unfold disableTargetIfPossible at hw
  split at hw
  next => exact absurd hw (List.not_mem_nil w)
  next lt hlt =>
    split at hw
    next cur hcur =>
      simp only [List.mem_singleton] at hw
      subst hw
      exact ⟨[t, "enabled"], rfl⟩
    next => exact absurd hw (List.not_mem_nil w)

theorem disableTarget_frame (d t d' t' : String) (s : SysfsState) (hne : ¬ d' = d) :
    findTarget (disableTargetIfPossible d t s).2 d' t' = findTarget s d' t' := by
  unfold disableTargetIfPossible
  split
  next => rfl
  next lt hlt =>
    split
    next cur hcur =>
      exact findTarget_updTarget_ne s d t d' t' _ (fun lt => rfl)
        (fun hc => hne hc.1.symm)
    next => rfl

theorem forceClose_writes (d t : String) (s : SysfsState) :
    ∀ w ∈ (forceCloseTargetSessions d t s).1.1, pathUnderDriver d w := by
  intro w hw
  unfold forceCloseTargetSessions at hw
  split at hw
  next => exact absurd hw (List.not_mem_nil w)
  next lt hlt =>
    split at hw
    next => exact absurd hw (List.not_mem_nil w)
    next =>
      dsimp only at hw
      split at hw
      next => exact absurd hw (List.not_mem_nil w)
      next =>
        split at hw
        next => exact absurd hw (List.not_mem_nil w)
        next =>
          simp only [List.mem_map] at hw
          obtain ⟨ses, _, hw⟩ := hw
          subst hw
          exact ⟨[t, "sessions", ses.name, "force_close"], rfl⟩

theorem forceClose_frame (d t d' t' : String) (s : SysfsState) (hne : ¬ d' = d) :
    findTarget (forceCloseTargetSessions d t s).1.2 d' t' = findTarget s d' t' := by
  unfold forceCloseTargetSessions
  split
  next => rfl
  next lt hlt =>
    split
    next => rfl
    next =>
      dsimp only
      split
      next => rfl
      next =>
        split
        next => rfl
        next =>
          exact findTarget_updTarget_ne s d t d' t' _ (fun lt => rfl)
            (fun hc => hne hc.1.symm)

theorem removeTargetLunsClear_writes (d t : String) (s : SysfsState) :
    ∀ w ∈ (removeTargetLunsClear d t s).1, pathUnderDriver d w := by
  intro w hw
  unfold removeTargetLunsClear at hw
  split at hw
  next lt hlt =>
    split at hw
    next =>
      simp only [List.mem_singleton] at hw
      subst hw
      exact ⟨[t, "luns", "mgmt"], rfl⟩
    next => exact absurd hw (List.not_mem_nil w)
  next => exact absurd hw (List.not_mem_nil w)

theorem removeTargetLunsClear_frame (d t d' t' : String) (s : SysfsState) (hne : ¬ d' = d) :
    findTarget (removeTargetLunsClear d t s).2 d' t' = findTarget s d' t' := by
  unfold removeTargetLunsClear
  split
  next lt hlt =>
    split
    next => exact findTarget_updTarget_ne s d t d' t' _ (fun lt => rfl) (fun hc => hne hc.1.symm)
    next => rfl
  next => rfl

theorem removeTargetIniStep_writes (d t : String) (r : Res) (lg : LiveIniGroup) :
    ∀ w ∈ (removeTargetIniStep d t r lg).1, w ∈ r.1 ∨ pathUnderDriver d w := by
  intro w hw
  rcases r with ⟨ws, s⟩
  unfold removeTargetIniStep at hw
  simp only at hw
  split at hw
  next => exact Or.inl hw
  next =>
    simp only [List.mem_append, List.mem_cons, List.mem_singleton, List.not_mem_nil,
      or_false] at hw
    rcases hw with hw | hw | hw
    · exact Or.inl hw
    · subst hw; exact Or.inr ⟨[t, "ini_groups", lg.name, "luns", "mgmt"], rfl⟩
    · subst hw; exact Or.inr ⟨[t, "ini_groups", "mgmt"], rfl⟩

theorem removeTargetIniStep_frame (d t d' t' : String) (r : Res) (lg : LiveIniGroup)
    (hne : ¬ d' = d) :
    findTarget (removeTargetIniStep d t r lg).2 d' t' = findTarget r.2 d' t' := by
  rcases r with ⟨ws, s⟩
  unfold removeTargetIniStep
  simp only
  split
  next => rfl
  next => exact findTarget_updTarget_ne s d t d' t' _ (fun lt => rfl) (fun hc => hne hc.1.symm)

theorem removeTargetIniGroups_writes (d t : String) (s : SysfsState) :
    ∀ w ∈ (removeTargetIniGroups d t s).1, pathUnderDriver d w := by
  intro w hw
  unfold removeTargetIniGroups at hw
  split at hw
  next lt hlt =>
    split at hw
    next =>
      rcases foldl_res_writes (removeTargetIniStep d t) (pathUnderDriver d)
        (removeTargetIniStep_writes d t) lt.iniGroups ([], s) w hw with h | h
      · exact absurd h (List.not_mem_nil w)
      · exact h
    next => exact absurd hw (List.not_mem_nil w)
  next => exact absurd hw (List.not_mem_nil w)

theorem removeTargetIniGroups_frame (d t d' t' : String) (s : SysfsState) (hne : ¬ d' = d) :
    findTarget (removeTargetIniGroups d t s).2 d' t' = findTarget s d' t' := by
  unfold removeTargetIniGroups
  split
  next lt hlt =>
    split
    next =>
      exact foldl_res_findTarget (removeTargetIniStep d t) d' t'
        (fun r lg => removeTargetIniStep_frame d t d' t' r lg hne) lt.iniGroups ([], s)
    next => rfl
  next => rfl

theorem removeTarget_writes (d t : String) (s : SysfsState) :
    ∀ w ∈ (removeTarget d t s).1, pathUnderDriver d w := by
  intro w hw
  unfold removeTarget at hw
  split at hw
  next => exact absurd hw (List.not_mem_nil w)
  next _ =>
    rcases h1 : disableTargetIfPossible d t s with ⟨ws1, s1⟩
    rw [h1] at hw
    dsimp only at hw
    rcases h2 : forceCloseTargetSessions d t s1 with ⟨⟨ws2, s2⟩, b⟩
    rw [h2] at hw
    dsimp only at hw
    rcases h3 : removeTargetLunsClear d t s2 with ⟨ws3, s3⟩
    rw [h3] at hw
    dsimp only at hw
    rcases h4 : removeTargetIniGroups d t s3 with ⟨ws4, s4⟩
    rw [h4] at hw
    dsimp only at hw
    simp only [List.mem_append, List.mem_singleton] at hw
    rcases hw with ((((hw | hw) | hw) | hw) | hw)
    · exact disableTarget_writes d t s w (by rw [h1]; exact hw)
    · exact forceClose_writes d t s1 w (by rw [h2]; exact hw)
    · exact removeTargetLunsClear_writes d t s2 w (by rw [h3]; exact hw)
    · exact removeTargetIniGroups_writes d t s3 w (by rw [h4]; exact hw)
    · subst hw
      exact ⟨["mgmt"], rfl⟩

theorem removeTarget_frame (d t d' t' : String) (s : SysfsState) (hne : ¬ d' = d) :
    findTarget (removeTarget d t s).2 d' t' = findTarget s d' t' := by
  unfold removeTarget
  split
  next => rfl
  next _ =>
    rcases h1 : disableTargetIfPossible d t s with ⟨ws1, s1⟩
    dsimp only
    rcases h2 : forceCloseTargetSessions d t s1 with ⟨⟨ws2, s2⟩, b⟩
    dsimp only
    rcases h3 : removeTargetLunsClear d t s2 with ⟨ws3, s3⟩
    dsimp only
    rcases h4 : removeTargetIniGroups d t s3 with ⟨ws4, s4⟩
    dsimp only
    rw [findTarget_updDriver_ne s4 d d' t'
      (fun ld => { ld with targets := ld.targets.filter (fun lt => lt.name ≠ t) })
      (fun ld => rfl) hne]
    have e4 : findTarget s4 d' t' = findTarget s3 d' t' := by
      have := removeTargetIniGroups_frame d t d' t' s3 hne
      rw [h4] at this
      exact this
    have e3 : findTarget s3 d' t' = findTarget s2 d' t' := by
      have := removeTargetLunsClear_frame d t d' t' s2 hne
      rw [h3] at this
      exact this
    have e2 : findTarget s2 d' t' = findTarget s1 d' t' := by
      have := forceClose_frame d t d' t' s1 hne
      rw [h2] at this
      exact this
    have e1 : findTarget s1 d' t' = findTarget s d' t' := by
      have := disableTarget_frame d t d' t' s hne
      rw [h1] at this
      exact this
    rw [e4, e3, e2, e1]

theorem removeObsoleteLuns_writes (d t : String) (ct nt : TargetConfig) (s : SysfsState) :
    ∀ w ∈ (removeObsoleteLuns d t ct nt s).1, pathUnderDriver d w := by
  intro w hw
  unfold removeObsoleteLuns at hw
  rcases foldl_res_writes _ (pathUnderDriver d)
    (fun r n w hw => by
      dsimp only at hw
      split at hw
      next =>
        simp only [List.mem_append, List.mem_singleton] at hw
        rcases hw with hw | hw
        · exact Or.inl hw
        · subst hw; exact Or.inr ⟨[t, "luns", "mgmt"], rfl⟩
      next => exact Or.inl hw)
    _ _ w hw with h | h
  · exact absurd h (List.not_mem_nil w)
  · exact h

theorem removeObsoleteLuns_frame (d t d' t' : String) (ct nt : TargetConfig) (s : SysfsState)
    (hne : ¬ d' = d) :
    findTarget (removeObsoleteLuns d t ct nt s).2 d' t' = findTarget s d' t' := by
  unfold removeObsoleteLuns
  exact foldl_res_findTarget _ d' t'
    (fun r n => by
      dsimp only
      split
      next =>
        exact findTarget_updTarget_ne r.2 d t d' t' _ (fun lt => rfl) (fun hc => hne hc.1.symm)
      next => rfl)
    _ ([], s)

theorem removeObsoleteGroups_writes (d t : String) (ct nt : TargetConfig) (s : SysfsState) :
    ∀ w ∈ (removeObsoleteGroups d t ct nt s).1, pathUnderDriver d w := by
  intro w hw
  unfold removeObsoleteGroups at hw
  rcases foldl_res_writes _ (pathUnderDriver d)
    (fun r g w hw => by
      dsimp only at hw
      split at hw
      next =>
        simp only [List.mem_append, List.mem_cons, List.mem_singleton, List.not_mem_nil,
          or_false] at hw
        rcases hw with hw | hw | hw
        · exact Or.inl hw
        · subst hw; exact Or.inr ⟨[t, "ini_groups", g, "luns", "mgmt"], rfl⟩
        · subst hw; exact Or.inr ⟨[t, "ini_groups", "mgmt"], rfl⟩
      next => exact Or.inl hw)
    _ _ w hw with h | h
  · exact absurd h (List.not_mem_nil w)
  · exact h

theorem removeObsoleteGroups_frame (d t d' t' : String) (ct nt : TargetConfig) (s : SysfsState)
    (hne : ¬ d' = d) :
    findTarget (removeObsoleteGroups d t ct nt s).2 d' t' = findTarget s d' t' := by
  unfold removeObsoleteGroups
  exact foldl_res_findTarget _ d' t'
    (fun r g => by
      dsimp only
      split
      next =>
        exact findTarget_updTarget_ne r.2 d t d' t' _ (fun lt => rfl) (fun hc => hne hc.1.symm)
      next => rfl)
    _ ([], s)

theorem removeDriverAttribute_writes (d attr : String) (s : SysfsState) :
    ∀ w ∈ (removeDriverAttribute d attr s).1, w.path = SCST_TARGETS ++ [d, attr] := by
  intro w hw
  unfold removeDriverAttribute at hw
  split at hw
  next => exact absurd hw (List.not_mem_nil w)
  next ld hld =>
    split at hw
    next => exact absurd hw (List.not_mem_nil w)
    next cur hcur =>
      split at hw
      next dv hdv =>
        split at hw
        next =>
          simp only [List.mem_singleton] at hw
          subst hw
          rfl
        next => exact absurd hw (List.not_mem_nil w)
      next =>
        simp only [List.mem_singleton] at hw
        subst hw
        rfl

theorem removeDriverAttribute_frame (d attr d' t' : String) (s : SysfsState) :
    findTarget (removeDriverAttribute d attr s).2 d' t' = findTarget s d' t' := by
  unfold removeDriverAttribute
  split
  next => rfl
  next ld hld =>
    split
    next => rfl
    next cur hcur =>
      split
      next dv hdv =>
        split
        next =>
          exact findTarget_updDriver_pres s d d' t' _ (fun ld => rfl) (fun ld => rfl)
        next => rfl
      next =>
        exact findTarget_updDriver_pres s d d' t' _ (fun ld => rfl) (fun ld => rfl)

theorem removeDeviceGroup_writes (g : String) (s : SysfsState) :
    ∀ w ∈ (removeDeviceGroup g s).1, ∃ l, w.path = SCST_DEV_GROUPS ++ l := by
  intro w hw
  unfold removeDeviceGroup at hw
  split at hw
  next => exact absurd hw (List.not_mem_nil w)
  next dg hdg =>
    dsimp only at hw
    simp only [List.mem_append, List.mem_singleton, List.mem_map] at hw
    rcases hw with (⟨tg, _, hw⟩ | ⟨dv, _, hw⟩) | hw
    · subst hw; exact ⟨[g, "target_groups", "mgmt"], rfl⟩
    · subst hw; exact ⟨[g, "devices", "mgmt"], rfl⟩
    · subst hw; exact ⟨["mgmt"], rfl⟩

theorem removeDeviceGroup_frame (g d' t' : String) (s : SysfsState) :
    findTarget (removeDeviceGroup g s).2 d' t' = findTarget s d' t' := by
  unfold removeDeviceGroup
  split
  next => rfl
  next dg hdg => rfl

theorem removeDeviceByName_writes (n : String) (s : SysfsState) :
    ∀ w ∈ (removeDeviceByName n s).1, ∃ l, w.path = SCST_HANDLERS ++ l := by
  intro w hw
  unfold removeDeviceByName at hw
  split at hw
  next => exact absurd hw (List.not_mem_nil w)
  next lh hlh =>
    simp only [List.mem_singleton] at hw
    subst hw
    exact ⟨[lh.name, "mgmt"], rfl⟩

theorem removeDeviceByName_frame (n d' t' : String) (s : SysfsState) :
    findTarget (removeDeviceByName n s).2 d' t' = findTarget s d' t' := by
  unfold removeDeviceByName
  split
  next => rfl
  next lh hlh => rfl

theorem foldl_res_writes_mem {α : Type} (f : Res → α → Res) (P : α → W → Prop) :
    ∀ (l : List α), (∀ r, ∀ x ∈ l, ∀ w ∈ (f r x).1, w ∈ r.1 ∨ P x w) →
      ∀ r, ∀ w ∈ (l.foldl f r).1, w ∈ r.1 ∨ ∃ x ∈ l, P x w := by
  intro l
  induction l with
  | nil => intro _ r w hw; exact Or.inl hw
  | cons x xs ih =>
      intro hf r w hw
      simp only [List.foldl_cons] at hw
      rcases ih (fun r y hy w hw => hf r y (by simp [hy]) w hw) (f r x) w hw with h | ⟨y, hy, hP⟩
      · rcases hf r x (by simp) w h with h2 | h2
        · exact Or.inl h2
        · exact Or.inr ⟨x, by simp, h2⟩
      · exact Or.inr ⟨y, by simp [hy], hP⟩

theorem removeObsoleteDriverAttributes_writes (cur new : SCSTConfig) (s : SysfsState) :
    ∀ w ∈ (removeObsoleteDriverAttributes cur new s).1,
      ∃ dp ∈ cur.drivers, ∃ kv ∈ dp.2.attributes, w.path = SCST_TARGETS ++ [dp.1, kv.1] := by
  intro w hw
  unfold removeObsoleteDriverAttributes at hw
  rcases foldl_res_writes_mem _
    (fun dp w => ∃ kv ∈ dp.2.attributes, w.path = SCST_TARGETS ++ [dp.1, kv.1])
    cur.drivers
    (fun r dp _ w hw => by
      rcases dp with ⟨dn, cdc⟩
      dsimp only at hw
      split at hw
      next => exact Or.inl hw
      next ndc hndc =>
        rcases foldl_res_writes_mem _
          (fun (kv : String × String) w => w.path = SCST_TARGETS ++ [dn, kv.1])
          cdc.attributes
          (fun r2 kv _ w hw => by
            rcases r2 with ⟨ws2, s2⟩
            dsimp only at hw
            split at hw
            next =>
              simp only [List.mem_append] at hw
              rcases hw with hw | hw
              · exact Or.inl hw
              · exact Or.inr (removeDriverAttribute_writes dn kv.1 s2 w hw)
            next => exact Or.inl hw)
          r w hw with h | ⟨kv, hkv, hP⟩
        · exact Or.inl h
        · exact Or.inr ⟨kv, hkv, hP⟩)
    ([], s) w hw with h | ⟨dp, hdp, kv, hkv, hP⟩
  · exact absurd h (List.not_mem_nil w)
  · exact ⟨dp, hdp, kv, hkv, hP⟩

theorem removeObsoleteDriverAttributes_frame (cur new : SCSTConfig) (s : SysfsState)
    (d' t' : String) :
    findTarget (removeObsoleteDriverAttributes cur new s).2 d' t' = findTarget s d' t' := by
  unfold removeObsoleteDriverAttributes
  exact foldl_res_findTarget _ d' t'
    (fun r dp => by
      rcases dp with ⟨dn, cdc⟩
      dsimp only
      split
      next => rfl
      next ndc hndc =>
        exact foldl_res_findTarget _ d' t'
          (fun r2 kv => by
            rcases r2 with ⟨ws2, s2⟩
            dsimp only
            split
            next => exact removeDriverAttribute_frame dn kv.1 d' t' s2
            next => rfl)
          cdc.attributes r)
    cur.drivers ([], s)

/-- C10: the conflict-removal phase never removes copy_manager targets.
Every removal-phase write whose path lies under `targets/copy_manager/` is
a driver-attribute reset: a two-segment path under the driver directory
that is never the target-management file `targets/copy_manager/mgmt`, the
only file through which targets are deleted (the hypothesis rules out a
current-configuration copy_manager driver attribute literally named
`mgmt`, a name sysfs reserves); and the live copy_manager target tree is
left exactly as it was, regardless of the desired configuration. -/
theorem C10_copy_manager_targets_never_removed (cur new : SCSTConfig) (s : SysfsState)
    (t' : String)
    (hattrs : ∀ dp ∈ cur.drivers, dp.1 = "copy_manager" →
      ∀ kv ∈ dp.2.attributes, kv.1 ≠ "mgmt") :
    (∀ w ∈ (removeConflictingConfig cur new s).1,
        (SCST_TARGETS ++ ["copy_manager"]).isPrefixOf w.path = true →
          w.path.length = SCST_TARGETS.length + 2 ∧
          w.path ≠ SCST_TARGETS ++ ["copy_manager", "mgmt"]) ∧
    findTarget (removeConflictingConfig cur new s).2 "copy_manager" t' =
      findTarget s "copy_manager" t' := by
  constructor
  · intro w hw hpre
    unfold removeConflictingConfig at hw
    dsimp only at hw
    simp only [List.mem_append] at hw
    have hresolve : (∃ l, w.path = SCST_DEV_GROUPS ++ l) ∨
        (∃ dn rest, ¬ dn = "copy_manager" ∧ w.path = SCST_TARGETS ++ dn :: rest) ∨
        (∃ dp ∈ cur.drivers, ∃ kv ∈ dp.2.attributes,
          w.path = SCST_TARGETS ++ [dp.1, kv.1]) ∨
        (∃ l, w.path = SCST_HANDLERS ++ l) := by
      rcases hw with (hw | hw) | hw
      · rcases foldl_res_writes_mem _
          (fun (dp : String × DriverConfig) w =>
            ¬ dp.1 = "copy_manager" ∧ pathUnderDriver dp.1 w)
          cur.drivers
          (fun r dp _ w hw => by
            rcases dp with ⟨dn, dcfg⟩
            dsimp only at hw
            split at hw
            next => exact Or.inl hw
            next hcm =>
              rcases foldl_res_writes _ (pathUnderDriver dn)
                (fun r2 tp w hw => by
                  rcases r2 with ⟨ws2, s2⟩
                  rcases tp with ⟨tn, tcfg⟩
                  dsimp only at hw
                  split at hw
                  next =>
                    simp only [List.mem_append] at hw
                    rcases hw with hw | hw
                    · exact Or.inl hw
                    · exact Or.inr (removeTarget_writes dn tn s2 w hw)
                  next ntc hntc =>
                    simp only [List.mem_append] at hw
                    rcases hw with (hw | hw) | hw
                    · exact Or.inl hw
                    · exact Or.inr (removeObsoleteLuns_writes dn tn tcfg ntc s2 w hw)
                    · exact Or.inr (removeObsoleteGroups_writes dn tn tcfg ntc
                        (removeObsoleteLuns dn tn tcfg ntc s2).2 w hw))
                dcfg.targets r w hw with h | h
              · exact Or.inl h
              · exact Or.inr ⟨hcm, h⟩)
          _ w hw with h | ⟨dp, _, hne, rest, hP⟩
        · rcases foldl_res_writes _ (fun w => ∃ l, w.path = SCST_DEV_GROUPS ++ l)
            (fun r gp w hw => by
              rcases r with ⟨ws1, s1⟩
              dsimp only at hw
              split at hw
              next =>
                simp only [List.mem_append] at hw
                rcases hw with hw | hw
                · exact Or.inl hw
                · exact Or.inr (removeDeviceGroup_writes gp.1 s1 w hw)
              next => exact Or.inl hw)
            cur.deviceGroups ([], s) w h with h2 | h2
          · exact absurd h2 (List.not_mem_nil w)
          · exact Or.inl h2
        · exact Or.inr (Or.inl ⟨dp.1, rest, hne, hP⟩)
      · rcases removeObsoleteDriverAttributes_writes cur new _ w hw with ⟨dp, hdp, kv, hkv, hP⟩
        exact Or.inr (Or.inr (Or.inl ⟨dp, hdp, kv, hkv, hP⟩))
      · rcases foldl_res_writes _ (fun w => ∃ l, w.path = SCST_HANDLERS ++ l)
          (fun r dp w hw => by
            rcases r with ⟨ws4, s4⟩
            dsimp only at hw
            split at hw
            next =>
              simp only [List.mem_append] at hw
              rcases hw with hw | hw
              · exact Or.inl hw
              · exact Or.inr (removeDeviceByName_writes dp.1 s4 w hw)
            next => exact Or.inl hw)
          cur.devices _ w hw with h | h
        · exact absurd h (List.not_mem_nil w)
        · exact Or.inr (Or.inr (Or.inr h))
    rcases hresolve with ⟨l, hP⟩ | ⟨dn, rest, hne, hP⟩ | ⟨dp, hdp, kv, hkv, hP⟩ | ⟨l, hP⟩
    · rw [hP, cm_prefix_not_dev_groups] at hpre
      exact absurd hpre (by decide)
    · exact absurd ((cm_prefix_under_targets dn rest).mp (by rw [← hP]; exact hpre)) hne
    · have hcm : dp.1 = "copy_manager" :=
        (cm_prefix_under_targets dp.1 [kv.1]).mp (by rw [← hP]; exact hpre)
      have hkvne : kv.1 ≠ "mgmt" := hattrs dp hdp hcm kv hkv
      constructor
      · rw [hP]
        simp
      · intro heq
        rw [hP] at heq
        have h2 : [dp.1, kv.1] = ["copy_manager", "mgmt"] := by
          have := congrArg (List.drop SCST_TARGETS.length) heq
          simpa [List.drop_left] using this
        simp only [List.cons.injEq] at h2
        exact hkvne h2.2.1
    · rw [hP, cm_prefix_not_handlers] at hpre
      exact absurd hpre (by decide)
  · unfold removeConflictingConfig
    dsimp only
    rw [foldl_res_findTarget _ "copy_manager" t' ?h4 cur.devices]
    case h4 =>
      intro r dp
      dsimp only
      split
      next => exact removeDeviceByName_frame dp.1 "copy_manager" t' r.2
      next => rfl
    dsimp only
    rw [removeObsoleteDriverAttributes_frame cur new _ "copy_manager" t']
    rw [foldl_res_findTarget _ "copy_manager" t' ?h2 cur.drivers]
    case h2 =>
      intro r dp
      rcases dp with ⟨dn, dcfg⟩
      dsimp only
      split
      next => rfl
      next hcm =>
        exact foldl_res_findTarget _ "copy_manager" t'
          (fun r2 tp => by
            rcases r2 with ⟨ws2, s2⟩
            rcases tp with ⟨tn, tcfg⟩
            dsimp only
            split
            next =>
              exact removeTarget_frame dn tn "copy_manager" t' s2 (fun he => hcm he.symm)
            next ntc hntc =>
              rw [removeObsoleteGroups_frame dn tn "copy_manager" t' tcfg ntc _
                  (fun he => hcm he.symm),
                removeObsoleteLuns_frame dn tn "copy_manager" t' tcfg ntc s2
                  (fun he => hcm he.symm)])
          dcfg.targets r
    rw [foldl_res_findTarget _ "copy_manager" t' ?h1 cur.deviceGroups]
    case h1 =>
      intro r gp
      dsimp only
      split
      next => exact removeDeviceGroup_frame gp.1 "copy_manager" t' r.2
      next => rfl

/-- Current configuration for the C10 witness: a copy_manager driver with
one target and one keyed driver attribute, all absent from the (empty)
desired configuration. -/
def cur10 : SCSTConfig :=
  { drivers := [("copy_manager",
      { targets := [("copy_manager_tgt", { luns := [], groups := [], attributes := [] })],
        attributes := [("trace_level", "1")] })] }

theorem C10_copy_manager_targets_never_removed_witness :
    (∀ w ∈ (removeConflictingConfig cur10 {} dupLunState).1,
        (SCST_TARGETS ++ ["copy_manager"]).isPrefixOf w.path = true →
          w.path.length = SCST_TARGETS.length + 2 ∧
          w.path ≠ SCST_TARGETS ++ ["copy_manager", "mgmt"]) ∧
    findTarget (removeConflictingConfig cur10 {} dupLunState).2 "copy_manager"
        "copy_manager_tgt" =
      findTarget dupLunState "copy_manager" "copy_manager_tgt" :=
  C10_copy_manager_targets_never_removed cur10 {} dupLunState "copy_manager_tgt"
    (by decide)

theorem findTarget_updTarget_self (s : SysfsState) (d t : String)
    (f : LiveTarget → LiveTarget) (hf : ∀ lt, (f lt).name = lt.name) :
    findTarget (updTarget s d t f) d t = (findTarget s d t).map f := by
  unfold findTarget updTarget findDriver updDriver
  rw [find?_name_map_drivers d d
    (fun ld => { ld with targets := ld.targets.map (fun lt => if lt.name = t then f lt else lt) })
    (fun ld => rfl)]
  cases hld : s.drivers.find? (fun ld => ld.name = d) with
  | none => rfl
  | some ld =>
      simp only [Option.map]
      split
      next =>
        rw [find?_name_map_targets t t f hf]
        cases hlt : ld.targets.find? (fun lt => lt.name = t) with
        | none => rfl
        | some lt =>
            have hname : lt.name = t := by
              have := List.find?_some hlt
              simpa using this
            simp only [Option.map]
            rw [hname, if_pos rfl]
      next hne =>
        exact absurd (by
          have := List.find?_some hld
          simpa using this) hne

theorem cm_lunsToRemove_fold (D : AttrMap) (luns : List LiveLun) :
    ∀ acc : List String,
      luns.foldl (fun acc l =>
        match amFind D l.device with
        | some expected => if expected ≠ l.number then acc ++ [l.number] else acc
        | none => acc ++ [l.number]) acc =
      acc ++ (luns.filter
        (fun l => ¬ (amFind D l.device = some l.number))).map LiveLun.number := by
  induction luns with
  | nil => intro acc; simp
  | cons l rest ih =>
      intro acc
      simp only [List.foldl_cons]
      cases h : amFind D l.device with
      | none =>
          rw [ih]
          simp [List.filter_cons, h]
      | some e =>
          by_cases he : e = l.number
          · simp only [h]
            rw [if_neg (by simpa using he)]
            rw [ih]
            simp [List.filter_cons, h, he]
          · simp only [h]
            rw [if_pos (by simpa using he)]
            rw [ih]
            simp [List.filter_cons, h, he]

theorem cm_delete_fold (ns : List String) :
    ∀ (ws0 : List W) (s : SysfsState) (lt : LiveTarget),
      findTarget s "copy_manager" "copy_manager_tgt" = some lt →
      (∀ n ∈ ns, n ∈ lt.luns.map LiveLun.number) →
      ns.Nodup →
      (ns.foldl
          (fun (r : Res) n =>
            if lunExists r.2 "copy_manager" "copy_manager_tgt" n then
              (r.1 ++ [(⟨SCST_TARGETS ++ ["copy_manager", "copy_manager_tgt", "luns", "mgmt"],
                  "del " ++ n⟩ : W)],
               delLiveLun r.2 "copy_manager" "copy_manager_tgt" n)
            else (r.1, r.2))
          (ws0, s)).1 =
        ws0 ++ ns.map (fun n =>
          (⟨SCST_TARGETS ++ ["copy_manager", "copy_manager_tgt", "luns", "mgmt"],
            "del " ++ n⟩ : W)) ∧
      findTarget (ns.foldl
        (fun (r : Res) n =>
            if lunExists r.2 "copy_manager" "copy_manager_tgt" n then
              (r.1 ++ [(⟨SCST_TARGETS ++ ["copy_manager", "copy_manager_tgt", "luns", "mgmt"],
                  "del " ++ n⟩ : W)],
               delLiveLun r.2 "copy_manager" "copy_manager_tgt" n)
            else (r.1, r.2))
          (ws0, s)).2 "copy_manager" "copy_manager_tgt" =
        some { lt with luns := lt.luns.filter (fun l => ¬ ns.contains l.number) } := by
  induction ns with
  | nil =>
      intro ws0 s lt hlt _ _
      constructor
      · simp
      · simpa using hlt
  | cons n rest ih =>
      intro ws0 s lt hlt hmem hnodup
      have hex : lunExists s "copy_manager" "copy_manager_tgt" n = true := by
        unfold lunExists
        rw [hlt]
        have := hmem n (by simp)
        simp only [List.mem_map] at this
        obtain ⟨l, hl, hln⟩ := this
        simp only [List.any_eq_true]
        exact ⟨l, hl, by simp [hln]⟩
      simp only [List.foldl_cons, hex, if_true]
      have hft1 : findTarget (delLiveLun s "copy_manager" "copy_manager_tgt" n)
          "copy_manager" "copy_manager_tgt" =
          some { lt with luns := lt.luns.filter (fun l => l.number ≠ n) } := by
        unfold delLiveLun
        rw [findTarget_updTarget_self s "copy_manager" "copy_manager_tgt"
          (fun lt => { lt with luns := lt.luns.filter (fun l => l.number ≠ n) })
          (fun lt => rfl), hlt]
        rfl
      have hmem1 : ∀ m ∈ rest,
          m ∈ ({ lt with luns := lt.luns.filter (fun l => l.number ≠ n) } :
            LiveTarget).luns.map LiveLun.number := by
        intro m hm
        have hm0 := hmem m (by simp [hm])
        simp only [List.mem_map] at hm0 ⊢
        obtain ⟨l, hl, hln⟩ := hm0
        refine ⟨l, ?_, hln⟩
        simp only [List.mem_filter]
        refine ⟨hl, ?_⟩
        have hmn : m ≠ n := by
          intro he
          subst he
          exact (List.nodup_cons.mp hnodup).1 hm
        simp [hln, hmn]
      have hnd1 : rest.Nodup := (List.nodup_cons.mp hnodup).2
      obtain ⟨ih1, ih2⟩ := ih (ws0 ++ [(⟨SCST_TARGETS ++
        ["copy_manager", "copy_manager_tgt", "luns", "mgmt"], "del " ++ n⟩ : W)])
        (delLiveLun s "copy_manager" "copy_manager_tgt" n)
        { lt with luns := lt.luns.filter (fun l => l.number ≠ n) } hft1 hmem1 hnd1
      constructor
      · rw [ih1]
        simp
      · rw [ih2]
        congr 2
        simp only [List.filter_filter]
        apply List.filter_congr
        intro l hl
        by_cases hln : l.number = n
        · simp [hln, List.contains_cons]
        · simp [hln, List.contains_cons]

/-- C5: with explicit copy-manager LUNs configured (a present copy_manager
driver entry whose `copy_manager_tgt` section maps at least one LUN to a
named device), the cleanup pass issues exactly one `del` for every live
copy-manager LUN whose device is absent from the explicit device map or
recorded there at a different number, keeps exactly the LUNs whose
device sits at its explicit number, and touches nothing else; with no
explicit copy-manager LUNs configured the pass does nothing at all. -/
theorem C5_cleanup_copy_manager_duplicates (cfg : SCSTConfig) (s : SysfsState)
    (cmc : DriverConfig) (tc : TargetConfig) (lt : LiveTarget)
    (halc : alFind cfg.drivers "copy_manager" = some cmc)
    (htc : alFind cmc.targets "copy_manager_tgt" = some tc)
    (hne : tc.luns ≠ [])
    (hDne : tc.luns.foldl (fun m p =>
      if p.2.device ≠ "" then amSet m p.2.device p.1 else m) [] ≠ [])
    (hlt : findTarget s "copy_manager" "copy_manager_tgt" = some lt)
    (hluns : lt.hasLuns = true)
    (hnodup : (lt.luns.map LiveLun.number).Nodup) :
    ((cleanupCopyManagerDuplicates cfg s).1 =
      (lt.luns.filter (fun l => ¬ (amFind (tc.luns.foldl (fun m p =>
          if p.2.device ≠ "" then amSet m p.2.device p.1 else m) []) l.device =
        some l.number))).map
        (fun l => (⟨SCST_TARGETS ++ ["copy_manager", "copy_manager_tgt", "luns", "mgmt"],
          "del " ++ l.number⟩ : W)) ∧
     findTarget (cleanupCopyManagerDuplicates cfg s).2 "copy_manager" "copy_manager_tgt" =
      some { lt with luns := lt.luns.filter (fun l =>
        amFind (tc.luns.foldl (fun m p =>
          if p.2.device ≠ "" then amSet m p.2.device p.1 else m) []) l.device =
        some l.number) }) ∧
    (∀ cfg2 : SCSTConfig, ∀ s2 : SysfsState,
      (∀ c, alFind cfg2.drivers "copy_manager" = some c →
        (match alFind c.targets "copy_manager_tgt" with
         | some tc2 => tc2.luns
         | none => ([] : List (String × LunConfig))) = []) →
      cleanupCopyManagerDuplicates cfg2 s2 = ([], s2)) := by
  constructor
  · have hmain : cleanupCopyManagerDuplicates cfg s =
        ((lt.luns.filter (fun l => ¬ (amFind (tc.luns.foldl (fun m p =>
            if p.2.device ≠ "" then amSet m p.2.device p.1 else m) []) l.device =
          some l.number))).map LiveLun.number).foldl
          (fun (r : Res) n =>
            if lunExists r.2 "copy_manager" "copy_manager_tgt" n then
              (r.1 ++ [(⟨SCST_TARGETS ++ ["copy_manager", "copy_manager_tgt", "luns", "mgmt"],
                  "del " ++ n⟩ : W)],
               delLiveLun r.2 "copy_manager" "copy_manager_tgt" n)
            else (r.1, r.2))
          ([], s) := by
      unfold cleanupCopyManagerDuplicates
      rw [halc]
      dsimp only
      rw [htc]
      dsimp only
      rw [if_neg (by simp [hne])]
      rw [if_neg (by simpa using hDne)]
      rw [hlt]
      dsimp only
      rw [if_neg (by simp [hluns])]
      rw [cm_lunsToRemove_fold]
      rw [List.nil_append]
    set D : AttrMap := tc.luns.foldl (fun m p =>
      if p.2.device ≠ "" then amSet m p.2.device p.1 else m) [] with hD
    set p : LiveLun → Bool :=
      (fun l => ¬ (amFind D l.device = some l.number)) with hp
    have hmem : ∀ n ∈ (lt.luns.filter p).map LiveLun.number,
        n ∈ lt.luns.map LiveLun.number := by
      intro n hn
      simp only [List.mem_map] at hn ⊢
      obtain ⟨l, hl, hln⟩ := hn
      exact ⟨l, (List.mem_filter.mp hl).1, hln⟩
    have hnd : ((lt.luns.filter p).map LiveLun.number).Nodup :=
      List.Nodup.sublist (List.Sublist.map LiveLun.number (List.filter_sublist lt.luns)) hnodup
    obtain ⟨h1, h2⟩ := cm_delete_fold ((lt.luns.filter p).map LiveLun.number)
      [] s lt hlt hmem hnd
    constructor
    · rw [hmain, h1]
      simp [List.map_map, Function.comp]
    · rw [hmain, h2]
      congr 2
      apply List.filter_congr
      intro l hl
      have hinj := List.inj_on_of_nodup_map hnodup
      by_cases hgood : amFind D l.device = some l.number
      · have hnotin : l.number ∉ (lt.luns.filter p).map LiveLun.number := by
          intro hin
          simp only [List.mem_map] at hin
          obtain ⟨l2, hl2, he⟩ := hin
          have hl2m := (List.mem_filter.mp hl2).1
          have hl2p := (List.mem_filter.mp hl2).2
          have : l2 = l := hinj hl2m hl he
          subst this
          rw [hp] at hl2p
          simp [hgood] at hl2p
        simp [hgood, hnotin]
      · have hin : l.number ∈ (lt.luns.filter p).map LiveLun.number := by
          simp only [List.mem_map]
          refine ⟨l, List.mem_filter.mpr ⟨hl, ?_⟩, rfl⟩
          rw [hp]
          simp [hgood]
        simp [hgood, hin]
  · intro cfg2 s2 h
    unfold cleanupCopyManagerDuplicates
    cases halc2 : alFind cfg2.drivers "copy_manager" with
    | none => rfl
    | some c =>
        dsimp only
        rw [h c halc2]
        rfl

/-- Live copy-manager target for the C5 witness: auto-created LUN 3 for
`diskA`, and LUN 5 for `diskB`, which the explicit configuration does not
mention. -/
def c5Lt : LiveTarget :=
  { name := "copy_manager_tgt", attrs := [],
    hasLuns := true,
    luns := [{ number := "3", device := "diskA", attrs := [] },
             { number := "5", device := "diskB", attrs := [] }],
    hasIniGroups := false, iniGroups := [], hasSessions := false, sessions := [],
    lunsMgmtParams := [] }

def c5Driver : LiveDriver :=
  { name := "copy_manager", attrs := [], keyed := [], targets := [c5Lt], mgmtInfo := {} }

def c5State : SysfsState :=
  { handlers := [], drivers := [c5Driver], deviceGroups := [],
    scstAttrs := [], readerDriverAttrs := initialReaderDriverAttrs }

/-- Explicit copy-manager configuration: `diskA` at LUN 0. -/
def c5Tc : TargetConfig :=
  { luns := [("0", { device := "diskA", attributes := [] })], groups := [], attributes := [] }

def c5Cfg : SCSTConfig :=
  { drivers := [("copy_manager", { targets := [("copy_manager_tgt", c5Tc)], attributes := [] })] }

theorem C5_cleanup_copy_manager_duplicates_witness :
    ((cleanupCopyManagerDuplicates c5Cfg c5State).1 =
      (c5Lt.luns.filter (fun l => ¬ (amFind (c5Tc.luns.foldl (fun m p =>
          if p.2.device ≠ "" then amSet m p.2.device p.1 else m) []) l.device =
        some l.number))).map
        (fun l => (⟨SCST_TARGETS ++ ["copy_manager", "copy_manager_tgt", "luns", "mgmt"],
          "del " ++ l.number⟩ : W)) ∧
     findTarget (cleanupCopyManagerDuplicates c5Cfg c5State).2 "copy_manager"
        "copy_manager_tgt" =
      some { c5Lt with luns := c5Lt.luns.filter (fun l =>
        amFind (c5Tc.luns.foldl (fun m p =>
          if p.2.device ≠ "" then amSet m p.2.device p.1 else m) []) l.device =
        some l.number) }) ∧
    (∀ cfg2 : SCSTConfig, ∀ s2 : SysfsState,
      (∀ c, alFind cfg2.drivers "copy_manager" = some c →
        (match alFind c.targets "copy_manager_tgt" with
         | some tc2 => tc2.luns
         | none => ([] : List (String × LunConfig))) = []) →
      cleanupCopyManagerDuplicates cfg2 s2 = ([], s2)) :=
  C5_cleanup_copy_manager_duplicates c5Cfg c5State
    { targets := [("copy_manager_tgt", c5Tc)], attributes := [] } c5Tc c5Lt
    (by decide) (by decide) (by decide) (by decide) (by decide) (by decide) (by decide)

theorem foldl_nop {α : Type} (f : Res → α → Res) :
    ∀ (l : List α), (∀ r, ∀ x ∈ l, f r x = r) → ∀ r, l.foldl f r = r := by
  intro l
  induction l with
  | nil => intro _ r; rfl
  | cons x xs ih =>
      intro hf r
      simp only [List.foldl_cons]
      rw [hf r x (by simp)]
      exact ih (fun r y hy => hf r y (by simp [hy])) r

/-- The conflict-removal phase finds nothing to remove: every reported
device group, non-copy-manager target, driver attribute and device of the
read-back current configuration is covered by the desired one (and the
reader reports targets with empty LUN/group maps, as `read_drivers`
does). -/
def removalAligned (cur new : SCSTConfig) : Bool :=
  cur.deviceGroups.all (fun gp => (new.deviceGroups.map (·.1)).contains gp.1) &&
  cur.drivers.all (fun dp =>
    dp.1 == "copy_manager" ||
    (match alFind new.drivers dp.1 with
     | none => false
     | some ndc => dp.2.targets.all (fun tp =>
         match alFind ndc.targets tp.1 with
         | some _ => tp.2.luns.isEmpty && tp.2.groups.isEmpty
         | none => false))) &&
  cur.drivers.all (fun dp =>
    match alFind new.drivers dp.1 with
    | none => true
    | some ndc => dp.2.attributes.all (fun kv => amHas ndc.attributes kv.1)) &&
  cur.devices.all (fun dv => (new.devices.map (·.1)).contains dv.1)

theorem removeObsoleteLuns_nil (d t : String) (ct nt : TargetConfig) (s : SysfsState)
    (h : ct.luns = []) : removeObsoleteLuns d t ct nt s = ([], s) := by
  unfold removeObsoleteLuns
  rw [h]
  rfl

theorem removeObsoleteGroups_nil (d t : String) (ct nt : TargetConfig) (s : SysfsState)
    (h : ct.groups = []) : removeObsoleteGroups d t ct nt s = ([], s) := by
  unfold removeObsoleteGroups
  rw [h]
  rfl

theorem removeObsoleteDriverAttributes_noop (cur new : SCSTConfig) (s : SysfsState)
    (h : ∀ dp ∈ cur.drivers,
      (match alFind new.drivers dp.1 with
       | none => true
       | some ndc => dp.2.attributes.all (fun kv => amHas ndc.attributes kv.1)) = true) :
    removeObsoleteDriverAttributes cur new s = ([], s) := by
  unfold removeObsoleteDriverAttributes
  apply foldl_nop
  intro r dp hdp
  rcases dp with ⟨dn, cdc⟩
  have hh := h (dn, cdc) hdp
  dsimp only
  cases hndc : alFind new.drivers dn with
  | none => rfl
  | some ndc =>
      rw [hndc] at hh
      simp only [List.all_eq_true] at hh
      apply foldl_nop
      intro r2 kv hkv
      dsimp only
      rw [if_neg (fun hn => hn (hh kv hkv))]

theorem removeConflicting_noop (cur new : SCSTConfig) (s : SysfsState)
    (h : removalAligned cur new = true) :
    removeConflictingConfig cur new s = ([], s) := by
  simp only [removalAligned, Bool.and_eq_true, List.all_eq_true] at h
  obtain ⟨⟨⟨h1, h2⟩, h3⟩, h4⟩ := h
  unfold removeConflictingConfig
  dsimp only
  rw [foldl_nop _ cur.deviceGroups ?s1 ([], s)]
  case s1 =>
    intro r gp hgp
    dsimp only
    rw [if_neg (fun hn => hn (h1 gp hgp))]
  dsimp only
  rw [foldl_nop _ cur.drivers ?s2 ([], s)]
  case s2 =>
    intro r dp hdp
    rcases dp with ⟨dn, dcfg⟩
    dsimp only
    by_cases hcm : dn = "copy_manager"
    · rw [if_pos hcm]
    · rw [if_neg hcm]
      have hh := h2 (dn, dcfg) hdp
      rw [Bool.or_eq_true] at hh
      rcases hh with hh | hh
      · exact absurd (by simpa using hh) hcm
      · apply foldl_nop
        intro r2 tp htp
        dsimp only
        cases hndc : alFind new.drivers dn with
        | none =>
            rw [hndc] at hh
            simp at hh
        | some ndc =>
            rw [hndc] at hh
            simp only [List.all_eq_true] at hh
            have htpc := hh tp htp
            dsimp only
            cases hntc : alFind ndc.targets tp.1 with
            | none =>
                rw [hntc] at htpc
                simp at htpc
            | some ntc =>
                rw [hntc] at htpc
                simp only [Bool.and_eq_true, List.isEmpty_iff] at htpc
                dsimp only
                rw [removeObsoleteLuns_nil dn tp.1 tp.2 ntc r2.2 htpc.1,
                  removeObsoleteGroups_nil dn tp.1 tp.2 ntc _ htpc.2]
                simp
  dsimp only
  rw [removeObsoleteDriverAttributes_noop cur new s (fun dp hdp => h3 dp hdp)]
  dsimp only
  rw [foldl_nop _ cur.devices ?s4 ([], s)]
  case s4 =>
    intro r dv hdv
    dsimp only
    rw [if_neg (fun hn => hn (h4 dv hdv))]
  rfl

theorem foldl_nop_state {α : Type} (f : Res → α → Res) (s : SysfsState) :
    ∀ (l : List α), (∀ ws x, x ∈ l → f (ws, s) x = (ws, s)) →
      ∀ ws, l.foldl f (ws, s) = (ws, s) := by
  intro l
  induction l with
  | nil => intro _ ws; rfl
  | cons x xs ih =>
      intro hf ws
      simp only [List.foldl_cons]
      rw [hf ws x (by simp)]
      exact ih (fun ws y hy => hf ws y (by simp [hy])) ws

/-- Every configured device exists live and decides SKIP. -/
def devicesRealized (cfg : SCSTConfig) (s : SysfsState) : Bool :=
  cfg.devices.all (fun dcp =>
    match findDevice s dcp.2.handlerType dcp.1 with
    | some dev =>
        determineDeviceAction dcp.2.creationParamsSet dcp.2.creationAttributes
          dcp.2.postCreationAttributes dev == ConfigAction.skip
    | none => false)

theorem applyConfigDevices_noop (cfg : SCSTConfig) (s : SysfsState)
    (h : devicesRealized cfg s = true) : applyConfigDevices cfg s = ([], s) := by
  simp only [devicesRealized, List.all_eq_true] at h
  unfold applyConfigDevices
  apply foldl_nop_state
  intro ws dcp hdcp
  have hh := h dcp hdcp
  rcases dcp with ⟨dn, dc⟩
  dsimp only
  cases hfd : findDevice s dc.handlerType dn with
  | none => rw [hfd] at hh; simp at hh
  | some dev =>
      rw [hfd] at hh
      dsimp only
      cases hact : determineDeviceAction dc.creationParamsSet dc.creationAttributes
          dc.postCreationAttributes dev with
      | skip => rfl
      | update =>
          dsimp only at hh
          rw [hact] at hh
          simp at hh
      | recreate =>
          dsimp only at hh
          rw [hact] at hh
          simp at hh

/-- Every configured target exists live, all its settable attributes match
the values read back, and none of the three assignment comparisons
reports a difference. -/
def assignmentsRealized (cfg : SCSTConfig) (s : SysfsState) : Bool :=
  cfg.drivers.all (fun dp => dp.2.targets.all (fun tp =>
    match findTarget s dp.1 tp.1 with
    | none => false
    | some lt =>
        let mgmt := getTargetMgmtInfo s dp.1
        let configAttrsToCheck := amKeys tp.2.attributes ++ mgmt.targetAttributes
        let existing := getCurrentTargetAttrs mgmt lt configAttrsToCheck
        let settable := tp.2.attributes.filter (fun kv => ¬ mgmt.createParams.contains kv.1)
        ¬ attrsConfigDiffers settable existing [] mgmt.targetAttributes &&
        ¬ directLunAssignmentsDiffer s dp.1 tp.1 tp.2 &&
        ¬ groupLunAssignmentsDiffer s dp.1 tp.1 tp.2 &&
        ¬ groupAssignmentsDiffer s dp.1 tp.1 tp.2))

theorem applyConfigAssignments_noop (cfg : SCSTConfig) (s : SysfsState)
    (h : assignmentsRealized cfg s = true) : applyConfigAssignments cfg s = ([], s) := by
  simp only [assignmentsRealized, List.all_eq_true] at h
  unfold applyConfigAssignments
  apply foldl_nop_state
  intro ws dp hdp
  have hh := h dp hdp
  rcases dp with ⟨dn, dcfg⟩
  dsimp only
  apply foldl_nop_state
  intro ws2 tp htp
  have hht := hh tp htp
  rcases tp with ⟨tn, tcfg⟩
  dsimp only
  dsimp only at hht
  cases hft : findTarget s dn tn with
  | none => rw [hft] at hht; simp at hht
  | some lt =>
      rw [hft] at hht
      dsimp only at hht
      dsimp only
      simp only [Bool.and_eq_true, decide_eq_true_eq] at hht
      obtain ⟨⟨⟨ha, hd⟩, hgl⟩, hg⟩ := hht
      rw [if_neg ha]
      dsimp only
      rw [if_neg hd, if_neg (fun hor => Or.elim hor hgl hg)]
      simp

/-- Every live copy-manager LUN sits at its explicitly configured number
(or there is nothing explicit to enforce). -/
def cleanupRealized (cfg : SCSTConfig) (s : SysfsState) : Bool :=
  match alFind cfg.drivers "copy_manager" with
  | none => true
  | some cmc =>
      let explicitLuns :=
        match alFind cmc.targets "copy_manager_tgt" with
        | some tc => tc.luns
        | none => []
      if explicitLuns.isEmpty then true
      else
        let explicitDevices : AttrMap :=
          explicitLuns.foldl (fun m p => if p.2.device ≠ "" then amSet m p.2.device p.1 else m) []
        if explicitDevices.isEmpty then true
        else
          match findTarget s "copy_manager" "copy_manager_tgt" with
          | none => true
          | some lt =>
              if ¬ lt.hasLuns then true
              else lt.luns.all (fun l => amFind explicitDevices l.device == some l.number)

theorem cleanupCopyManagerDuplicates_noop (cfg : SCSTConfig) (s : SysfsState)
    (h : cleanupRealized cfg s = true) : cleanupCopyManagerDuplicates cfg s = ([], s) := by
  unfold cleanupRealized at h
  unfold cleanupCopyManagerDuplicates
  cases hcmc : alFind cfg.drivers "copy_manager" with
  | none => rfl
  | some cmc =>
      rw [hcmc] at h
      dsimp only at h
      dsimp only
      by_cases he : (match alFind cmc.targets "copy_manager_tgt" with
          | some tc => tc.luns
          | none => ([] : List (String × LunConfig))).isEmpty = true
      · rw [if_pos he]
      · rw [if_neg he] at h ⊢
        by_cases hd : ((match alFind cmc.targets "copy_manager_tgt" with
            | some tc => tc.luns
            | none => ([] : List (String × LunConfig))).foldl
            (fun (m : AttrMap) (p : String × LunConfig) => if p.2.device ≠ "" then amSet m p.2.device p.1 else m) []).isEmpty = true
        · rw [if_pos hd]
        · rw [if_neg hd] at h ⊢
          cases hft : findTarget s "copy_manager" "copy_manager_tgt" with
          | none => rfl
          | some lt =>
              rw [hft] at h
              dsimp only at h
              dsimp only
              by_cases hl : lt.hasLuns = true
              · rw [if_neg (by simp [hl])] at h ⊢
                have hall : ∀ l ∈ lt.luns,
                    (amFind ((match alFind cmc.targets "copy_manager_tgt" with
                      | some tc => tc.luns
                      | none => ([] : List (String × LunConfig))).foldl
                      (fun (m : AttrMap) (p : String × LunConfig) => if p.2.device ≠ "" then amSet m p.2.device p.1 else m) [])
                      l.device = some l.number) := by
                  simp only [List.all_eq_true, beq_iff_eq] at h
                  exact h
                rw [cm_lunsToRemove_fold]
                have hfilter : lt.luns.filter (fun l =>
                    ¬ (amFind ((match alFind cmc.targets "copy_manager_tgt" with
                      | some tc => tc.luns
                      | none => ([] : List (String × LunConfig))).foldl
                      (fun (m : AttrMap) (p : String × LunConfig) => if p.2.device ≠ "" then amSet m p.2.device p.1 else m) [])
                      l.device = some l.number)) = [] := by
                  rw [List.filter_eq_nil_iff]
                  intro l hl2
                  simpa using hall l hl2
                rw [hfilter]
                rfl
              · rw [if_pos (by simp [hl])]

/-- Every configured device group exists live and matches its
configuration. -/
def deviceGroupsRealized (cfg : SCSTConfig) (s : SysfsState) : Bool :=
  cfg.deviceGroups.all (fun gp =>
    deviceGroupExists s gp.1 && deviceGroupConfigMatches s gp.1 gp.2)

theorem applyConfigDeviceGroups_noop (cfg : SCSTConfig) (s : SysfsState)
    (h : deviceGroupsRealized cfg s = true) : applyConfigDeviceGroups cfg s = ([], s) := by
  simp only [deviceGroupsRealized, List.all_eq_true, Bool.and_eq_true] at h
  unfold applyConfigDeviceGroups
  apply foldl_nop_state
  intro ws gp hgp
  obtain ⟨hex, hmatch⟩ := h gp hgp
  rcases gp with ⟨g, gcfg⟩
  dsimp only
  rw [if_pos hex, if_pos hmatch]

/-- Every target configured `enabled = 1` is already enabled live (or has
no live enabled file). -/
def enableTargetsRealized (cfg : SCSTConfig) (s : SysfsState) : Bool :=
  cfg.drivers.all (fun dp => dp.2.targets.all (fun tp =>
    if (amFind tp.2.attributes "enabled").getD "0" == "1" then
      match findTarget s dp.1 tp.1 with
      | some lt =>
          match amFind lt.attrs "enabled" with
          | some current => current == "1"
          | none => true
      | none => true
    else true))

theorem applyConfigEnableTargets_noop (cfg : SCSTConfig) (s : SysfsState)
    (h : enableTargetsRealized cfg s = true) : applyConfigEnableTargets cfg s = ([], s) := by
  simp only [enableTargetsRealized, List.all_eq_true] at h
  unfold applyConfigEnableTargets
  apply foldl_nop_state
  intro ws dp hdp
  apply foldl_nop_state
  intro ws2 tp htp
  have hht := h dp hdp tp htp
  rcases tp with ⟨tn, tcfg⟩
  unfold enableTargetStep
  dsimp only
  by_cases hen : (amFind tcfg.attributes "enabled").getD "0" = "1"
  · rw [if_pos hen]
    rw [if_pos (by simpa using hen)] at hht
    cases hft : findTarget s dp.1 tn with
    | none => rfl
    | some lt =>
        rw [hft] at hht
        dsimp only at hht
        dsimp only
        cases hcur : amFind lt.attrs "enabled" with
        | none => rfl
        | some current =>
            rw [hcur] at hht
            dsimp only at hht
            simp only [beq_iff_eq] at hht
            dsimp only
            rw [if_neg (by simp [hht])]
  · rw [if_neg hen]

/-- Every driver configured `enabled = 1` is already enabled live (or has
no live enabled file). -/
def enableDriversRealized (cfg : SCSTConfig) (s : SysfsState) : Bool :=
  cfg.drivers.all (fun dp =>
    if (amFind dp.2.attributes "enabled").getD "0" == "1" then
      match findDriver s dp.1 with
      | some ld =>
          match amFind ld.attrs "enabled" with
          | some current => current == "1"
          | none => true
      | none => true
    else true)

theorem applyConfigEnableDrivers_noop (cfg : SCSTConfig) (s : SysfsState)
    (h : enableDriversRealized cfg s = true) : applyConfigEnableDrivers cfg s = ([], s) := by
  simp only [enableDriversRealized, List.all_eq_true] at h
  unfold applyConfigEnableDrivers
  apply foldl_nop_state
  intro ws dp hdp
  have hh := h dp hdp
  rcases dp with ⟨dn, dcfg⟩
  dsimp only
  dsimp only at hh
  by_cases hen : (amFind dcfg.attributes "enabled").getD "0" = "1"
  · rw [if_pos hen]
    rw [if_pos (by simpa using hen)] at hh
    cases hfd : findDriver s dn with
    | none => rfl
    | some ld =>
        rw [hfd] at hh
        dsimp only at hh
        dsimp only
        cases hcur : amFind ld.attrs "enabled" with
        | none => rfl
        | some current =>
            rw [hcur] at hh
            dsimp only at hh
            simp only [beq_iff_eq] at hh
            dsimp only
            rw [if_neg (by simp [hh])]
  · rw [if_neg hen]

/-- Every configured non-`enabled` driver attribute already has its
desired live value (or no live file). -/
def driverAttrsRealized (cfg : SCSTConfig) (s : SysfsState) : Bool :=
  cfg.drivers.all (fun dp =>
    dp.2.attributes.all (fun kv =>
      kv.1 == "enabled" ||
      (match findDriver s dp.1 with
       | none => true
       | some ld =>
           match amFind ld.attrs kv.1 with
           | some current => current == kv.2
           | none => true)))

theorem applyConfigDriverAttributes_noop (cfg : SCSTConfig) (s : SysfsState)
    (h : driverAttrsRealized cfg s = true) : applyConfigDriverAttributes cfg s = ([], s) := by
  simp only [driverAttrsRealized, List.all_eq_true] at h
  unfold applyConfigDriverAttributes
  apply foldl_nop_state
  intro ws dp hdp
  have hh := h dp hdp
  rcases dp with ⟨dn, dcfg⟩
  dsimp only
  cases hfd : findDriver s dn with
  | none => rfl
  | some ld0 =>
      dsimp only
      apply foldl_nop_state
      intro ws2 kv hkv
      have hkk := hh kv hkv
      dsimp only
      by_cases hen : kv.1 = "enabled"
      · rw [if_pos hen]
      · rw [if_neg hen]
        rw [Bool.or_eq_true] at hkk
        rcases hkk with hkk | hkk
        · exact absurd (by simpa using hkk) hen
        · rw [hfd] at hkk
          dsimp only at hkk
          rw [hfd]
          dsimp only
          cases hcur : amFind ld0.attrs kv.1 with
          | none => rfl
          | some current =>
              rw [hcur] at hkk
              dsimp only at hkk
              simp only [beq_iff_eq] at hkk
              dsimp only
              rw [if_neg (by simp [hkk])]

/-- Every configured global SCST attribute already has its desired live
value (or no live file). -/
def scstAttrsRealized (cfg : SCSTConfig) (s : SysfsState) : Bool :=
  cfg.scstAttributes.all (fun kv =>
    match amFind s.scstAttrs kv.1 with
    | some current => current == kv.2
    | none => true)

theorem applyScstAttributes_noop (cfg : SCSTConfig) (s : SysfsState)
    (h : scstAttrsRealized cfg s = true) : applyScstAttributes cfg s = ([], s) := by
  simp only [scstAttrsRealized, List.all_eq_true] at h
  unfold applyScstAttributes
  apply foldl_nop_state
  intro ws kv hkv
  have hh := h kv hkv
  dsimp only
  cases hcur : amFind s.scstAttrs kv.1 with
  | none => rfl
  | some current =>
      rw [hcur] at hh
      dsimp only at hh
      simp only [beq_iff_eq] at hh
      dsimp only
      rw [if_neg (by simp [hh])]

/-- The live tree already realizes the desired configuration: every
stage of an apply finds its desired state in place (devices SKIP, target
attributes and assignments equal, copy-manager LUNs at their explicit
numbers, device groups matching, enablement and attribute values as
desired). -/
def realizes (cfg : SCSTConfig) (s : SysfsState) : Bool :=
  devicesRealized cfg s &&
  assignmentsRealized cfg s &&
  cleanupRealized cfg s &&
  deviceGroupsRealized cfg s &&
  enableTargetsRealized cfg s &&
  enableDriversRealized cfg s &&
  driverAttrsRealized cfg s &&
  scstAttrsRealized cfg s

theorem realizes_table_inv (cfg : SCSTConfig) (s : SysfsState) (X : List (String × List String)) :
    realizes cfg { s with readerDriverAttrs := X } = realizes cfg s := rfl

/-- C2 (amended): on a live tree that already realizes the desired
configuration — as the tree left by a converged apply does — a (re-)apply
performs zero mutating control-plane writes and leaves the tree untouched
(only the reader's in-memory driver-attribute table is extended).
The original unconditional claim is false: a configuration that maps one
device to two explicit copy-manager LUNs never reaches a realized tree,
and its second apply keeps issuing writes (see the counterexample). -/
theorem C2_realized_apply_is_silent (cfg : SCSTConfig) (s : SysfsState)
    (hrem : removalAligned (readCurrentConfig s).1 cfg = true)
    (hreal : realizes cfg s = true) :
    applyConfiguration cfg s = ([], (readCurrentConfig s).2) := by
  simp only [realizes, Bool.and_eq_true] at hreal
  obtain ⟨⟨⟨⟨⟨⟨⟨h1, h2⟩, h3⟩, h4⟩, h5⟩, h6⟩, h7⟩, h8⟩ := hreal
  unfold applyConfiguration
  dsimp only
  rw [removeConflicting_noop (readCurrentConfig s).1 cfg (readCurrentConfig s).2 hrem]
  dsimp only
  rw [applyConfigDevices_noop cfg (readCurrentConfig s).2 h1]
  dsimp only
  rw [applyConfigAssignments_noop cfg (readCurrentConfig s).2 h2]
  dsimp only
  rw [cleanupCopyManagerDuplicates_noop cfg (readCurrentConfig s).2 h3]
  dsimp only
  rw [applyConfigDeviceGroups_noop cfg (readCurrentConfig s).2 h4]
  dsimp only
  rw [applyConfigEnableTargets_noop cfg (readCurrentConfig s).2 h5]
  dsimp only
  rw [applyConfigEnableDrivers_noop cfg (readCurrentConfig s).2 h6]
  dsimp only
  rw [applyConfigDriverAttributes_noop cfg (readCurrentConfig s).2 h7]
  dsimp only
  rw [applyScstAttributes_noop cfg (readCurrentConfig s).2 h8]
  rfl

/-- C2 counterexample: the desired configuration maps device `d1` to two
explicit copy-manager LUNs (0 and 1).  The first apply issues
`add d1 0`, `add d1 1`, `del 0` — the cleanup pass immediately deletes
one of the two copies — so the live tree never realizes the
configuration, and the second apply is not silent: it issues four more
writes (`del 1`, `add d1 0`, `add d1 1`, `del 0`), oscillating forever. -/
theorem C2_second_apply_not_silent :
    ((alFind dupLunCfg.drivers "copy_manager").map (fun dcfg =>
        (alFind dcfg.targets "copy_manager_tgt").map (fun tc =>
          tc.luns.map (fun p => (p.1, p.2.device))))) =
      some (some [("0", "d1"), ("1", "d1")]) ∧
    (applyConfiguration dupLunCfg dupLunState).1.map (fun w => w.data) =
      ["add d1 0", "add d1 1", "del 0"] ∧
    (applyConfiguration dupLunCfg
        (applyConfiguration dupLunCfg dupLunState).2).1.map (fun w => w.data) =
      ["del 1", "add d1 0", "add d1 1", "del 0"] :=
  ⟨rfl, rfl, rfl⟩

/-- Desired configuration for the C2 witness: device `d1` as it already
exists live; no driver-level configuration. -/
def c2Cfg : SCSTConfig := { devices := [("d1", exDeviceCfg)] }

theorem C2_realized_apply_is_silent_witness :
    applyConfiguration c2Cfg dupLunState = ([], (readCurrentConfig dupLunState).2) :=
  C2_realized_apply_is_silent c2Cfg dupLunState (by decide) (by decide)
